import Mathlib

/-! MAPS protocol codec (maps_proto.c / maps_proto.h): embedding and properties

The C code is embedded shallowly:

* a byte (`uint8_t`, `char`) is a `Nat` below 256; C integer expressions that
  can go negative are computed in `Int` and stored back with `u8`;
* a buffer (`uint8_t *` with its contents) is a `List Nat`; a pointer argument
  that may be `NULL` is an `Option`;
* a function that returns `NULL` with `errno = e` returns `Except.error e`;
* `calloc` always succeeds, so the `ENOMEM` paths are never taken;
* every read of the frame handed to the parser goes through `rd`/`rdN`, which
  answer `Errno.OUT_OF_BOUNDS` when the index is outside the buffer (the C
  behaviour there is undefined).
-/

namespace MapsProto

/-! ## Constants (maps_proto.c lines 10-18, maps_proto.h lines 19-29) -/

abbrev K_MAPS_PROTO_SOH : Nat := 0x01
abbrev K_MAPS_PROTO_LF : Nat := 0x0A
abbrev K_MAPS_PROTO_CR : Nat := 0x0D

abbrev K_MAPS_PROTO_REQ_TYPE : Nat := 0
abbrev K_MAPS_PROTO_RES_TYPE : Nat := 1
abbrev K_MAPS_PROTO_UNK_TYPE : Nat := 2
abbrev K_MAPS_PROTO_PASF_SIZE : Nat := 88
abbrev K_MAPS_PROTO_SCSF_SIZE : Nat := 12

abbrev K_MAPS_PROTO_CMD_LENGTH : Nat := 3
abbrev K_MAPS_PROTO_EMITTERS_MAP_SIZE : Nat := 16
abbrev K_MAPS_PROTO_RECEIVERS_MAP_SIZE : Nat := 8
abbrev K_MAPS_PROTO_RECEIVE_GROUP8 : Nat := 64
abbrev K_MAPS_PROTO_RECEIVE_GROUP3 : Nat := 24
abbrev K_MAPS_PROTO_SENSORS_MAP : Nat := 6
abbrev K_MAPS_PROTO_DEHI_BUFFER : Nat := 12
abbrev K_MAPS_PROTO_BMODEL_LENGTH : Nat := 9
abbrev K_MAPS_PROTO_FVERSION_LENGTH : Nat := 4
abbrev K_MAPS_PROTO_FNUM_REV_LENGTH : Nat := 4
abbrev K_MAPS_PROTO_VER_DATE_LENGTH : Nat := 8

/-- The errno values the library sets, plus `OUT_OF_BOUNDS`, which is not an
errno: it marks a read outside the buffer handed to the parser. -/
inductive Errno where
  | EINVAL
  | ENOMEM
  | ESPIPE
  | ERANGE
  | EBADF
  | EPERM
  | ENOEXEC
  | OUT_OF_BOUNDS
  deriving DecidableEq

deriving instance DecidableEq for Except

/-! ## C library helpers -/

/-- Conversion of a C `int` to `uint8_t`. -/
def u8 (x : Int) : Nat := (x % 256).toNat

/-- C `isdigit` in the "C" locale. -/
def isdigit (c : Nat) : Bool := decide (48 ≤ c ∧ c ≤ 57)

/-- C `isxdigit` in the "C" locale: decimal digits, `A`..`F` and `a`..`f`. -/
def isxdigit (c : Nat) : Bool :=
  decide ((48 ≤ c ∧ c ≤ 57) ∨ (65 ≤ c ∧ c ≤ 70) ∨ (97 ≤ c ∧ c ≤ 102))

/-- The bytes of the C string stored in a char array: what precedes the first NUL. -/
def cstr (s : List Nat) : List Nat := s.takeWhile (fun c => c != 0)

/-- Read of `frame[i]`. -/
def rd (frame : List Nat) (i : Nat) : Except Errno Nat :=
  match frame[i]? with
  | some b => .ok b
  | none => .error .OUT_OF_BOUNDS

/-- Read of the `n` bytes `frame[pos] .. frame[pos+n-1]` (the source of a
`memcpy` or the range handed to `MapsProtoCalculateLRC`). -/
def rdN (frame : List Nat) (pos n : Nat) : Except Errno (List Nat) :=
  if pos + n ≤ frame.length then .ok ((frame.drop pos).take n) else .error .OUT_OF_BOUNDS

/-- C `memcpy(&dst[pos], src, n)`: byte `i` of `src` goes to `dst[pos+i]`.
A source byte past the end of the list reads as 0 (for a C string that is its
terminating NUL); a write past the end of `dst` is dropped. -/
def memcpy (dst : List Nat) (pos : Nat) (src : List Nat) : Nat → List Nat
  | 0 => dst
  | n + 1 => (memcpy dst pos src n).set (pos + n) (src.getD n 0)

/-- Decimal digits of `v`, most significant first, as ASCII; `fuel` bounds the
number of digits (10 digits cover every 32-bit `unsigned`). -/
def udigits : Nat → Nat → List Nat
  | 0, _ => []
  | fuel + 1, v => if v < 10 then [v + 48] else udigits fuel (v / 10) ++ [v % 10 + 48]

/-- The characters `sprintf` writes for `%.<prec>u` (also `%c` is one byte, written
directly in the builders): at least `prec` digits, padded on the left with `0`. -/
def sprintf_u (prec v : Nat) : List Nat :=
  let ds := udigits 10 v
  List.replicate (prec - ds.length) 48 ++ ds

/-- One uppercase hexadecimal digit as `sprintf` writes it for `%X`. -/
def hexdigit (d : Nat) : Nat := if d < 10 then d + 48 else d + 55

/-- The two characters `sprintf` writes for `%.2X` with an 8-bit argument. -/
def sprintf_2X (v : Nat) : List Nat := [hexdigit (v / 16 % 16), hexdigit (v % 16)]

/-- C `atoi` on a string that starts with a decimal digit or is empty: the value
of the leading run of digits (the callers check `isdigit` on every byte first, so
the white-space and sign cases of `atoi` do not arise). -/
def atoi (s : List Nat) : Nat :=
  ((cstr s).takeWhile isdigit).foldl (fun acc c => acc * 10 + (c - 48)) 0

/-! ## Data model (maps_proto.h) -/

/-- A raw frame: `size` and the `size` bytes at `data`. -/
structure tMAPS_PROTO_RAW_FRAME where
  size : Nat
  data : List Nat
  deriving DecidableEq

structure tMAPS_PROTO_CA_DATA where
  ca_sensors : Nat
  da_sensors : Nat
  deriving DecidableEq

structure tMAPS_PROTO_DE_DATA where
  work_mode : Nat
  axis_ispeed : Nat
  axis_height : Nat
  tow_detection : Nat
  hw_failure : Nat
  se_cleaning : Nat
  firmware_ver : Nat
  rcvr_direction : Nat
  barrier_model : Nat
  deriving DecidableEq

structure tMAPS_PROTO_EA_DATA where
  imax_height : Nat
  umax_height : Nat
  umin_height : Nat
  lmax_height : Nat
  deriving DecidableEq

structure tMAPS_PROTO_SC_DATA where
  mode : Nat
  send_time : Nat
  deriving DecidableEq

structure tMAPS_PROTO_SM_DATA where
  work_mode : Nat
  axis_ispeed : Nat
  axis_height : Nat
  tow_detection : Nat
  rcvr_direction : Nat
  deriving DecidableEq

structure tMAPS_PROTO_TT_DATA where
  mvar : Nat
  e_map : List Nat
  rvar : Nat
  r_map : List Nat
  deriving DecidableEq

structure tMAPS_PROTO_RH_DATA where
  wmode : Nat
  recvn : Nat
  deriving DecidableEq

structure tMAPS_PROTO_BARRIER_ADJUST where
  rcv_map8 : List Nat
  rcv_map3 : List Nat
  deriving DecidableEq

/-- The SC special record. `MODES` is the 12-byte union: `ABCMODES` is
`presence` at byte 0, `sensors` at bytes 1..6 and `sweeps_num` at byte 7;
`DEHI_MODES` is all 12 bytes. -/
structure tMAPS_PROTO_SC_SPECIAL where
  mode : Nat
  MODES : List Nat
  deriving DecidableEq

/-- The member `MODES.ABCMODES.presence` of the union. -/
def tMAPS_PROTO_SC_SPECIAL.presence (d : tMAPS_PROTO_SC_SPECIAL) : Nat := d.MODES.getD 0 0

/-- The member `MODES.ABCMODES.sensors` of the union (6 bytes). -/
def tMAPS_PROTO_SC_SPECIAL.sensors (d : tMAPS_PROTO_SC_SPECIAL) : List Nat :=
  (d.MODES.drop 1).take 6

/-- The member `MODES.ABCMODES.sweeps_num` of the union. -/
def tMAPS_PROTO_SC_SPECIAL.sweeps_num (d : tMAPS_PROTO_SC_SPECIAL) : Nat := d.MODES.getD 7 0

structure tMAPS_PROTO_AP_DATA where
  smbyte : Nat
  vheight : Nat
  vaxis : Nat
  reserved : Nat
  axis_height : Nat
  vmax_height : Nat
  hmin_height : Nat
  lmax_height : Nat
  deriving DecidableEq

structure tMAPS_PROTO_EJ_DATA where
  paxes : Nat
  naxes : Nat
  ispeed : Nat
  deriving DecidableEq

structure tMAPS_PROTO_EM_DATA where
  work_mode : Nat
  axis_ispeed : Nat
  axis_height : Nat
  tow_detection : Nat
  hw_failure : Nat
  se_cleaning : Nat
  firmware_ver : Nat
  rcvr_direction : Nat
  reserved : Nat
  deriving DecidableEq

structure tMAPS_PROTO_END_VEHICLE where
  smb : Nat
  vclass : Nat
  paxes : Nat
  naxes : Nat
  paxes10 : Nat
  naxes10 : Nat
  paxes16 : Nat
  naxes16 : Nat
  paxes22 : Nat
  naxes22 : Nat
  deriving DecidableEq

structure tMAPS_PROTO_FAILURE_DATA where
  type : Nat
  ngroup : Nat
  nsensor : Nat
  deriving DecidableEq

/-- The RE record: four char arrays, each with room for the terminating NUL. -/
structure tMAPS_PROTO_RE_DATA where
  bmodel : List Nat
  fversion : List Nat
  fnum_rev : List Nat
  ver_date : List Nat
  deriving DecidableEq

/-- What `parsed->data` points to: one byte (`calloc(1,sizeof(char))`) or one
of the records above. -/
inductive Payload where
  | byte (v : Nat)
  | CA (d : tMAPS_PROTO_CA_DATA)
  | DE (d : tMAPS_PROTO_DE_DATA)
  | EA (d : tMAPS_PROTO_EA_DATA)
  | SC (d : tMAPS_PROTO_SC_DATA)
  | SM (d : tMAPS_PROTO_SM_DATA)
  | TT (d : tMAPS_PROTO_TT_DATA)
  | RH (d : tMAPS_PROTO_RH_DATA)
  | BARRIER_ADJUST (d : tMAPS_PROTO_BARRIER_ADJUST)
  | SC_SPECIAL (d : tMAPS_PROTO_SC_SPECIAL)
  | AP (d : tMAPS_PROTO_AP_DATA)
  | EJ (d : tMAPS_PROTO_EJ_DATA)
  | EM (d : tMAPS_PROTO_EM_DATA)
  | END_VEHICLE (d : tMAPS_PROTO_END_VEHICLE)
  | FAILURE (d : tMAPS_PROTO_FAILURE_DATA)
  | RE (d : tMAPS_PROTO_RE_DATA)
  deriving DecidableEq

/-- A parsed frame. `cmd` is the 4-byte char array; `data = none` is `NULL`. -/
structure tMAPS_PROTO_PARSED_FRAME where
  num : Nat
  type : Nat
  cmd : List Nat
  size : Nat
  data : Option Payload
  deriving DecidableEq

/-- The parsed frame as `calloc` returns it: every byte zero. -/
def parsed_calloc : tMAPS_PROTO_PARSED_FRAME :=
  { num := 0, type := 0, cmd := [0, 0, 0, 0], size := 0, data := none }

/-! ## LRC (maps_proto.c lines 155-170) -/

/-- The C function `MapsProtoCalculateLRC(data, size)`, `data` being the `size` bytes of the
range. The result is the two bytes of `clrc` in memory order (the `uint16_t`
the C code returns is those two bytes, copied in and out with `memcpy`). -/
def MapsProtoCalculateLRC (data : List Nat) : List Nat :=
  let xsum := data.foldl (fun x b => (x ^^^ b) % 256) 0
  let clrc := sprintf_2X xsum
  let c0 := clrc.getD 0 0
  let c1 := clrc.getD 1 0
  let c0 := if c0 > 0x39 then c0 - 7 else c0
  let c1 := if c1 > 0x39 then c1 - 7 else c1
  [c0, c1]

/-! ## Payload decoders (maps_proto.c lines 173-790)

Each decoder gets the frame, its size and the parsed frame built so far, and
returns its C return code (0 success, 1 allocation failure, 2 bad payload)
with the parsed frame as it left it. The bytes an `if` tests are read at that
`if`; the parser has read `frame[1 .. size-1]` before it calls a decoder. -/

/-- Type of `RequestParseCb` and `ResponseParseCb`. -/
abbrev ParseCb :=
  List Nat → Nat → tMAPS_PROTO_PARSED_FRAME → Except Errno (Nat × tMAPS_PROTO_PARSED_FRAME)

/-- A `for` loop over `frame[i]`, `frame[i+1]`, ... (`n` iterations) that leaves
the function with `return 2` at the first byte for which `bad i frame[i]`
holds; the result says whether it did. -/
def scan (frame : List Nat) (bad : Nat → Nat → Bool) : Nat → Nat → Except Errno Bool
  | 0, _ => pure false
  | n + 1, i => do
    let b ← rd frame i
    if bad i b then pure true else scan frame bad n (i + 1)

/-- Two ASCII digits to a number stored in a `uint8_t`:
`((a - 48) * 10) + (b - 48)`. -/
def two_digits (a b : Nat) : Nat := u8 (((a : Int) - 48) * 10 + ((b : Int) - 48))

/-- The tow-detection alphabet test `c != 48 && c != 'R' && c != 'M' && c != 'N'
&& c != 'E' && c != 'T'`. -/
def bad_tow (c : Nat) : Bool :=
  decide (c ≠ 48 ∧ c ≠ 82 ∧ c ≠ 77 ∧ c ≠ 78 ∧ c ≠ 69 ∧ c ≠ 84)

def MapsProtoPrepareNoData : ParseCb := fun _ size parsed =>
  let fsize := if parsed.type ≠ 0 then 9 else 7
  if size = fsize then pure (0, parsed) else pure (2, parsed)

def MapsProtoPrepareEMData : ParseCb := fun frame size parsed =>
  if size = 16 ∨ size = 17 then do
    let data : tMAPS_PROTO_EM_DATA := ⟨0, 0, 0, 0, 0, 0, 0, 0, 0⟩
    let ret := fun (code : Nat) (d : tMAPS_PROTO_EM_DATA) =>
      (code, { parsed with size := 9, data := some (Payload.EM d) })
    let f4 ← rd frame 4
    if ¬ isdigit f4 ∨ (f4 : Int) - 48 > 3 then pure (ret 2 data) else do
    let f5 ← rd frame 5
    if ¬ isxdigit f5 then pure (ret 2 data) else do
    let f6 ← rd frame 6
    if ¬ isdigit f6 ∨ (f6 : Int) - 48 > 2 then pure (ret 2 data) else do
    let data := { data with
      work_mode := u8 ((f4 : Int) - 48)
      axis_ispeed := if f5 < 58 then u8 ((f5 : Int) - 48) else u8 ((f5 : Int) - 55)
      axis_height := u8 ((f6 : Int) - 48) }
    if size = 16 then do
      let f7 ← rd frame 7
      if f7 ≠ 49 ∧ f7 ≠ 50 ∧ f7 ≠ 51 then pure (ret 2 data) else do
      let f8 ← rd frame 8
      if f8 ≠ 49 ∧ f8 ≠ 50 then pure (ret 2 data) else do
      let f9 ← rd frame 9
      let f10 ← rd frame 10
      if ¬ isdigit f9 ∨ ¬ isdigit f10 then pure (ret 2 data) else
      pure (ret 0 { data with
        hw_failure := u8 ((f7 : Int) - 48)
        se_cleaning := u8 ((f8 : Int) - 48)
        firmware_ver := two_digits f9 f10 })
    else do
      let f7 ← rd frame 7
      if bad_tow f7 then pure (ret 2 data) else do
      let f8 ← rd frame 8
      if f8 ≠ 49 ∧ f8 ≠ 50 ∧ f8 ≠ 51 then pure (ret 2 data) else do
      let f9 ← rd frame 9
      if f9 ≠ 49 ∧ f9 ≠ 50 then pure (ret 2 data) else do
      let f10 ← rd frame 10
      let f11 ← rd frame 11
      if ¬ isdigit f10 ∨ ¬ isdigit f11 then pure (ret 2 data) else do
      let f12 ← rd frame 12
      let f13 ← rd frame 13
      if f12 ≠ 80 ∧ f13 ≠ 78 then pure (ret 2 data) else
      pure (ret 0 { data with
        tow_detection := f7
        hw_failure := u8 ((f8 : Int) - 48)
        se_cleaning := u8 ((f9 : Int) - 48)
        firmware_ver := two_digits f10 f11
        rcvr_direction := f12 })
  else pure (2, parsed)

def MapsProtoPrepareEJData : ParseCb := fun frame size parsed =>
  if size = 13 then do
    let stop ← scan frame (fun _ b => !isdigit b) 6 4
    if stop then pure (2, parsed) else do
    let f4 ← rd frame 4
    let f5 ← rd frame 5
    let f6 ← rd frame 6
    let f7 ← rd frame 7
    let f8 ← rd frame 8
    let f9 ← rd frame 9
    let data : tMAPS_PROTO_EJ_DATA :=
      { paxes := two_digits f4 f5, naxes := two_digits f6 f7, ispeed := two_digits f8 f9 }
    pure (0, { parsed with size := 3, data := some (Payload.EJ data) })
  else pure (2, parsed)

def MapsProtoPrepareAPData : ParseCb := fun frame size parsed =>
  let data : tMAPS_PROTO_AP_DATA := ⟨0, 0, 0, 0, 0, 0, 0, 0⟩
  let ret := fun (code : Nat) (d : tMAPS_PROTO_AP_DATA) =>
    (code, { parsed with data := some (Payload.AP d), size := 8 })
  if size = 9 then do
    let f4 ← rd frame 4
    let f5 ← rd frame 5
    if ¬ isdigit f4 ∨ ¬ isdigit f5 then pure (ret 2 data) else
    pure (ret 0 { data with
      smbyte := 0
      vheight := u8 (((f4 : Int) - 48) * 10 - ((f5 : Int) - 48)) })
  else if size = 17 then do
    let f4 ← rd frame 4
    if f4 ≠ 48 ∧ f4 ≠ 78 ∧ f4 ≠ 80 then pure (ret 2 data) else do
    let stop ← scan frame (fun _ b => !isdigit b) 8 6
    if stop then pure (ret 2 data) else do
    let data := { data with smbyte := 2, vaxis := f4 }
    if data.axis_height > 15 then pure (ret 2 data) else do
    let f6 ← rd frame 6
    let f7 ← rd frame 7
    let f8 ← rd frame 8
    let f9 ← rd frame 9
    let f10 ← rd frame 10
    let f11 ← rd frame 11
    let f12 ← rd frame 12
    let f13 ← rd frame 13
    pure (ret 0 { data with
      axis_height := two_digits f6 f7
      vmax_height := two_digits f8 f9
      hmin_height := two_digits f10 f11
      lmax_height := two_digits f12 f13 })
  else pure (ret 2 data)

def MapsProtoPrepareAJData : ParseCb := fun frame size parsed =>
  if size = 95 then do
    let m8 ← rdN frame 4 K_MAPS_PROTO_RECEIVE_GROUP8
    let m3 ← rdN frame (4 + K_MAPS_PROTO_RECEIVE_GROUP8) K_MAPS_PROTO_RECEIVE_GROUP3
    let data : tMAPS_PROTO_BARRIER_ADJUST := { rcv_map8 := m8, rcv_map3 := m3 }
    pure (0, { parsed with size := 88, data := some (Payload.BARRIER_ADJUST data) })
  else pure (2, parsed)

def MapsProtoPrepareTTData : ParseCb := fun frame size parsed =>
  if size = 35 then do
    let f6 ← rd frame 6
    let f23 ← rd frame 23
    if f6 ≠ 77 ∨ f23 ≠ 82 then pure (2, parsed) else do
    let stop ← scan frame (fun i b => decide (i ≠ 23) && !isxdigit b) 25 7
    if stop then pure (2, parsed) else do
    let em ← rdN frame 7 K_MAPS_PROTO_EMITTERS_MAP_SIZE
    let rm ← rdN frame 24 K_MAPS_PROTO_RECEIVERS_MAP_SIZE
    let data : tMAPS_PROTO_TT_DATA := { mvar := f6, rvar := f23, e_map := em, r_map := rm }
    pure (0, { parsed with size := 26, data := some (Payload.TT data) })
  else pure (2, parsed)

def MapsProtoPrepareEAData : ParseCb := fun frame size parsed =>
  if size = 17 then do
    let stop ← scan frame (fun _ b => !isdigit b) 8 6
    if stop then pure (2, parsed) else do
    let f6 ← rd frame 6
    let f7 ← rd frame 7
    let f8 ← rd frame 8
    let f9 ← rd frame 9
    let f10 ← rd frame 10
    let f11 ← rd frame 11
    let f12 ← rd frame 12
    let f13 ← rd frame 13
    let data : tMAPS_PROTO_EA_DATA :=
      { imax_height := two_digits f6 f7, umax_height := two_digits f8 f9
        umin_height := two_digits f10 f11, lmax_height := two_digits f12 f13 }
    pure (0, { parsed with size := 4, data := some (Payload.EA data) })
  else pure (2, parsed)

def MapsProtoPrepareDEData : ParseCb := fun frame size parsed =>
  if size = 19 then do
    let f6 ← rd frame 6
    if ¬ isdigit f6 ∨ (f6 : Int) - 48 > 3 then pure (2, parsed) else do
    let f7 ← rd frame 7
    if ¬ isxdigit f7 then pure (2, parsed) else do
    let f8 ← rd frame 8
    if ¬ isdigit f8 ∨ (f8 : Int) - 48 > 2 then pure (2, parsed) else do
    let f9 ← rd frame 9
    if bad_tow f9 then pure (2, parsed) else do
    let f10 ← rd frame 10
    if ¬ isdigit f10 ∧ f10 ≠ 49 ∧ f10 ≠ 50 ∧ f10 ≠ 51 then pure (2, parsed) else do
    let f11 ← rd frame 11
    if ¬ isdigit f11 ∧ f11 ≠ 49 ∧ f11 ≠ 50 then pure (2, parsed) else do
    let f12 ← rd frame 12
    let f13 ← rd frame 13
    if ¬ isdigit f12 ∨ ¬ isdigit f13 then pure (2, parsed) else do
    let f14 ← rd frame 14
    let f15 ← rd frame 15
    let data : tMAPS_PROTO_DE_DATA :=
      { work_mode := u8 ((f6 : Int) - 48)
        axis_ispeed := if f7 < 58 then u8 ((f7 : Int) - 48) else u8 ((f7 : Int) - 55)
        axis_height := u8 ((f8 : Int) - 48)
        tow_detection := f9
        hw_failure := u8 ((f10 : Int) - 48)
        se_cleaning := u8 ((f11 : Int) - 48)
        firmware_ver := two_digits f12 f13
        rcvr_direction := f14
        barrier_model := f15 }
    pure (0, { parsed with size := 9, data := some (Payload.DE data) })
  else pure (2, parsed)

def MapsProtoPrepareRHData : ParseCb := fun frame size parsed =>
  let dpos := if parsed.type ≠ 0 then 6 else 4
  let fsize := if parsed.type ≠ 0 then 12 else 10
  if size = fsize then do
    let f1 ← rd frame (dpos + 1)
    let f2 ← rd frame (dpos + 2)
    let number := two_digits f1 f2
    let f0 ← rd frame dpos
    if f0 ≠ 48 ∧ f0 ≠ 49 then pure (2, parsed) else
    if number < 1 ∨ number > 24 then pure (2, parsed) else
    let data : tMAPS_PROTO_RH_DATA := { wmode := u8 ((f0 : Int) - 48), recvn := number }
    pure (0, { parsed with size := 2, data := some (Payload.RH data) })
  else pure (2, parsed)

def MapsProtoPrepareSMData : ParseCb := fun frame size parsed =>
  if size ≥ 10 ∧ size ≤ 12 then do
    let f4 ← rd frame 4
    if f4 ≠ 48 ∧ f4 ≠ 49 ∧ f4 ≠ 50 ∧ f4 ≠ 51 then pure (2, parsed) else do
    let f5 ← rd frame 5
    if ¬ isxdigit f5 then pure (2, parsed) else do
    let f6 ← rd frame 6
    if f6 ≠ 48 ∧ f6 ≠ 49 ∧ f6 ≠ 50 then pure (2, parsed) else do
    let f7 ← if size ≥ 11 then rd frame 7 else pure 48
    if size ≥ 11 ∧ bad_tow f7 then pure (2, parsed) else do
    let f8 ← if size = 12 then rd frame 8 else pure 48
    if size = 12 ∧ f8 ≠ 80 ∧ f8 ≠ 78 then pure (2, parsed) else
    let data : tMAPS_PROTO_SM_DATA :=
      { work_mode := u8 ((f4 : Int) - 48)
        axis_ispeed := if f5 < 58 then u8 ((f5 : Int) - 48) else u8 ((f5 : Int) - 55)
        axis_height := u8 ((f6 : Int) - 48)
        tow_detection := if size ≥ 11 then f7 else 48
        rcvr_direction := if size = 12 then f8 else 48 }
    pure (0, { parsed with size := 5, data := some (Payload.SM data) })
  else pure (2, parsed)

def MapsProtoPrepareSCData : ParseCb := fun frame size parsed =>
  if size = 11 then do
    let f4 ← rd frame 4
    if f4 ≠ 65 ∧ f4 ≠ 66 ∧ f4 ≠ 67 ∧ f4 ≠ 68 ∧ f4 ≠ 69 ∧ f4 ≠ 72 ∧ f4 ≠ 73 then
      pure (2, parsed) else do
    let f5 ← rd frame 5
    let f6 ← rd frame 6
    let f7 ← rd frame 7
    if ¬ isdigit f5 ∨ ¬ isdigit f6 ∨ ¬ isdigit f7 then pure (2, parsed) else do
    let src ← rdN frame 5 3
    let stime := memcpy [0, 0, 0, 0] 0 src 3
    let data : tMAPS_PROTO_SC_DATA := { mode := f4, send_time := atoi stime % 65536 }
    pure (0, { parsed with size := 4, data := some (Payload.SC data) })
  else if size = 15 then do
    let f4 ← rd frame 4
    if (f4 : Int) - 48 > 1 then pure (2, parsed) else do
    let stop ← scan frame (fun _ b => !isxdigit b) 6 5
    if stop then pure (2, parsed) else do
    let f11 ← rd frame 11
    if ¬ isdigit f11 then pure (2, parsed) else do
    let sensors ← rdN frame 5 6
    let modes := List.replicate 12 0
    let modes := modes.set 0 (u8 ((f4 : Int) - 48))
    let modes := modes.set 7 (u8 ((f11 : Int) - 48))
    let modes := memcpy modes 1 sensors 6
    let data : tMAPS_PROTO_SC_SPECIAL := { mode := 65, MODES := modes }
    pure (0, { parsed with
      cmd := [83, 67, 83, 0], size := 13, data := some (Payload.SC_SPECIAL data) })
  else pure (2, parsed)

def MapsProtoPrepareCAData : ParseCb := fun frame size parsed =>
  if size = 11 then do
    let f4 ← rd frame 4
    let f5 ← rd frame 5
    let f6 ← rd frame 6
    let f7 ← rd frame 7
    if isdigit f4 ∧ isdigit f5 ∧ isdigit f6 ∧ isdigit f7 then
      let data : tMAPS_PROTO_CA_DATA :=
        { ca_sensors := two_digits f4 f5, da_sensors := two_digits f6 f7 }
      pure (0, { parsed with size := 2, data := some (Payload.CA data) })
    else pure (2, parsed)
  else pure (2, parsed)

def MapsProtoPrepareREData : ParseCb := fun frame size parsed =>
  if size = 7 then pure (0, parsed)
  else if size = 39 then do
    let pos := 4
    let bmodel ← rdN frame (pos + 1) K_MAPS_PROTO_BMODEL_LENGTH
    let fversion ← rdN frame (pos + 11) K_MAPS_PROTO_FVERSION_LENGTH
    let fnum_rev ← rdN frame (pos + 16) K_MAPS_PROTO_FNUM_REV_LENGTH
    let ver_date ← rdN frame (pos + 23) K_MAPS_PROTO_VER_DATE_LENGTH
    let data : tMAPS_PROTO_RE_DATA :=
      { bmodel := memcpy (List.replicate 10 0) 0 bmodel K_MAPS_PROTO_BMODEL_LENGTH
        fversion := memcpy (List.replicate 5 0) 0 fversion K_MAPS_PROTO_FVERSION_LENGTH
        fnum_rev := memcpy (List.replicate 5 0) 0 fnum_rev K_MAPS_PROTO_FNUM_REV_LENGTH
        ver_date := memcpy (List.replicate 9 0) 0 ver_date K_MAPS_PROTO_VER_DATE_LENGTH }
    pure (0, { parsed with size := 29, data := some (Payload.RE data) })
  else pure (2, parsed)

def MapsProtoPrepareIARMData : ParseCb := fun frame size parsed =>
  if size = 7 then pure (0, parsed)
  else if size = 9 then do
    let f4 ← rd frame 4
    let f5 ← rd frame 5
    if ¬ isdigit f4 ∧ ¬ isdigit f5 then pure (2, parsed) else
    pure (0, { parsed with size := 1, data := some (Payload.byte (two_digits f4 f5)) })
  else pure (2, parsed)

def MapsProtoPrepareFailData : ParseCb := fun frame size parsed =>
  if size = 10 then do
    let f4 ← rd frame 4
    if f4 ≠ 82 ∧ f4 ≠ 69 then pure (2, parsed) else do
    let f5 ← rd frame 5
    if ¬ isdigit f5 ∨ (f5 : Int) - 48 > 8 then pure (2, parsed) else do
    let f6 ← rd frame 6
    if ¬ isdigit f6 ∨ (f6 : Int) - 48 > 8 then pure (2, parsed) else
    let data : tMAPS_PROTO_FAILURE_DATA :=
      { type := f4, ngroup := u8 ((f5 : Int) - 48), nsensor := u8 ((f6 : Int) - 48) }
    pure (0, { parsed with size := 3, data := some (Payload.FAILURE data) })
  else pure (2, parsed)

def MapsProtoPrepareDualData : ParseCb := fun frame size parsed =>
  let fpos := if parsed.type ≠ 0 then 4 else 2
  let fsize := if parsed.type ≠ 0 then 11 else 9
  if size = fsize then do
    let f2 ← rd frame (fpos + 2)
    let f3 ← rd frame (fpos + 3)
    if isdigit f2 ∧ isdigit f3 then
      let number := two_digits f2 f3
      if cstr parsed.cmd = [69, 82] ∧ (number < 1 ∨ number > 24) then pure (2, parsed) else
      if cstr parsed.cmd = [83, 82] ∧ (number < 3 ∨ number > 10) then pure (2, parsed) else
      pure (0, { parsed with size := 1, data := some (Payload.byte number) })
    else pure (2, parsed)
  else pure (2, parsed)

def MapsProtoPrepareSingelData : ParseCb := fun frame size parsed =>
  let fpos := if parsed.type ≠ 0 then 4 else 2
  let fsize := if parsed.type ≠ 0 then 10 else 8
  if size = fsize then do
    let f2 ← rd frame (fpos + 2)
    if cstr parsed.cmd = [66, 82] ∧ (f2 < 49 ∨ f2 > 53) then pure (2, parsed) else
    pure (0, { parsed with size := 1, data := some (Payload.byte (u8 ((f2 : Int) - 48))) })
  else pure (2, parsed)

def MapsProtoPrepareEndVehData : ParseCb := fun frame size parsed =>
  if size ≠ 11 ∧ size ≠ 12 ∧ size ≠ 24 then pure (2, parsed) else do
  let i := 4
  let s := (size - 7) + i
  let c := if s > 8 then s - 1 else 8
  let stop ← scan frame (fun i b =>
      if i = c ∧ (b ≠ 77 ∧ b ≠ 88 ∧ (b < 65 ∨ b > 70)) then true
      else if i ≠ c ∧ ¬ isdigit b then true
      else false) (s - i) i
  if stop then pure (2, parsed) else do
  let f4 ← rd frame 4
  let f5 ← rd frame 5
  let f6 ← rd frame 6
  let f7 ← rd frame 7
  let vclass ← if size = 12 then rd frame 8 else pure 0
  let data : tMAPS_PROTO_END_VEHICLE :=
    { smb := if size = 11 then 3 else 1
      vclass := vclass
      paxes := two_digits f4 f5
      naxes := two_digits f6 f7
      paxes10 := 0, naxes10 := 0, paxes16 := 0, naxes16 := 0, paxes22 := 0, naxes22 := 0 }
  if size = 24 then do
    let f8 ← rd frame 8
    let f9 ← rd frame 9
    let f10 ← rd frame 10
    let f11 ← rd frame 11
    let f12 ← rd frame 12
    let f13 ← rd frame 13
    let f14 ← rd frame 14
    let f15 ← rd frame 15
    let f16 ← rd frame 16
    let f17 ← rd frame 17
    let f18 ← rd frame 18
    let f19 ← rd frame 19
    let f20 ← rd frame 20
    let data := { data with
      paxes10 := two_digits f8 f9
      naxes10 := two_digits f10 f11
      paxes16 := two_digits f12 f13
      naxes16 := two_digits f14 f15
      paxes22 := two_digits f16 f17
      naxes22 := two_digits f18 f19
      vclass := f20
      smb := 2 }
    pure (0, { parsed with data := some (Payload.END_VEHICLE data), size := 10 })
  else
    pure (0, { parsed with data := some (Payload.END_VEHICLE data), size := 10 })

def MapsProtoPreparePASpecial : ParseCb := fun frame size parsed => do
  let parsed := { parsed with size := (size - 1) % 65536, cmd := [80, 65, 83, 0] }
  let m8 ← rdN frame 0 K_MAPS_PROTO_RECEIVE_GROUP8
  let m3 ← rdN frame K_MAPS_PROTO_RECEIVE_GROUP8 K_MAPS_PROTO_RECEIVE_GROUP3
  let bdata : tMAPS_PROTO_BARRIER_ADJUST := { rcv_map8 := m8, rcv_map3 := m3 }
  pure (0, { parsed with data := some (Payload.BARRIER_ADJUST bdata) })

def MapsProtoPrepareSCSpecial : ParseCb := fun frame size parsed => do
  let mode := if size = 13 then 68 else 72
  let parsed := { parsed with size := K_MAPS_PROTO_DEHI_BUFFER, cmd := [83, 67, 83, 0] }
  let src ← rdN frame 0 parsed.size
  let scdata : tMAPS_PROTO_SC_SPECIAL :=
    { mode := mode, MODES := memcpy (List.replicate 12 0) 0 src parsed.size }
  pure (0, { parsed with data := some (Payload.SC_SPECIAL scdata) })

/-! ## Command descriptor table (maps_proto.c lines 64-152) -/

/-- Information of a MAPS command. `cmd` holds the bytes of the mnemonic. -/
structure tMAPS_PROTO_CMD_INFO where
  barriers : Nat
  suppdata : Nat
  cmd : List Nat
  RequestParseFunc : ParseCb
  ResponseParseFunc : ParseCb

def cmd_data : List tMAPS_PROTO_CMD_INFO :=
  [ ⟨0b101, 0b101, [66, 82] /- BR -/, MapsProtoPrepareSingelData, MapsProtoPrepareNoData⟩,
    ⟨0b100, 0b101, [67, 65] /- CA -/, MapsProtoPrepareCAData, MapsProtoPrepareNoData⟩,
    ⟨0b111, 0b110, [68, 69] /- DE -/, MapsProtoPrepareNoData, MapsProtoPrepareDEData⟩,
    ⟨0b101, 0b110, [69, 65] /- EA -/, MapsProtoPrepareNoData, MapsProtoPrepareEAData⟩,
    ⟨0b101, 0b100, [69, 82] /- ER -/, MapsProtoPrepareDualData, MapsProtoPrepareSingelData⟩,
    ⟨0b111, 0b111, [70, 65] /- FA -/, MapsProtoPrepareNoData, MapsProtoPrepareNoData⟩,
    ⟨0b111, 0b111, [77, 86] /- MV -/, MapsProtoPrepareNoData, MapsProtoPrepareNoData⟩,
    ⟨0b111, 0b111, [80, 65] /- PA -/, MapsProtoPrepareNoData, MapsProtoPrepareNoData⟩,
    ⟨0b111, 0b111, [65, 67] /- AC -/, MapsProtoPrepareNoData, MapsProtoPrepareNoData⟩,
    ⟨0b100, 0b101, [80, 82] /- PR -/, MapsProtoPrepareDualData, MapsProtoPrepareNoData⟩,
    ⟨0b111, 0b111, [82, 70] /- RF -/, MapsProtoPrepareNoData, MapsProtoPrepareNoData⟩,
    ⟨0b101, 0b101, [83, 67] /- SC -/, MapsProtoPrepareSCData, MapsProtoPrepareNoData⟩,
    ⟨0b111, 0b101, [83, 77] /- SM -/, MapsProtoPrepareSMData, MapsProtoPrepareNoData⟩,
    ⟨0b100, 0b101, [83, 82] /- SR -/, MapsProtoPrepareDualData, MapsProtoPrepareDualData⟩,
    ⟨0b111, 0b110, [84, 84] /- TT -/, MapsProtoPrepareNoData, MapsProtoPrepareTTData⟩,
    ⟨0b001, 0b100, [82, 72] /- RH -/, MapsProtoPrepareRHData, MapsProtoPrepareRHData⟩,
    ⟨0b010, 0b110, [67, 66] /- CB -/, MapsProtoPrepareNoData, MapsProtoPrepareSingelData⟩,
    ⟨0b111, 0b001, [80, 65, 83] /- PAS -/, MapsProtoPreparePASpecial, MapsProtoPrepareNoData⟩,
    ⟨0b101, 0b001, [83, 67, 83] /- SCS -/, MapsProtoPrepareSCSpecial, MapsProtoPrepareNoData⟩,
    ⟨0b110, 0b001, [70, 65, 83] /- FAS -/, MapsProtoPrepareEndVehData, MapsProtoPrepareNoData⟩,
    ⟨0b111, 0b001, [65, 74] /- AJ -/, MapsProtoPrepareAJData, MapsProtoPrepareNoData⟩,
    ⟨0b111, 0b001, [65, 80] /- AP -/, MapsProtoPrepareAPData, MapsProtoPrepareNoData⟩,
    ⟨0b100, 0b001, [69, 74] /- EJ -/, MapsProtoPrepareEJData, MapsProtoPrepareNoData⟩,
    ⟨0b111, 0b001, [69, 77] /- EM -/, MapsProtoPrepareEMData, MapsProtoPrepareNoData⟩,
    ⟨0b001, 0b011, [70, 80] /- FP -/, MapsProtoPrepareNoData, MapsProtoPrepareNoData⟩,
    ⟨0b110, 0b001, [70, 82] /- FR -/, MapsProtoPrepareEndVehData, MapsProtoPrepareNoData⟩,
    ⟨0b111, 0b001, [70, 88] /- FX -/, MapsProtoPrepareFailData, MapsProtoPrepareNoData⟩,
    ⟨0b001, 0b011, [73, 80] /- IP -/, MapsProtoPrepareNoData, MapsProtoPrepareNoData⟩,
    ⟨0b110, 0b011, [73, 65] /- IA -/, MapsProtoPrepareIARMData, MapsProtoPrepareNoData⟩,
    ⟨0b110, 0b011, [73, 82] /- IR -/, MapsProtoPrepareNoData, MapsProtoPrepareNoData⟩,
    ⟨0b111, 0b001, [80, 88] /- PX -/, MapsProtoPrepareFailData, MapsProtoPrepareNoData⟩,
    ⟨0b111, 0b011, [82, 69] /- RE -/, MapsProtoPrepareREData, MapsProtoPrepareNoData⟩,
    ⟨0b110, 0b011, [82, 77] /- RM -/, MapsProtoPrepareIARMData, MapsProtoPrepareNoData⟩ ]

/-- The C function `MapsProtoFindCmd(cmd)`, `cmd` being `NULL` or the bytes of a C string: the
first entry whose mnemonic is that string (`strcmp(cmd_data[i].cmd,cmd) == 0`);
`none` for `NULL` and for a string not in the table. -/
def MapsProtoFindCmd (cmd : Option (List Nat)) : Option tMAPS_PROTO_CMD_INFO :=
  match cmd with
  | none => none
  | some cmd => cmd_data.find? (fun c => c.cmd == cmd)

/-! ## Framing (maps_proto.c lines 793-833) -/

/-- The field `cinfo->suppdata`; `cinfo` is only dereferenced where it is not
`NULL` (the value for `none` is never used). -/
def cinfo_suppdata (cinfo : Option tMAPS_PROTO_CMD_INFO) : Nat :=
  match cinfo with
  | some ci => ci.suppdata
  | none => 0

/-- The C function `MapsProtoCreateFrame(type, num, cmd, data, data_size)`. `cmd` is `NULL` or
the bytes of a C string (the byte after them is its NUL), `data` is `NULL` or
the caller's buffer. `size` is a `uint16_t`; the frame is `calloc(size)` and is
filled by the writes of the C code in their order. -/
def MapsProtoCreateFrame (type num : Nat) (cmd : Option (List Nat)) (data : Option (List Nat))
    (data_size : Nat) : Except Errno tMAPS_PROTO_RAW_FRAME :=
  let types : List (List Nat) := [[], [82, 83] /- RS -/, [78, 69] /- NE -/]
  let pos := 2
  let size := if type ≠ 0 then (9 + data_size) % 65536 else (7 + data_size) % 65536
  let cinfo := MapsProtoFindCmd cmd
  let suppdata := cinfo_suppdata cinfo
  if type > 2 ∨ num > 9 ∨ cmd = none ∨ (cinfo.isNone ∧ type ≠ 2) ∨ (data = none ∧ data_size ≠ 0) then
    .error .EINVAL
  else if type = 1 ∧ data_size = 0 ∧ suppdata &&& 1 = 0 then .error .EINVAL
  else if type = 0 ∧ data_size = 0 ∧ suppdata &&& 2 = 0 then .error .EINVAL
  else
    let d := List.replicate size 0
    let d := d.set 0 K_MAPS_PROTO_SOH
    let d := d.set 1 (num + 48)
    let d := if type ≠ 0 then memcpy d pos (types.getD type []) 2 else d
    let pos := if type ≠ 0 then pos + 2 else pos
    let d := memcpy d pos (cmd.getD []) 2
    let pos := pos + 2
    let d := if data_size ≠ 0 then memcpy d pos (data.getD []) data_size else d
    let pos := if data_size ≠ 0 then pos + data_size else pos
    let lrc := MapsProtoCalculateLRC ((d.drop 1).take ((size + 65536 - 4) % 65536))
    let d := memcpy d pos lrc 2
    let d := d.set (size - 1) K_MAPS_PROTO_CR
    .ok { size := size, data := d }

/-! ## Parser (maps_proto.c lines 863-940) -/

/-- The table `errors[] = {0, ENOMEM, ENOEXEC}` indexed by a decoder's non-zero
return code. -/
def errors (code : Nat) : Errno := if code = 1 then .ENOMEM else .ENOEXEC

/-- The C function `MapsProtoParseFrame(frame, size)`: `frame` is `NULL` or the
caller's buffer, `size` the length the caller states. -/
def MapsProtoParseFrame (frame : Option (List Nat)) (size : Nat) :
    Except Errno tMAPS_PROTO_PARSED_FRAME :=
  match frame with
  | none => .error .EINVAL
  | some frame =>
  if size < 7 then .error .ESPIPE else do
  let parsed := parsed_calloc
  let c88 ← if size = K_MAPS_PROTO_PASF_SIZE + 1 then rd frame 88 else pure 0
  if size = K_MAPS_PROTO_PASF_SIZE + 1 ∧ c88 = K_MAPS_PROTO_CR then do
    let r ← MapsProtoPreparePASpecial frame size parsed
    if r.1 ≠ 0 then .error .ENOMEM else pure r.2
  else do
  let c12 ← if size = K_MAPS_PROTO_SCSF_SIZE + 1 ∨ size = K_MAPS_PROTO_SCSF_SIZE + 2
    then rd frame 12 else pure 0
  let c13 ← if size = K_MAPS_PROTO_SCSF_SIZE + 2 ∧ c12 = K_MAPS_PROTO_CR
    then rd frame 13 else pure 0
  if (size = K_MAPS_PROTO_SCSF_SIZE + 1 ∧ c12 = K_MAPS_PROTO_CR) ∨
      (size = K_MAPS_PROTO_SCSF_SIZE + 2 ∧ c12 = K_MAPS_PROTO_CR ∧ c13 = K_MAPS_PROTO_LF) then do
    let r ← MapsProtoPrepareSCSpecial frame size parsed
    if r.1 ≠ 0 then .error .ENOMEM else pure r.2
  else do
  let f1 ← rd frame 1
  let parsed := { parsed with num := u8 ((f1 : Int) - 48) }
  let lrc ← rdN frame (size - 3) 2
  let range ← rdN frame 1 (size - 4)
  let clrc := MapsProtoCalculateLRC range
  if lrc ≠ clrc then .error .ERANGE else do
  let f0 ← rd frame 0
  let fl ← rd frame (size - 1)
  if f0 ≠ K_MAPS_PROTO_SOH ∨ fl ≠ K_MAPS_PROTO_CR then .error .ESPIPE else
  if parsed.num > 9 then .error .EBADF else do
  let f2 ← rd frame 2
  let f3 ← rd frame 3
  if f2 = 78 ∧ f3 = 69 /- strncmp(&frame[2],"NE",2) == 0 -/ then do
    let c ← rdN frame 4 2
    let parsed := { parsed with type := 2, cmd := memcpy parsed.cmd 0 c 2 }
    if size ≠ 9 then .error .EPERM else pure parsed
  else if f2 = 82 ∧ f3 = 83 /- strncmp(&frame[2],"RS",2) == 0 -/ then do
    let c ← rdN frame 4 2
    let parsed := { parsed with type := 1, cmd := memcpy parsed.cmd 0 c 2 }
    match MapsProtoFindCmd (some (cstr parsed.cmd)) with
    | none => .error .EPERM
    | some cinfo =>
      let r ← cinfo.ResponseParseFunc frame size parsed
      if r.1 ≠ 0 then .error (errors r.1) else pure r.2
  else do
    let c ← rdN frame 2 2
    let parsed :=
      if (f2 = 70 ∧ f3 = 65 /- strncmp(&frame[2],"FA",2) == 0 -/) ∧ size > 7
      then { parsed with cmd := memcpy parsed.cmd 0 [70, 65, 83] 3 }
      else { parsed with cmd := memcpy parsed.cmd 0 c 2 }
    match MapsProtoFindCmd (some (cstr parsed.cmd)) with
    | none => .error .EPERM
    | some cinfo =>
      let r ← cinfo.RequestParseFunc frame size parsed
      if r.1 ≠ 0 then .error (errors r.1) else pure r.2

/-! ## Request builders (maps_proto.c lines 944-1057) -/

def MapsProtoCreateEmptyRequest (num : Nat) (cmd : Option (List Nat)) :
    Except Errno tMAPS_PROTO_RAW_FRAME :=
  MapsProtoCreateFrame K_MAPS_PROTO_REQ_TYPE num cmd none 0

def MapsProtoCreateBRRequest (num baud_rate : Nat) : Except Errno tMAPS_PROTO_RAW_FRAME :=
  let baud_rate := if baud_rate > 5 then 49 else (baud_rate + 48) % 256
  MapsProtoCreateFrame K_MAPS_PROTO_REQ_TYPE num (some [66, 82] /- BR -/) (some [baud_rate]) 1

/-- The C function formats into `uint8_t data[5]` with no range test. The
model keeps the whole `sprintf` output, of which the framer copies the first
four characters; for a count above 99 the C function writes past `data`. -/
def MapsProtoCreateCARequest (num ncs_down nds_down : Nat) : Except Errno tMAPS_PROTO_RAW_FRAME :=
  let data := sprintf_u 2 ncs_down ++ sprintf_u 2 nds_down ++ [0]
  MapsProtoCreateFrame K_MAPS_PROTO_REQ_TYPE num (some [67, 65] /- CA -/) (some data) 4

def MapsProtoCreateERRequest (num pcell_num : Nat) : Except Errno tMAPS_PROTO_RAW_FRAME :=
  if pcell_num < 1 ∨ pcell_num > 24 then .error .EINVAL else
  let data := sprintf_u 2 pcell_num ++ [0]
  MapsProtoCreateFrame K_MAPS_PROTO_REQ_TYPE num (some [69, 82] /- ER -/) (some data) 2

def MapsProtoCreatePRRequest (num msec_time : Nat) : Except Errno tMAPS_PROTO_RAW_FRAME :=
  let msec_time := if msec_time > 99 then 99 else msec_time
  let data := sprintf_u 2 msec_time ++ [0]
  MapsProtoCreateFrame K_MAPS_PROTO_REQ_TYPE num (some [80, 82] /- PR -/) (some data) 2

def MapsProtoCreateSCRequest (num mode msec_time : Nat) : Except Errno tMAPS_PROTO_RAW_FRAME :=
  if mode ≠ 65 ∧ mode ≠ 66 ∧ mode ≠ 67 ∧ mode ≠ 68 ∧ mode ≠ 69 ∧ mode ≠ 72 ∧ mode ≠ 73 then
    .error .EINVAL
  else
  let msec_time := if msec_time > 999 then 999 else msec_time
  let data := [mode] ++ sprintf_u 3 msec_time ++ [0]
  MapsProtoCreateFrame K_MAPS_PROTO_REQ_TYPE num (some [83, 67] /- SC -/) (some data) 4

def MapsProtoCreateSMRequest (num elements : Nat) (data : Option tMAPS_PROTO_SM_DATA) :
    Except Errno tMAPS_PROTO_RAW_FRAME :=
  match data with
  | none => .error .EINVAL
  | some data =>
  if elements < 3 ∨ elements > 5 then .error .EINVAL else
  let td := if data.tow_detection = 0 then 48 else data.tow_detection
  if data.work_mode > 3 then .error .EINVAL else
  if data.axis_ispeed > 15 then .error .EINVAL else
  if data.axis_height > 2 then .error .EINVAL else
  if bad_tow td then .error .EINVAL else
  if elements = 5 ∧ data.rcvr_direction ≠ 80 ∧ data.rcvr_direction ≠ 78 then .error .EINVAL else
  let buffer : List Nat :=
    [ data.work_mode + 48,
      if data.axis_ispeed < 10 then data.axis_ispeed + 48 else data.axis_ispeed + 55,
      data.axis_height + 48,
      td,
      data.rcvr_direction,
      0 ]
  MapsProtoCreateFrame K_MAPS_PROTO_REQ_TYPE num (some [83, 77] /- SM -/) (some buffer) elements

def MapsProtoCreateSRRequest (num sensors_num : Nat) : Except Errno tMAPS_PROTO_RAW_FRAME :=
  if sensors_num < 3 ∨ sensors_num > 10 then .error .EINVAL else
  let data := sprintf_u 2 sensors_num ++ [0]
  MapsProtoCreateFrame K_MAPS_PROTO_REQ_TYPE num (some [83, 82] /- SR -/) (some data) 2

def MapsProtoCreateRHRequest (num mode receiver_num : Nat) :
    Except Errno tMAPS_PROTO_RAW_FRAME :=
  if mode > 1 ∨ receiver_num = 0 ∨ receiver_num > 24 then .error .EINVAL else
  let data := [(mode + 48) % 256] ++ sprintf_u 2 receiver_num ++ [0]
  MapsProtoCreateFrame K_MAPS_PROTO_REQ_TYPE num (some [82, 72] /- RH -/) (some data) 3

/-! ## Spontaneous request builders (maps_proto.c lines 1061-1352) -/

/-- The record is read through `(uint8_t *) data`: the 64 bytes of `rcv_map8`
followed by the 24 bytes of `rcv_map3`. The `sizeof` test of the C function
is a compile-time constant (88 = 88) and never fires. -/
def MapsProtoCreateBarrierAdjRequest (num type : Nat)
    (data : Option tMAPS_PROTO_BARRIER_ADJUST) : Except Errno tMAPS_PROTO_RAW_FRAME :=
  match data with
  | none => .error .EINVAL
  | some data =>
  let buffer := data.rcv_map8 ++ data.rcv_map3
  if (List.range K_MAPS_PROTO_PASF_SIZE).any (fun i => !isxdigit (buffer.getD i 0)) then
    .error .EINVAL
  else if type ≠ 0 then
    MapsProtoCreateFrame K_MAPS_PROTO_REQ_TYPE num (some [65, 74] /- AJ -/) (some buffer)
      K_MAPS_PROTO_PASF_SIZE
  else
    let d := List.replicate (K_MAPS_PROTO_PASF_SIZE + 1) 0
    let d := memcpy d 0 buffer K_MAPS_PROTO_PASF_SIZE
    let d := d.set K_MAPS_PROTO_PASF_SIZE K_MAPS_PROTO_CR
    .ok { size := K_MAPS_PROTO_PASF_SIZE + 1, data := d }

def MapsProtoCreateSCSpecialRequest (num : Nat) (data : Option tMAPS_PROTO_SC_SPECIAL) :
    Except Errno tMAPS_PROTO_RAW_FRAME :=
  match data with
  | none => .error .EINVAL
  | some data =>
  if data.mode = 65 ∨ data.mode = 66 ∨ data.mode = 67 then
    if (List.range K_MAPS_PROTO_SENSORS_MAP).any (fun i => !isxdigit (data.sensors.getD i 0)) then
      .error .EINVAL
    else if data.sweeps_num > 9 then .error .EINVAL
    else
      let buffer := List.replicate 8 0
      let buffer := buffer.set 0 (if data.presence ≠ 0 then 49 else 48)
      let buffer := memcpy buffer 1 data.sensors K_MAPS_PROTO_SENSORS_MAP
      let buffer := buffer.set 7 (data.sweeps_num + 48)
      MapsProtoCreateFrame K_MAPS_PROTO_REQ_TYPE num (some [83, 67] /- SC -/) (some buffer) 8
  else if data.mode = 68 ∨ data.mode = 69 ∨ data.mode = 72 ∨ data.mode = 73 then
    let size := if data.mode = 68 ∨ data.mode = 69 then 1 else 2
    if (List.range K_MAPS_PROTO_DEHI_BUFFER).any (fun i => !isxdigit (data.MODES.getD i 0)) then
      .error .EINVAL
    else
      let d := List.replicate (K_MAPS_PROTO_DEHI_BUFFER + size) 0
      let d := memcpy d 0 data.MODES K_MAPS_PROTO_DEHI_BUFFER
      let d := d.set K_MAPS_PROTO_DEHI_BUFFER K_MAPS_PROTO_CR
      let d := if size = 2 then d.set (K_MAPS_PROTO_DEHI_BUFFER + 1) K_MAPS_PROTO_LF else d
      .ok { size := K_MAPS_PROTO_DEHI_BUFFER + size, data := d }
  else .error .EINVAL

def MapsProtoCreateAPRequest (num : Nat) (data : Option tMAPS_PROTO_AP_DATA) :
    Except Errno tMAPS_PROTO_RAW_FRAME :=
  match data with
  | none => .error .EINVAL
  | some data =>
  if data.smbyte ≥ 2 then
    if data.vaxis ≠ 80 ∧ data.vaxis ≠ 78 ∧ data.vaxis ≠ 48 ∧ data.vaxis ≠ 0 then
      .error .EINVAL
    else
    let buffer := [if data.vaxis = 0 then 48 else data.vaxis, 48] ++
      sprintf_u 2 (if data.axis_height > 15 then 15 else data.axis_height) ++
      sprintf_u 2 (if data.vmax_height > 99 then 99 else data.vmax_height) ++
      sprintf_u 2 (if data.hmin_height > 99 then 99 else data.hmin_height) ++
      sprintf_u 2 (if data.lmax_height > 99 then 99 else data.lmax_height) ++ [0]
    MapsProtoCreateFrame K_MAPS_PROTO_REQ_TYPE num (some [65, 80] /- AP -/) (some buffer) 10
  else
    let buffer := sprintf_u 2 (if data.vheight > 99 then 99 else data.vheight) ++ [0]
    MapsProtoCreateFrame K_MAPS_PROTO_REQ_TYPE num (some [65, 80] /- AP -/) (some buffer) 2

def MapsProtoCreateEJRequest (num : Nat) (data : Option tMAPS_PROTO_EJ_DATA) :
    Except Errno tMAPS_PROTO_RAW_FRAME :=
  match data with
  | none => .error .EINVAL
  | some data =>
  let buffer :=
    sprintf_u 2 (if data.paxes > 99 then 99 else data.paxes) ++
    sprintf_u 2 (if data.naxes > 99 then 99 else data.naxes) ++
    sprintf_u 2 (if data.ispeed > 99 then 99 else data.ispeed) ++ [0]
  MapsProtoCreateFrame K_MAPS_PROTO_REQ_TYPE num (some [69, 74] /- EJ -/) (some buffer) 6

/-- The `sprintf` of the firmware version runs after the test
`firmware_ver > 99`, so it writes two digits and a NUL; the NUL is then
overwritten by the next store (`buffer[7]` or `buffer[8]`). -/
def MapsProtoCreateEMRequest (num : Nat) (data : Option tMAPS_PROTO_EM_DATA) :
    Except Errno tMAPS_PROTO_RAW_FRAME :=
  match data with
  | none => .error .EINVAL
  | some data =>
  let td := if data.tow_detection = 0 then 48 else data.tow_detection
  if data.work_mode > 3 then .error .EINVAL else
  if data.axis_ispeed > 15 then .error .EINVAL else
  if data.axis_height > 2 then .error .EINVAL else
  if bad_tow td then .error .EINVAL else
  if data.hw_failure = 0 ∨ data.hw_failure > 3 then .error .EINVAL else
  if data.se_cleaning = 0 ∨ data.se_cleaning > 2 then .error .EINVAL else
  if data.firmware_ver > 99 then .error .EINVAL else
  if data.rcvr_direction ≠ 0 ∧ data.rcvr_direction ≠ 80 ∧ data.rcvr_direction ≠ 78 then
    .error .EINVAL
  else
  let buffer := List.replicate 11 0
  let buffer := buffer.set 0 (data.work_mode + 48)
  let buffer := buffer.set 1
    (if data.axis_ispeed < 10 then data.axis_ispeed + 48 else data.axis_ispeed + 55)
  let buffer := buffer.set 2 (data.axis_height + 48)
  if data.rcvr_direction = 0 then
    let buffer := buffer.set 3 (data.hw_failure + 48)
    let buffer := buffer.set 4 (data.se_cleaning + 48)
    let buffer := memcpy buffer 5 (sprintf_u 2 data.firmware_ver ++ [0]) 3
    let buffer := buffer.set 7 48
    let buffer := buffer.set 8 48
    MapsProtoCreateFrame K_MAPS_PROTO_REQ_TYPE num (some [69, 77] /- EM -/) (some buffer) 9
  else
    let buffer := buffer.set 3 td
    let buffer := buffer.set 4 (data.hw_failure + 48)
    let buffer := buffer.set 5 (data.se_cleaning + 48)
    let buffer := memcpy buffer 6 (sprintf_u 2 data.firmware_ver ++ [0]) 3
    let buffer := buffer.set 8 data.rcvr_direction
    let buffer := buffer.set 9 48
    MapsProtoCreateFrame K_MAPS_PROTO_REQ_TYPE num (some [69, 77] /- EM -/) (some buffer) 10

/-- The axle counts are clamped at 99 before `sprintf`, so each `%.2u` writes
two digits; the NUL that ends the second `sprintf` lands on `buffer[16]` and
is overwritten by the class. -/
def MapsProtoCreateEndVehicleRequest (num type : Nat) (data : Option tMAPS_PROTO_END_VEHICLE) :
    Except Errno tMAPS_PROTO_RAW_FRAME :=
  match data with
  | none => .error .EINVAL
  | some data =>
  if data.smb > 3 then .error .EINVAL else
  if data.smb ≠ 3 ∧ (data.vclass ≠ 77 ∧ data.vclass ≠ 88 ∧ (data.vclass < 65 ∨ data.vclass > 70))
  then .error .EINVAL else
  let type := if type ≠ 0 then 1 else 0
  let cmds : List (List Nat) := [[70, 65] /- FA -/, [70, 82] /- FR -/]
  let c99 (v : Nat) : Nat := if v > 99 then 99 else v
  let buffer := List.replicate 17 0
  let buffer := memcpy buffer 0
    (sprintf_u 2 (c99 data.paxes) ++ sprintf_u 2 (c99 data.naxes) ++ [0]) 5
  if data.smb ≤ 1 then
    let buffer := buffer.set 4 data.vclass
    MapsProtoCreateFrame K_MAPS_PROTO_REQ_TYPE num (some (cmds.getD type [])) (some buffer) 5
  else if data.smb = 2 then
    let buffer := memcpy buffer 4
      (sprintf_u 2 (c99 data.paxes10) ++ sprintf_u 2 (c99 data.naxes10) ++
       sprintf_u 2 (c99 data.paxes16) ++ sprintf_u 2 (c99 data.naxes16) ++
       sprintf_u 2 (c99 data.paxes22) ++ sprintf_u 2 (c99 data.naxes22) ++ [0]) 13
    let buffer := buffer.set 16 data.vclass
    MapsProtoCreateFrame K_MAPS_PROTO_REQ_TYPE num (some (cmds.getD type [])) (some buffer) 17
  else
    MapsProtoCreateFrame K_MAPS_PROTO_REQ_TYPE num (some (cmds.getD type [])) (some buffer) 4

def MapsProtoCreateFailureRequest (num type : Nat) (data : Option tMAPS_PROTO_FAILURE_DATA) :
    Except Errno tMAPS_PROTO_RAW_FRAME :=
  match data with
  | none => .error .EINVAL
  | some data =>
  if (data.type ≠ 82 ∧ data.type ≠ 69) ∨ data.ngroup > 8 ∨ data.nsensor > 8 then
    .error .EINVAL
  else
  let type := if type ≠ 0 then 1 else 0
  let cmds : List (List Nat) := [[70, 88] /- FX -/, [80, 88] /- PX -/]
  let buffer := [data.type, data.ngroup + 48, data.nsensor + 48]
  MapsProtoCreateFrame K_MAPS_PROTO_REQ_TYPE num (some (cmds.getD type [])) (some buffer) 3

def MapsProtoCreateIARequest (num ispeed : Nat) : Except Errno tMAPS_PROTO_RAW_FRAME :=
  let ispeed := if ispeed > 99 then 99 else ispeed
  let buffer := sprintf_u 2 ispeed ++ [0]
  if ispeed ≠ 0 then
    MapsProtoCreateFrame K_MAPS_PROTO_REQ_TYPE num (some [73, 65] /- IA -/) (some buffer) 2
  else
    MapsProtoCreateEmptyRequest num (some [73, 65] /- IA -/)

/-- The local array `days[]` of `MapsProtoCreateRERequest`: the length of each
month, 29 for February. -/
def days : List Nat := [31, 29, 31, 30, 31, 30, 31, 31, 30, 31, 30, 31]

/-- The three rounds of the `for` loop are written out: `date[0]`, `date[1]`
and `date[2]` are the successive remainders of `date_ver` by 100 (year, month,
day); the month is tested in round 1 and the day in round 2, against
`days[date[1]-1]`. The format string is
`/32CF-220M/V-%.2u/R-%.2u/D-%.2u-%.2u-%.2u/`. -/
def MapsProtoCreateRERequest (num firm_ver rev_ver date_ver : Nat) :
    Except Errno tMAPS_PROTO_RAW_FRAME :=
  if firm_ver ≠ 0 ∧ rev_ver ≠ 0 ∧ date_ver ≠ 0 then
    let firm_ver := if firm_ver > 99 then 99 else firm_ver
    let rev_ver := if rev_ver > 99 then 99 else rev_ver
    let date0 := date_ver % 100
    let date_ver := date_ver / 100
    let date1 := date_ver % 100
    if date1 = 0 ∨ date1 > 12 then .error .EINVAL else
    let date_ver := date_ver / 100
    let date2 := date_ver % 100
    if date2 = 0 ∨ date2 > days.getD (date1 - 1) 0 then .error .EINVAL else
    let buffer : List Nat :=
      [47, 51, 50, 67, 70, 45, 50, 50, 48, 77, 47, 86, 45] /- /32CF-220M/V- -/ ++
      sprintf_u 2 firm_ver ++ [47, 82, 45] /- /R- -/ ++
      sprintf_u 2 rev_ver ++ [47, 68, 45] /- /D- -/ ++
      sprintf_u 2 date2 ++ [45] ++ sprintf_u 2 date1 ++ [45] ++ sprintf_u 2 date0 ++
      [47, 0]
    MapsProtoCreateFrame K_MAPS_PROTO_REQ_TYPE num (some [82, 69] /- RE -/) (some buffer) 32
  else
    MapsProtoCreateEmptyRequest num (some [82, 69] /- RE -/)

def MapsProtoCreateRMRequest (num naxes : Nat) : Except Errno tMAPS_PROTO_RAW_FRAME :=
  let naxes := if naxes > 99 then 99 else naxes
  let buffer := sprintf_u 2 naxes ++ [0]
  if naxes ≠ 0 then
    MapsProtoCreateFrame K_MAPS_PROTO_REQ_TYPE num (some [82, 77] /- RM -/) (some buffer) 2
  else
    MapsProtoCreateEmptyRequest num (some [82, 77] /- RM -/)

/-! ## Response builders (maps_proto.c lines 1356-1474) -/

def MapsProtoCreateUnknownResponse (num : Nat) (cmd : Option (List Nat)) :
    Except Errno tMAPS_PROTO_RAW_FRAME :=
  MapsProtoCreateFrame K_MAPS_PROTO_UNK_TYPE num cmd none 0

def MapsProtoCreateEmptyResponse (num : Nat) (cmd : Option (List Nat)) :
    Except Errno tMAPS_PROTO_RAW_FRAME :=
  MapsProtoCreateFrame K_MAPS_PROTO_RES_TYPE num cmd none 0

def MapsProtoCreateRHResponse (num wmode recvn : Nat) : Except Errno tMAPS_PROTO_RAW_FRAME :=
  if recvn < 1 ∨ recvn > 24 then .error .EINVAL else
  let wmode := if wmode ≠ 0 then 49 else 48
  let buffer := [wmode] ++ sprintf_u 2 recvn ++ [0]
  MapsProtoCreateFrame K_MAPS_PROTO_RES_TYPE num (some [82, 72] /- RH -/) (some buffer) 3

/-- The fields of type `char` (`tow_detection`, `rcvr_direction`,
`barrier_model`) are read as their byte value; the test `barrier_model < 10`
is the same for a signed and an unsigned `char` when the byte is below 128. -/
def MapsProtoCreateDEResponse (num : Nat) (data : Option tMAPS_PROTO_DE_DATA) :
    Except Errno tMAPS_PROTO_RAW_FRAME :=
  match data with
  | none => .error .EINVAL
  | some data =>
  let td := if data.tow_detection = 0 then 48 else data.tow_detection
  if data.work_mode > 3 then .error .EINVAL else
  if data.axis_ispeed > 15 then .error .EINVAL else
  if data.axis_height > 2 then .error .EINVAL else
  if bad_tow td then .error .EINVAL else
  if data.hw_failure = 0 ∨ data.hw_failure > 3 then .error .EINVAL else
  if data.se_cleaning = 0 ∨ data.se_cleaning > 2 then .error .EINVAL else
  if data.firmware_ver > 99 then .error .EINVAL else
  if data.rcvr_direction ≠ 0 ∧ data.rcvr_direction ≠ 80 ∧ data.rcvr_direction ≠ 78 then
    .error .EINVAL
  else
  let buffer := List.replicate 10 0
  let buffer := buffer.set 0 (data.work_mode + 48)
  let buffer := buffer.set 1
    (if data.axis_ispeed < 10 then data.axis_ispeed + 48 else data.axis_ispeed + 55)
  let buffer := buffer.set 2 (data.axis_height + 48)
  let buffer := buffer.set 3 td
  let buffer := buffer.set 4 (data.hw_failure + 48)
  let buffer := buffer.set 5 (data.se_cleaning + 48)
  let buffer := memcpy buffer 6 (sprintf_u 2 data.firmware_ver ++ [0]) 3
  let buffer := buffer.set 8
    (if data.rcvr_direction = 0 then data.rcvr_direction + 48 else data.rcvr_direction)
  let buffer := buffer.set 9
    (if data.barrier_model < 10 then data.barrier_model + 48 else data.barrier_model)
  MapsProtoCreateFrame K_MAPS_PROTO_RES_TYPE num (some [68, 69] /- DE -/) (some buffer) 10

/-- The C function formats the four fields into `uint8_t buffer[9]` with no
range test and no clamp. The model keeps the whole `sprintf` output, of which
the framer copies the first eight characters; when the output is longer than
eight characters the C function writes past `buffer`. -/
def MapsProtoCreateEAResponse (num : Nat) (data : Option tMAPS_PROTO_EA_DATA) :
    Except Errno tMAPS_PROTO_RAW_FRAME :=
  match data with
  | none => .error .EINVAL
  | some data =>
  let buffer := sprintf_u 2 data.imax_height ++ sprintf_u 2 data.umax_height ++
    sprintf_u 2 data.umin_height ++ sprintf_u 2 data.lmax_height ++ [0]
  MapsProtoCreateFrame K_MAPS_PROTO_RES_TYPE num (some [69, 65] /- EA -/) (some buffer) 8

def MapsProtoCreateERResponse (num recv_status : Nat) : Except Errno tMAPS_PROTO_RAW_FRAME :=
  let recv_status := if recv_status ≠ 0 then 49 else 48
  MapsProtoCreateFrame K_MAPS_PROTO_RES_TYPE num (some [69, 82] /- ER -/) (some [recv_status]) 1

def MapsProtoCreateTTResponse (num : Nat) (data : Option tMAPS_PROTO_TT_DATA) :
    Except Errno tMAPS_PROTO_RAW_FRAME :=
  match data with
  | none => .error .EINVAL
  | some data =>
  if (List.range K_MAPS_PROTO_EMITTERS_MAP_SIZE).any
      (fun i => !isxdigit (data.e_map.getD i 0)) then .error .EINVAL
  else if (List.range K_MAPS_PROTO_RECEIVERS_MAP_SIZE).any
      (fun i => !isxdigit (data.r_map.getD i 0)) then .error .EINVAL
  else
  let buffer := List.replicate 26 0
  let buffer := buffer.set 0 77
  let buffer := buffer.set 17 82
  let buffer := memcpy buffer 1 data.e_map K_MAPS_PROTO_EMITTERS_MAP_SIZE
  let buffer := memcpy buffer 18 data.r_map K_MAPS_PROTO_RECEIVERS_MAP_SIZE
  MapsProtoCreateFrame K_MAPS_PROTO_RES_TYPE num (some [84, 84] /- TT -/) (some buffer) 26

def MapsProtoCreateCBResponse (num loop_state : Nat) : Except Errno tMAPS_PROTO_RAW_FRAME :=
  let loop_state := if loop_state ≠ 0 then 49 else 48
  MapsProtoCreateFrame K_MAPS_PROTO_RES_TYPE num (some [67, 66] /- CB -/) (some [loop_state]) 1

/-! ## Layout of an enveloped frame (used to state what the framer writes) -/

/-- The `n` bytes a `memcpy` of length `n` takes from `src` (0 past its end). -/
def src_bytes (src : List Nat) (n : Nat) : List Nat :=
  (List.range n).map (fun i => src.getD i 0)

/-- The direction tag the framer inserts: nothing, `RS` or `NE`. -/
def dir_tag (type : Nat) : List Nat :=
  if type = 1 then [82, 83] else if type = 2 then [78, 69] else []

/-- An enveloped frame: SOH, the sequence digit, the body (direction tag,
command, payload), the LRC of sequence digit and body, CR. -/
def envelope (num : Nat) (body : List Nat) : List Nat :=
  K_MAPS_PROTO_SOH :: (num + 48) :: body ++
    MapsProtoCalculateLRC ((num + 48) :: body) ++ [K_MAPS_PROTO_CR]

/-! ## Lemmas on the C helpers and the monad -/

@[simp] theorem ok_bind {ε α β : Type} (a : α) (f : α → Except ε β) :
    (Except.ok a >>= f) = f a := rfl

@[simp] theorem error_bind {ε α β : Type} (e : ε) (f : α → Except ε β) :
    (Except.error e >>= f) = Except.error e := rfl

@[simp] theorem pure_eq_ok {ε α : Type} (a : α) : (pure a : Except ε α) = Except.ok a := rfl

theorem length_memcpy (dst : List Nat) (pos : Nat) (src : List Nat) (n : Nat) :
    (memcpy dst pos src n).length = dst.length := by
  induction n with
  | zero => rfl
  | succ k ih => simp [memcpy, ih]

theorem memcpy_eq (dst : List Nat) (pos : Nat) (src : List Nat) (n : Nat)
    (h : pos + n ≤ dst.length) :
    memcpy dst pos src n = dst.take pos ++ src_bytes src n ++ dst.drop (pos + n) := by
  induction n with
  | zero => simp [memcpy, src_bytes]
  | succ k ih =>
    have hk : pos + k ≤ dst.length := by omega
    rw [memcpy, ih hk]
    have hlen : (List.take pos dst ++ src_bytes src k).length = pos + k := by
      simp [src_bytes]; omega
    rw [List.set_append_right _ _ (by omega)]
    simp only [hlen, Nat.sub_self]
    have hd : List.drop (pos + k) dst = dst[pos + k] :: List.drop (pos + k + 1) dst := by
      rw [List.drop_eq_getElem_cons]
    rw [hd, List.set_cons_zero]
    simp [src_bytes, List.range_succ, Nat.add_assoc]

theorem memcpy_mid (a b c src : List Nat) (pos n : Nat) (hp : pos = a.length)
    (hb : b.length = n) : memcpy (a ++ b ++ c) pos src n = a ++ src_bytes src n ++ c := by
  subst hp hb
  rw [memcpy_eq _ _ _ _ (by simp)]
  simp

theorem set_mid (a c : List Nat) (x v : Nat) (pos : Nat) (hp : pos = a.length) :
    (a ++ x :: c).set pos v = a ++ v :: c := by
  subst hp
  simp

theorem length_src_bytes (src : List Nat) (n : Nat) : (src_bytes src n).length = n := by
  simp [src_bytes]

theorem src_bytes_LRC (d : List Nat) :
    src_bytes (MapsProtoCalculateLRC d) 2 = MapsProtoCalculateLRC d := by
  simp [src_bytes, MapsProtoCalculateLRC, List.range_succ]

theorem tail_writes (hd dat : List Nat) (ds hl : Nat) (hhl : hl = hd.length) (h1 : 1 ≤ hl) :
    (memcpy (memcpy (hd ++ List.replicate ds 0 ++ [0, 0, 0]) hl dat ds) (hl + ds)
        (MapsProtoCalculateLRC
          (((memcpy (hd ++ List.replicate ds 0 ++ [0, 0, 0]) hl dat ds).drop 1).take
            (hl + ds - 1))) 2).set (hl + ds + 2) K_MAPS_PROTO_CR
      = hd ++ src_bytes dat ds ++ MapsProtoCalculateLRC ((hd ++ src_bytes dat ds).drop 1)
          ++ [K_MAPS_PROTO_CR] := by
  rw [memcpy_mid hd (List.replicate ds 0) [0, 0, 0] dat hl ds hhl (by simp)]
  have hslice : ((hd ++ src_bytes dat ds ++ [0, 0, 0]).drop 1).take (hl + ds - 1)
      = (hd ++ src_bytes dat ds).drop 1 := by
    rw [List.drop_append_of_le_length (by simp [length_src_bytes]; omega)]
    rw [List.take_append_of_le_length (by simp [length_src_bytes]; omega)]
    rw [List.take_of_length_le (by simp [length_src_bytes]; omega)]
  rw [hslice]
  have h3 : hd ++ src_bytes dat ds ++ [0, 0, 0] = (hd ++ src_bytes dat ds) ++ [0, 0] ++ [0] := by
    simp
  rw [h3, memcpy_mid (hd ++ src_bytes dat ds) [0, 0] [0] _ (hl + ds) 2
    (by simp [length_src_bytes, hhl]) rfl, src_bytes_LRC]
  rw [set_mid _ [] 0 _ _ (by simp [length_src_bytes, hhl, MapsProtoCalculateLRC]; omega)]

theorem src_bytes_two (src : List Nat) : src_bytes src 2 = [src.getD 0 0, src.getD 1 0] := by
  simp [src_bytes, List.range_succ]

theorem CreateFrame_eq (type num : Nat) (cmd data : Option (List Nat)) (ds : Nat)
    (hsz : (if type = 0 then 7 else 9) + ds < 65536) :
    MapsProtoCreateFrame type num cmd data ds =
      if type > 2 ∨ num > 9 ∨ cmd = none ∨ ((MapsProtoFindCmd cmd).isNone ∧ type ≠ 2) ∨
          (data = none ∧ ds ≠ 0) then .error .EINVAL
      else if type = 1 ∧ ds = 0 ∧ cinfo_suppdata (MapsProtoFindCmd cmd) &&& 1 = 0 then
        .error .EINVAL
      else if type = 0 ∧ ds = 0 ∧ cinfo_suppdata (MapsProtoFindCmd cmd) &&& 2 = 0 then
        .error .EINVAL
      else .ok ⟨(if type = 0 then 7 else 9) + ds,
        envelope num (dir_tag type ++ src_bytes (cmd.getD []) 2 ++ src_bytes (data.getD []) ds)⟩ := by
  unfold MapsProtoCreateFrame
  simp only []
  by_cases h1 : type > 2 ∨ num > 9 ∨ cmd = none ∨ ((MapsProtoFindCmd cmd).isNone ∧ type ≠ 2) ∨
      (data = none ∧ ds ≠ 0)
  · simp only [if_pos h1]
  simp only [if_neg h1]
  by_cases h2 : type = 1 ∧ ds = 0 ∧ cinfo_suppdata (MapsProtoFindCmd cmd) &&& 1 = 0
  · simp only [if_pos h2]
  simp only [if_neg h2]
  by_cases h3 : type = 0 ∧ ds = 0 ∧ cinfo_suppdata (MapsProtoFindCmd cmd) &&& 2 = 0
  · simp only [if_pos h3]
  simp only [if_neg h3]
  have hds : ∀ (d : List Nat) (p : Nat) (s : List Nat),
      (if ds ≠ 0 then memcpy d p s ds else d) = memcpy d p s ds := by
    intro d p s
    by_cases h : ds = 0
    · subst h; simp [memcpy]
    · simp [h]
  have hpos : ∀ p : Nat, (if ds ≠ 0 then p + ds else p) = p + ds := by
    intro p
    by_cases h : ds = 0
    · subst h; simp
    · simp [h]
  have ht : type ≤ 2 := by omega
  simp only [hds, hpos]
  congr 1
  interval_cases type <;> simp only [OfNat.ofNat_ne_zero, one_ne_zero, if_true, if_false] at hsz
  · have e3 : (7 + ds) % 65536 = 7 + ds := by omega
    have hrep : List.replicate (7 + ds) 0
        = List.replicate 4 0 ++ List.replicate ds 0 ++ [0, 0, 0] := by
      rw [show 7 + ds = 4 + ds + 3 by omega, List.replicate_add, List.replicate_add]
      rfl
    have e1 : (7 + ds + 65536 - 4) % 65536 = 4 + ds - 1 := by omega
    have e2 : 7 + ds - 1 = 4 + ds + 2 := by omega
    simp only [ne_eq, not_true_eq_false, OfNat.ofNat_ne_zero, one_ne_zero, not_false_eq_true,
      ite_true, ite_false, e3, Nat.reduceAdd, List.getD_cons_zero, List.getD_cons_succ,
      List.getD_eq_getElem?_getD, List.getElem?_cons_succ, List.getElem?_cons_zero, Option.getD_some]
    rw [e1, e2]
    have hhdr : memcpy (((List.replicate (7 + ds) 0).set 0 K_MAPS_PROTO_SOH).set 1 (num + 48)) 2
        (cmd.getD []) 2
        = [1, num + 48, (cmd.getD []).getD 0 0, (cmd.getD []).getD 1 0] ++ List.replicate ds 0 ++ [0, 0, 0] := by
      simp [hrep, memcpy, List.replicate]
    simp only [ne_eq, OfNat.ofNat_ne_zero, not_false_eq_true, not_true_eq_false, if_true, if_false,
      Nat.reduceAdd, hhdr]
    rw [tail_writes [1, num + 48, (cmd.getD []).getD 0 0, (cmd.getD []).getD 1 0] _ _ 4 rfl (by omega)]
    simp [envelope, dir_tag, src_bytes_two]
  · have e3 : (9 + ds) % 65536 = 9 + ds := by omega
    have hrep : List.replicate (9 + ds) 0
        = List.replicate 6 0 ++ List.replicate ds 0 ++ [0, 0, 0] := by
      rw [show 9 + ds = 6 + ds + 3 by omega, List.replicate_add, List.replicate_add]
      rfl
    have e1 : (9 + ds + 65536 - 4) % 65536 = 6 + ds - 1 := by omega
    have e2 : 9 + ds - 1 = 6 + ds + 2 := by omega
    simp only [ne_eq, not_true_eq_false, OfNat.ofNat_ne_zero, one_ne_zero, not_false_eq_true,
      ite_true, ite_false, e3, Nat.reduceAdd, List.getD_cons_zero, List.getD_cons_succ,
      List.getD_eq_getElem?_getD, List.getElem?_cons_succ, List.getElem?_cons_zero, Option.getD_some]
    rw [e1, e2]
    have hhdr : memcpy (memcpy (((List.replicate (9 + ds) 0).set 0 K_MAPS_PROTO_SOH).set 1 (num + 48)) 2
        [82, 83] 2) 4 (cmd.getD []) 2
        = [1, num + 48, 82, 83, (cmd.getD []).getD 0 0, (cmd.getD []).getD 1 0] ++ List.replicate ds 0 ++ [0, 0, 0] := by
      simp [hrep, memcpy, List.replicate]
    simp only [ne_eq, OfNat.ofNat_ne_zero, not_false_eq_true, not_true_eq_false, if_true, if_false,
      Nat.reduceAdd, hhdr]
    rw [tail_writes [1, num + 48, 82, 83, (cmd.getD []).getD 0 0, (cmd.getD []).getD 1 0] _ _ 6 rfl (by omega)]
    simp [envelope, dir_tag, src_bytes_two]
  · have e3 : (9 + ds) % 65536 = 9 + ds := by omega
    have hrep : List.replicate (9 + ds) 0
        = List.replicate 6 0 ++ List.replicate ds 0 ++ [0, 0, 0] := by
      rw [show 9 + ds = 6 + ds + 3 by omega, List.replicate_add, List.replicate_add]
      rfl
    have e1 : (9 + ds + 65536 - 4) % 65536 = 6 + ds - 1 := by omega
    have e2 : 9 + ds - 1 = 6 + ds + 2 := by omega
    simp only [ne_eq, not_true_eq_false, OfNat.ofNat_ne_zero, one_ne_zero, not_false_eq_true,
      ite_true, ite_false, e3, Nat.reduceAdd, List.getD_cons_zero, List.getD_cons_succ,
      List.getD_eq_getElem?_getD, List.getElem?_cons_succ, List.getElem?_cons_zero, Option.getD_some]
    rw [e1, e2]
    have hhdr : memcpy (memcpy (((List.replicate (9 + ds) 0).set 0 K_MAPS_PROTO_SOH).set 1 (num + 48)) 2
        [78, 69] 2) 4 (cmd.getD []) 2
        = [1, num + 48, 78, 69, (cmd.getD []).getD 0 0, (cmd.getD []).getD 1 0] ++ List.replicate ds 0 ++ [0, 0, 0] := by
      simp [hrep, memcpy, List.replicate]
    simp only [ne_eq, OfNat.ofNat_ne_zero, not_false_eq_true, not_true_eq_false, if_true, if_false,
      Nat.reduceAdd, hhdr]
    rw [tail_writes [1, num + 48, 78, 69, (cmd.getD []).getD 0 0, (cmd.getD []).getD 1 0] _ _ 6 rfl (by omega)]
    simp [envelope, dir_tag, src_bytes_two]

theorem LRC_eq (d : List Nat) :
    MapsProtoCalculateLRC d =
      [48 + d.foldl (fun x b => (x ^^^ b) % 256) 0 / 16 % 16,
       48 + d.foldl (fun x b => (x ^^^ b) % 256) 0 % 16] := by
  simp only [MapsProtoCalculateLRC, sprintf_2X, hexdigit, List.getD_cons_zero,
    List.getD_cons_succ]
  generalize d.foldl (fun x b => (x ^^^ b) % 256) 0 = x
  have h1 : x / 16 % 16 < 16 := Nat.mod_lt _ (by omega)
  have h2 : x % 16 < 16 := Nat.mod_lt _ (by omega)
  congr 1
  · split_ifs <;> omega
  · congr 1
    split_ifs <;> omega

theorem length_LRC (d : List Nat) : (MapsProtoCalculateLRC d).length = 2 := by
  simp [MapsProtoCalculateLRC]

theorem u8_digit (n : Nat) (h : n < 208) : u8 (((n + 48 : Nat) : Int) - 48) = n := by
  unfold u8
  omega

theorem rd_cons_succ (x : Nat) (l : List Nat) (i : Nat) : rd (x :: l) (i + 1) = rd l i := by
  simp [rd]

theorem rd_cons_zero (x : Nat) (l : List Nat) : rd (x :: l) 0 = .ok x := by
  simp [rd]

theorem rd_append_right (a b : List Nat) (i : Nat) : rd (a ++ b) (a.length + i) = rd b i := by
  simp [rd, List.getElem?_append_right]

theorem rd_append_left (a b : List Nat) (i : Nat) (h : i < a.length) :
    rd (a ++ b) i = rd a i := by
  simp [rd, List.getElem?_append_left h]

theorem parse_envelope (num b0 b1 : Nat) (rest : List Nat) (size : Nat) (hn : num ≤ 9)
    (hsize : size = rest.length + 7) (h89 : size ≠ 89) (h13 : size ≠ 13) :
    MapsProtoParseFrame (some (envelope num (b0 :: b1 :: rest))) size =
      (if b0 = 78 ∧ b1 = 69 then do
        let c ← rdN (envelope num (b0 :: b1 :: rest)) 4 2
        if size ≠ 9 then .error .EPERM
        else pure ⟨num, 2, [c.getD 0 0, c.getD 1 0, 0, 0], 0, none⟩
      else if b0 = 82 ∧ b1 = 83 then do
        let c ← rdN (envelope num (b0 :: b1 :: rest)) 4 2
        match MapsProtoFindCmd (some (cstr [c.getD 0 0, c.getD 1 0, 0, 0])) with
        | none => .error .EPERM
        | some cinfo =>
          let r ← cinfo.ResponseParseFunc (envelope num (b0 :: b1 :: rest)) size
            ⟨num, 1, [c.getD 0 0, c.getD 1 0, 0, 0], 0, none⟩
          if r.1 ≠ 0 then .error (errors r.1) else pure r.2
      else
        match MapsProtoFindCmd (some (cstr
          (if (b0 = 70 ∧ b1 = 65) ∧ size > 7 then [70, 65, 83, 0] else [b0, b1, 0, 0]))) with
        | none => .error .EPERM
        | some cinfo => do
          let r ← cinfo.RequestParseFunc (envelope num (b0 :: b1 :: rest)) size
            ⟨num, 0, if (b0 = 70 ∧ b1 = 65) ∧ size > 7 then [70, 65, 83, 0] else [b0, b1, 0, 0],
              0, none⟩
          if r.1 ≠ 0 then .error (errors r.1) else pure r.2) := by
  subst hsize
  have hlrc := LRC_eq ((num + 48) :: b0 :: b1 :: rest)
  generalize hL : MapsProtoCalculateLRC ((num + 48) :: b0 :: b1 :: rest) = L at hlrc
  generalize List.foldl (fun x b => (x ^^^ b) % 256) 0 ((num + 48) :: b0 :: b1 :: rest) = x at hlrc
  have henv : envelope num (b0 :: b1 :: rest)
      = 1 :: (num + 48) :: b0 :: b1 :: (rest ++ L ++ [13]) := by
    simp [envelope, hL]
  have hLlen : L.length = 2 := by rw [hlrc]; rfl
  have r0 : rd (1 :: (num + 48) :: b0 :: b1 :: (rest ++ L ++ [13])) 0 = .ok 1 := by simp [rd]
  have r1 : rd (1 :: (num + 48) :: b0 :: b1 :: (rest ++ L ++ [13])) 1 = .ok (num + 48) := by
    simp [rd]
  have r2 : rd (1 :: (num + 48) :: b0 :: b1 :: (rest ++ L ++ [13])) 2 = .ok b0 := by simp [rd]
  have r3 : rd (1 :: (num + 48) :: b0 :: b1 :: (rest ++ L ++ [13])) 3 = .ok b1 := by simp [rd]
  have rlast : rd (1 :: (num + 48) :: b0 :: b1 :: (rest ++ L ++ [13])) (rest.length + 7 - 1)
      = .ok 13 := by
    have e : rest.length + 7 - 1 = (rest ++ L).length + 1 + 1 + 1 + 1 := by
      simp [hLlen]
    rw [e]
    simp only [rd_cons_succ]
    exact (rd_append_right (rest ++ L) [13] 0).trans (rd_cons_zero 13 [])
  have rlrc : rdN (1 :: (num + 48) :: b0 :: b1 :: (rest ++ L ++ [13])) (rest.length + 7 - 3) 2
      = .ok L := by
    have e : rest.length + 7 - 3 = rest.length + 4 := by omega
    rw [e]
    simp [rdN, hLlen]
  have rrange : rdN (1 :: (num + 48) :: b0 :: b1 :: (rest ++ L ++ [13])) 1 (rest.length + 7 - 4)
      = .ok ((num + 48) :: b0 :: b1 :: rest) := by
    have e : rest.length + 7 - 4 = rest.length + 3 := by omega
    rw [e]
    simp [rdN, hLlen]
    omega
  have r12 : rest.length + 7 = 14 →
      rd (1 :: (num + 48) :: b0 :: b1 :: (rest ++ L ++ [13])) 12 = .ok (48 + x % 16) := by
    intro h
    have h7 : rest.length = 7 := by omega
    have e : (12 : Nat) = rest.length + 1 + 1 + 1 + 1 + 1 := by omega
    rw [e, hlrc, List.append_assoc]
    simp only [rd_cons_succ, rd_append_right]
    simp [rd]
  have r22 : rdN (1 :: (num + 48) :: b0 :: b1 :: (rest ++ L ++ [13])) 2 2 = .ok [b0, b1] := by
    simp [rdN]
  unfold MapsProtoParseFrame
  have hsz : ¬ (rest.length + 7 < 7) := by omega
  have hu8 : u8 (((num + 48 : Nat) : Int) - 48) = num := u8_digit num (by omega)
  have hn9 : ¬ (num > 9) := by omega
  by_cases h14 : rest.length + 7 = 14
  · have h14t : (rest.length + 7 = 14) = True := eq_true h14
    have hne : ¬ (48 + x % 16 = 13) := by omega
    simp only [henv, hsz, if_false, K_MAPS_PROTO_PASF_SIZE, K_MAPS_PROTO_SCSF_SIZE, Nat.reduceAdd,
      h89, h13, h14t, r12 h14, hne, false_and, and_false, false_or, pure_eq_ok, ok_bind, if_true,
      K_MAPS_PROTO_CR, K_MAPS_PROTO_SOH, K_MAPS_PROTO_LF, or_true, true_or, true_and, and_true,
      r0, r1, r2, r3, rlast,
      rlrc, rrange, r22, hL, hu8, hn9, ne_eq, not_true_eq_false, or_self, parsed_calloc, memcpy,
      List.set_cons_zero, List.set_cons_succ, List.getD_cons_zero, List.getD_cons_succ,
      Nat.add_zero, Nat.zero_add]
    by_cases hfa : (b0 = 70 ∧ b1 = 65) ∧ rest.length + 7 > 7
    · simp only [hfa, and_self, if_true]
    · simp only [hfa, if_false]
  · simp only [henv, hsz, if_false, K_MAPS_PROTO_PASF_SIZE, K_MAPS_PROTO_SCSF_SIZE, Nat.reduceAdd,
      h89, h13, h14, false_and, and_false, false_or, pure_eq_ok, ok_bind, if_true,
      K_MAPS_PROTO_CR, K_MAPS_PROTO_SOH, K_MAPS_PROTO_LF, or_true, true_or, true_and, and_true,
      r0, r1, r2, r3, rlast,
      rlrc, rrange, r22, hL, hu8, hn9, ne_eq, not_true_eq_false, or_self, parsed_calloc, memcpy,
      List.set_cons_zero, List.set_cons_succ, List.getD_cons_zero, List.getD_cons_succ,
      Nat.add_zero, Nat.zero_add]
    by_cases hfa : (b0 = 70 ∧ b1 = 65) ∧ rest.length + 7 > 7
    · simp only [hfa, and_self, if_true]
    · simp only [hfa, if_false]

/-! ## C1: the envelope the framer writes -/

theorem length_envelope (num : Nat) (body : List Nat) :
    (envelope num body).length = body.length + 5 := by
  simp [envelope, length_LRC]

theorem envelope_last (num : Nat) (body : List Nat) :
    (envelope num body)[body.length + 4]? = some K_MAPS_PROTO_CR := by
  have e : body.length + 4 = (body ++ MapsProtoCalculateLRC ((num + 48) :: body)).length + 1 + 1 := by
    simp [length_LRC]
  rw [e]
  simp only [envelope, List.cons_append, List.getElem?_cons_succ]
  rw [List.getElem?_append_right (Nat.le_refl _)]
  simp

theorem envelope_lrc (num : Nat) (body : List Nat) :
    ((envelope num body).drop (body.length + 2)).take 2
      = MapsProtoCalculateLRC ((num + 48) :: body) := by
  simp only [envelope, List.cons_append, List.drop_succ_cons, List.append_assoc]
  rw [List.drop_append_of_le_length (Nat.le_refl _), List.drop_length, List.nil_append,
    List.take_append_of_le_length (by simp [length_LRC])]
  exact List.take_of_length_le (by simp [length_LRC])

theorem envelope_range (num : Nat) (body : List Nat) :
    ((envelope num body).drop 1).take (body.length + 1) = (num + 48) :: body := by
  simp only [envelope, List.cons_append, List.drop_succ_cons, List.drop_zero, List.take_succ_cons,
    List.append_assoc]
  rw [List.take_append_of_le_length (Nat.le_refl _), List.take_length]

/-- C1: a frame returned by `MapsProtoCreateFrame` (so the type is request,
response or unknown, `num <= 9`, command and payload were accepted; the frame
size fits the `uint16_t` size field) starts with SOH, ends with CR, has size
`7 + data_size` for a request and `9 + data_size` otherwise, carries the ASCII
digit of `num` at byte 1, and its two bytes at `size-3 .. size-2` are
`MapsProtoCalculateLRC` of bytes `1 .. size-4`. -/
theorem MapsProtoCreateFrame_envelope (type num : Nat) (cmd data : Option (List Nat))
    (data_size : Nat) (f : tMAPS_PROTO_RAW_FRAME)
    (hsize : (if type = 0 then 7 else 9) + data_size < 65536)
    (h : MapsProtoCreateFrame type num cmd data data_size = .ok f) :
    type ≤ 2 ∧ num ≤ 9 ∧
    f.size = (if type = 0 then 7 else 9) + data_size ∧
    f.data.length = f.size ∧
    f.data[0]? = some K_MAPS_PROTO_SOH ∧
    f.data[f.size - 1]? = some K_MAPS_PROTO_CR ∧
    f.data[1]? = some (num + 48) ∧
    (f.data.drop (f.size - 3)).take 2
      = MapsProtoCalculateLRC ((f.data.drop 1).take (f.size - 4)) := by
  rw [CreateFrame_eq type num cmd data data_size hsize] at h
  by_cases h1 : type > 2 ∨ num > 9 ∨ cmd = none ∨ ((MapsProtoFindCmd cmd).isNone ∧ type ≠ 2) ∨
      (data = none ∧ data_size ≠ 0)
  · rw [if_pos h1] at h; cases h
  rw [if_neg h1] at h
  by_cases h2 : type = 1 ∧ data_size = 0 ∧ cinfo_suppdata (MapsProtoFindCmd cmd) &&& 1 = 0
  · rw [if_pos h2] at h; cases h
  rw [if_neg h2] at h
  by_cases h3 : type = 0 ∧ data_size = 0 ∧ cinfo_suppdata (MapsProtoFindCmd cmd) &&& 2 = 0
  · rw [if_pos h3] at h; cases h
  rw [if_neg h3] at h
  have hf := (Except.ok.inj h).symm
  have ht : type ≤ 2 := by omega
  have hn : num ≤ 9 := by omega
  generalize hb : dir_tag type ++ src_bytes (cmd.getD []) 2 ++ src_bytes (data.getD []) data_size
    = body at hf
  have hbl : body.length = (if type = 0 then 2 else 4) + data_size := by
    rw [← hb]
    simp only [List.length_append, length_src_bytes, dir_tag]
    interval_cases type <;> simp
  have hsz : (if type = 0 then 7 else 9) + data_size = body.length + 5 := by
    rw [hbl]; split_ifs <;> omega
  rw [hsz] at hf ⊢
  subst hf
  refine ⟨ht, hn, rfl, length_envelope _ _, by simp [envelope], ?_, by simp [envelope], ?_⟩
  · exact envelope_last num body
  · have e1 : body.length + 5 - 3 = body.length + 2 := by omega
    have e2 : body.length + 5 - 4 = body.length + 1 := by omega
    simp only [e1, e2, envelope_lrc, envelope_range]

theorem MapsProtoCreateFrame_envelope_witness :
    ((if (0 : Nat) = 0 then 7 else 9) + 1 < 65536 ∧
      MapsProtoCreateFrame 0 0 (some [66, 82]) (some [51]) 1
        = .ok ⟨8, [1, 48, 66, 82, 51, 49, 51, 13]⟩) ∧
    ((0 : Nat) ≤ 2 ∧ (0 : Nat) ≤ 9 ∧
      (⟨8, [1, 48, 66, 82, 51, 49, 51, 13]⟩ : tMAPS_PROTO_RAW_FRAME).size
        = (if (0 : Nat) = 0 then 7 else 9) + 1 ∧
      (⟨8, [1, 48, 66, 82, 51, 49, 51, 13]⟩ : tMAPS_PROTO_RAW_FRAME).data.length = 8 ∧
      [1, 48, 66, 82, 51, 49, 51, 13][0]? = some K_MAPS_PROTO_SOH ∧
      [1, 48, 66, 82, 51, 49, 51, 13][8 - 1]? = some K_MAPS_PROTO_CR ∧
      [1, 48, 66, 82, 51, 49, 51, 13][1]? = some (0 + 48) ∧
      (List.drop (8 - 3) [1, 48, 66, 82, 51, 49, 51, 13]).take 2
        = MapsProtoCalculateLRC ((List.drop 1 [1, 48, 66, 82, 51, 49, 51, 13]).take (8 - 4))) :=
  ⟨⟨by decide, by decide⟩,
    MapsProtoCreateFrame_envelope 0 0 (some [66, 82]) (some [51]) 1
      ⟨8, [1, 48, 66, 82, 51, 49, 51, 13]⟩ (by decide) (by decide)⟩

/-! ## C2: the LRC -/

theorem foldl_xor_lt (data : List Nat) (x : Nat) (hx : x < 256) (h : ∀ b ∈ data, b < 256) :
    data.foldl (fun x b => (x ^^^ b) % 256) x = data.foldl (fun x b => x ^^^ b) x ∧
      data.foldl (fun x b => x ^^^ b) x < 256 := by
  induction data generalizing x with
  | nil => exact ⟨rfl, hx⟩
  | cons b t ih =>
    have hb : b < 256 := h b (List.mem_cons_self _ _)
    have hlt : x ^^^ b < 256 := Nat.xor_lt_two_pow (n := 8) hx hb
    simp only [List.foldl_cons, Nat.mod_eq_of_lt hlt]
    exact ih (x ^^^ b) hlt (fun c hc => h c (List.mem_cons_of_mem _ hc))

/-- C2 as stated fails: the LRC of the one-byte range `0A` is `30 3A`, and `3A`
(`:`) is not an uppercase hexadecimal digit. -/
theorem MapsProtoCalculateLRC_not_hex :
    MapsProtoCalculateLRC [0x0A] = [0x30, 0x3A] ∧
    ¬ (∀ c ∈ MapsProtoCalculateLRC [0x0A], (48 ≤ c ∧ c ≤ 57) ∨ (65 ≤ c ∧ c ≤ 70)) := by
  decide

/-- C2 amended: for every byte sequence, `MapsProtoCalculateLRC` returns the XOR
of all its bytes (an 8-bit value) as the two bytes `0x30 + high nibble`,
`0x30 + low nibble`; each output byte is in `0x30 .. 0x3F`. -/
theorem MapsProtoCalculateLRC_nibbles (data : List Nat) (h : ∀ b ∈ data, b < 256) :
    data.foldl (fun x b => x ^^^ b) 0 < 256 ∧
    MapsProtoCalculateLRC data =
      [0x30 + data.foldl (fun x b => x ^^^ b) 0 / 16, 0x30 + data.foldl (fun x b => x ^^^ b) 0 % 16] ∧
    ∀ c ∈ MapsProtoCalculateLRC data, 0x30 ≤ c ∧ c ≤ 0x3F := by
  obtain ⟨he, hlt⟩ := foldl_xor_lt data 0 (by omega) h
  have hl := LRC_eq data
  rw [he] at hl
  generalize data.foldl (fun x b => x ^^^ b) 0 = x at hl hlt
  refine ⟨hlt, ?_, ?_⟩
  · rw [hl, Nat.mod_eq_of_lt (show x / 16 < 16 by omega)]
  · intro c hc
    rw [hl] at hc
    simp only [List.mem_cons, List.mem_singleton, List.not_mem_nil, or_false] at hc
    rcases hc with rfl | rfl <;> omega

theorem MapsProtoCalculateLRC_nibbles_witness :
    (∀ b ∈ [0x30, 0x42, 0x52, 0x33], b < 256) ∧
    ([0x30, 0x42, 0x52, 0x33].foldl (fun x b => x ^^^ b) 0 < 256 ∧
      MapsProtoCalculateLRC [0x30, 0x42, 0x52, 0x33] =
        [0x30 + [0x30, 0x42, 0x52, 0x33].foldl (fun x b => x ^^^ b) 0 / 16,
         0x30 + [0x30, 0x42, 0x52, 0x33].foldl (fun x b => x ^^^ b) 0 % 16] ∧
      ∀ c ∈ MapsProtoCalculateLRC [0x30, 0x42, 0x52, 0x33], 0x30 ≤ c ∧ c ≤ 0x3F) :=
  ⟨by decide, MapsProtoCalculateLRC_nibbles [0x30, 0x42, 0x52, 0x33] (by decide)⟩

/-! ## C3: empty requests -/

@[simp] theorem src_bytes_zero (src : List Nat) : src_bytes src 0 = [] := rfl

theorem src_bytes_take (src : List Nat) (n : Nat) (h : n ≤ src.length) :
    src_bytes src n = src.take n := by
  apply List.ext_getElem?
  intro i
  by_cases hi : i < n
  · have hi' : i < src.length := by omega
    simp [src_bytes, List.getElem?_take, hi, List.getElem?_map, List.getElem?_range hi,
      List.getD_eq_getElem?_getD, List.getElem?_eq_getElem hi']
  · rw [List.getElem?_eq_none (by simp [src_bytes]; omega),
      List.getElem?_eq_none (by simp; omega)]

theorem empty_request_build (num : Nat) (cmd : List Nat) (ci : tMAPS_PROTO_CMD_INFO)
    (hn : num ≤ 9) (hfind : MapsProtoFindCmd (some cmd) = some ci) (hs : ci.suppdata &&& 2 ≠ 0) :
    MapsProtoCreateEmptyRequest num (some cmd)
      = .ok ⟨7, envelope num [cmd.getD 0 0, cmd.getD 1 0]⟩ := by
  have hn' : ¬ (num > 9) := by omega
  unfold MapsProtoCreateEmptyRequest
  rw [CreateFrame_eq _ _ _ _ _ (by decide)]
  simp [hn', hfind, cinfo_suppdata, dir_tag, src_bytes_two, K_MAPS_PROTO_REQ_TYPE, hs]

/-- C3: for `num <= 9` and every command of the descriptor table whose
supported-data mask has the empty-request bit, the frame built by
`MapsProtoCreateEmptyRequest` parses to that `num`, type Request, the same
command and no payload (`data` NULL, `size` 0). -/
theorem empty_request_roundtrip (num : Nat) (c : tMAPS_PROTO_CMD_INFO) (hn : num ≤ 9)
    (hc : c ∈ cmd_data) (hs : c.suppdata &&& 2 ≠ 0) :
    ∃ f, MapsProtoCreateEmptyRequest num (some c.cmd) = .ok f ∧
      MapsProtoParseFrame (some f.data) f.size
        = .ok { num := num, type := 0, cmd := c.cmd ++ [0, 0], size := 0, data := none } := by
  simp only [cmd_data, List.mem_cons, List.mem_singleton, List.not_mem_nil, or_false] at hc
  rcases hc with rfl | rfl | rfl | rfl | rfl | rfl | rfl | rfl | rfl | rfl | rfl | rfl | rfl | rfl |
    rfl | rfl | rfl | rfl | rfl | rfl | rfl | rfl | rfl | rfl | rfl | rfl | rfl | rfl | rfl | rfl |
    rfl | rfl | rfl
  all_goals first
    | (exfalso; revert hs; decide)
    | (refine ⟨_, empty_request_build num _ _ hn rfl hs, ?_⟩
       simp only [List.getD_cons_zero, List.getD_cons_succ]
       rw [parse_envelope num _ _ [] 7 hn rfl (by decide) (by decide)]
       simp [cstr, MapsProtoFindCmd, cmd_data, MapsProtoPrepareNoData, MapsProtoPrepareIARMData,
         MapsProtoPrepareREData])

theorem empty_request_roundtrip_witness :
    ((2 : Nat) ≤ 9 ∧
      (⟨0b111, 0b110, [68, 69], MapsProtoPrepareNoData, MapsProtoPrepareDEData⟩ :
        tMAPS_PROTO_CMD_INFO) ∈ cmd_data ∧
      (⟨0b111, 0b110, [68, 69], MapsProtoPrepareNoData, MapsProtoPrepareDEData⟩ :
        tMAPS_PROTO_CMD_INFO).suppdata &&& 2 ≠ 0) ∧
    ∃ f, MapsProtoCreateEmptyRequest 2 (some [68, 69]) = .ok f ∧
      MapsProtoParseFrame (some f.data) f.size
        = .ok { num := 2, type := 0, cmd := [68, 69] ++ [0, 0], size := 0, data := none } :=
  ⟨⟨by decide, by simp [cmd_data], by decide⟩,
    empty_request_roundtrip 2 ⟨0b111, 0b110, [68, 69], MapsProtoPrepareNoData, MapsProtoPrepareDEData⟩
      (by decide) (by simp [cmd_data]) (by decide)⟩

/-! ## C4: empty responses -/

theorem empty_response_build (num : Nat) (cmd : List Nat) (ci : tMAPS_PROTO_CMD_INFO)
    (hn : num ≤ 9) (hfind : MapsProtoFindCmd (some cmd) = some ci) (hs : ci.suppdata &&& 1 ≠ 0) :
    MapsProtoCreateEmptyResponse num (some cmd)
      = .ok ⟨9, envelope num [82, 83, cmd.getD 0 0, cmd.getD 1 0]⟩ := by
  have hn' : ¬ (num > 9) := by omega
  have hs' : ci.suppdata % 2 = 1 := by
    have := Nat.and_one_is_mod ci.suppdata
    omega
  unfold MapsProtoCreateEmptyResponse
  rw [CreateFrame_eq _ _ _ _ _ (by decide)]
  simp [hn', hfind, cinfo_suppdata, dir_tag, src_bytes_two, K_MAPS_PROTO_RES_TYPE, hs']

/-- C4 fails for SR: `MapsProtoCreateEmptyResponse(0,"SR")` succeeds (the
descriptor of SR has the empty-response bit, the header lists RSSR) and returns
`01 30 52 53 53 52 33 30 0D`, which `MapsProtoParseFrame` rejects with ENOEXEC:
the response decoder of SR, `MapsProtoPrepareDualData`, wants 11 bytes. -/
theorem empty_response_SR_rejected :
    MapsProtoCreateEmptyResponse 0 (some [83, 82])
      = .ok ⟨9, [0x01, 0x30, 0x52, 0x53, 0x53, 0x52, 0x33, 0x30, 0x0D]⟩ ∧
    MapsProtoParseFrame (some [0x01, 0x30, 0x52, 0x53, 0x53, 0x52, 0x33, 0x30, 0x0D]) 9
      = .error .ENOEXEC := by
  decide

/-- For every other command that `MapsProtoCreateEmptyResponse` accepts the
built frame parses to a Response with the same `num` and no payload; the
command read back is the first two bytes of the mnemonic. -/
theorem empty_response_roundtrip_except_SR (num : Nat) (c : tMAPS_PROTO_CMD_INFO) (hn : num ≤ 9)
    (hc : c ∈ cmd_data) (hs : c.suppdata &&& 1 ≠ 0) (hsr : c.cmd ≠ [83, 82]) :
    ∃ f, MapsProtoCreateEmptyResponse num (some c.cmd) = .ok f ∧
      MapsProtoParseFrame (some f.data) f.size
        = .ok { num := num, type := 1, cmd := c.cmd.take 2 ++ [0, 0], size := 0, data := none } := by
  simp only [cmd_data, List.mem_cons, List.mem_singleton, List.not_mem_nil, or_false] at hc
  rcases hc with rfl | rfl | rfl | rfl | rfl | rfl | rfl | rfl | rfl | rfl | rfl | rfl | rfl | rfl |
    rfl | rfl | rfl | rfl | rfl | rfl | rfl | rfl | rfl | rfl | rfl | rfl | rfl | rfl | rfl | rfl |
    rfl | rfl | rfl
  all_goals first
    | (exfalso; revert hs; decide)
    | (exfalso; revert hsr; decide)
    | (refine ⟨_, empty_response_build num _ _ hn rfl hs, ?_⟩
       simp only [List.getD_cons_zero, List.getD_cons_succ]
       rw [parse_envelope num _ _ _ 9 hn (by rfl) (by decide) (by decide)]
       simp [cstr, MapsProtoFindCmd, cmd_data, MapsProtoPrepareNoData, rdN, envelope])

/-! ## C5: unknown / not executed responses -/

/-- C5: for `num <= 9` and every two-byte command tag `a b`, in the descriptor
table or not, `MapsProtoCreateUnknownResponse` returns a 9-byte frame with
`N`, `E` at bytes 2..3, and parsing it returns that `num`, type Unknown (2),
the tag `a b` and no payload. -/
theorem unknown_response_roundtrip (num a b : Nat) (hn : num ≤ 9) :
    ∃ f, MapsProtoCreateUnknownResponse num (some [a, b]) = .ok f ∧
      f.size = 9 ∧ f.data.length = 9 ∧ f.data[2]? = some 78 ∧ f.data[3]? = some 69 ∧
      MapsProtoParseFrame (some f.data) f.size
        = .ok { num := num, type := 2, cmd := [a, b, 0, 0], size := 0, data := none } := by
  have hn' : ¬ (num > 9) := by omega
  have hb : MapsProtoCreateUnknownResponse num (some [a, b])
      = .ok ⟨9, envelope num [78, 69, a, b]⟩ := by
    unfold MapsProtoCreateUnknownResponse
    rw [CreateFrame_eq _ _ _ _ _ (by decide)]
    simp [hn', dir_tag, src_bytes_two, K_MAPS_PROTO_UNK_TYPE]
  refine ⟨_, hb, rfl, ?_, ?_, ?_, ?_⟩
  · simp [length_envelope]
  · simp [envelope]
  · simp [envelope]
  · rw [parse_envelope num 78 69 [a, b] 9 hn rfl (by decide) (by decide)]
    simp [rdN, envelope]

theorem unknown_response_roundtrip_witness :
    (0 : Nat) ≤ 9 ∧
    ∃ f, MapsProtoCreateUnknownResponse 0 (some [88, 88]) = .ok f ∧
      f.size = 9 ∧ f.data.length = 9 ∧ f.data[2]? = some 78 ∧ f.data[3]? = some 69 ∧
      MapsProtoParseFrame (some f.data) f.size
        = .ok { num := 0, type := 2, cmd := [88, 88, 0, 0], size := 0, data := none } :=
  ⟨by decide, unknown_response_roundtrip 0 88 88 (by decide)⟩

/-! ## C6: when the empty builders fail -/

theorem FindCmd_none_iff (cmd : Option (List Nat)) :
    MapsProtoFindCmd cmd = none ↔ ∀ c ∈ cmd_data, some c.cmd ≠ cmd := by
  cases cmd with
  | none => simp [MapsProtoFindCmd]
  | some s =>
    simp only [MapsProtoFindCmd, List.find?_eq_none, beq_iff_eq, ne_eq, Option.some.injEq]

theorem FindCmd_some (cmd : Option (List Nat)) (ci : tMAPS_PROTO_CMD_INFO)
    (h : MapsProtoFindCmd cmd = some ci) : ci ∈ cmd_data ∧ some ci.cmd = cmd := by
  cases cmd with
  | none => simp [MapsProtoFindCmd] at h
  | some s =>
    simp only [MapsProtoFindCmd] at h
    refine ⟨List.mem_of_find?_eq_some h, ?_⟩
    have := List.find?_some h
    simpa using this

theorem FindCmd_mem (c : tMAPS_PROTO_CMD_INFO) (hc : c ∈ cmd_data) :
    ∃ ci, MapsProtoFindCmd (some c.cmd) = some ci ∧ ci.suppdata = c.suppdata := by
  simp only [cmd_data, List.mem_cons, List.mem_singleton, List.not_mem_nil, or_false] at hc
  rcases hc with rfl | rfl | rfl | rfl | rfl | rfl | rfl | rfl | rfl | rfl | rfl | rfl | rfl | rfl |
    rfl | rfl | rfl | rfl | rfl | rfl | rfl | rfl | rfl | rfl | rfl | rfl | rfl | rfl | rfl | rfl |
    rfl | rfl | rfl
  all_goals exact ⟨_, rfl, rfl⟩

theorem empty_frame_EINVAL_iff (type num bit : Nat) (cmd : Option (List Nat))
    (ht : type = 0 ∧ bit = 2 ∨ type = 1 ∧ bit = 1) :
    (MapsProtoCreateFrame type num cmd none 0 = .error .EINVAL ↔
      (num > 9 ∨ (∀ c ∈ cmd_data, some c.cmd ≠ cmd) ∨
        ∃ c ∈ cmd_data, some c.cmd = cmd ∧ c.suppdata &&& bit = 0)) ∧
    (∀ e, MapsProtoCreateFrame type num cmd none 0 = .error e → e = .EINVAL) := by
  have hsz : (if type = 0 then 7 else 9) + 0 < 65536 := by split_ifs <;> omega
  rw [CreateFrame_eq type num cmd none 0 hsz]
  cases hfind : MapsProtoFindCmd cmd with
  | none =>
    have hall := (FindCmd_none_iff cmd).1 hfind
    have ht2 : type ≠ 2 := by omega
    rw [if_pos (Or.inr (Or.inr (Or.inr (Or.inl ⟨by simp, ht2⟩))))]
    exact ⟨⟨fun _ => Or.inr (Or.inl hall), fun _ => rfl⟩, fun e he => (Except.error.inj he).symm⟩
  | some ci =>
    obtain ⟨hmem, hcmd⟩ := FindCmd_some cmd ci hfind
    have hne : cmd ≠ none := by rw [← hcmd]; simp
    have hex : ¬ ∀ c ∈ cmd_data, some c.cmd ≠ cmd := fun h => h ci hmem hcmd
    have huniq : (∃ c ∈ cmd_data, some c.cmd = cmd ∧ c.suppdata &&& bit = 0) ↔
        ci.suppdata &&& bit = 0 := by
      constructor
      · rintro ⟨c, hc, hcc, hb⟩
        obtain ⟨ci', hf', hs'⟩ := FindCmd_mem c hc
        rw [hcc, hfind] at hf'
        cases hf'
        rw [hs']; exact hb
      · intro hb
        exact ⟨ci, hmem, hcmd, hb⟩
    rw [huniq]
    rcases ht with ⟨rfl, rfl⟩ | ⟨rfl, rfl⟩
    · by_cases hn : num > 9 <;> by_cases hb : ci.suppdata &&& 2 = 0 <;>
        simp [hn, hb, hne, hex, cinfo_suppdata]
    · simp only [Nat.and_one_is_mod]
      by_cases hn : num > 9 <;> by_cases hb : ci.suppdata % 2 = 0 <;>
        simp [hn, hb, hne, hex, cinfo_suppdata]

/-- C6: `MapsProtoCreateEmptyRequest(num, cmd)` fails with EINVAL exactly when
`num > 9`, or `cmd` is not a mnemonic of the descriptor table (NULL included),
or the descriptor of `cmd` has the empty-request bit (2) clear;
`MapsProtoCreateEmptyResponse` likewise with the empty-response bit (1); and
each of them either fails with EINVAL or returns a frame (allocation aside). -/
theorem empty_builders_EINVAL_iff (num : Nat) (cmd : Option (List Nat)) :
    (MapsProtoCreateEmptyRequest num cmd = .error .EINVAL ↔
      (num > 9 ∨ (∀ c ∈ cmd_data, some c.cmd ≠ cmd) ∨
        ∃ c ∈ cmd_data, some c.cmd = cmd ∧ c.suppdata &&& 2 = 0)) ∧
    (MapsProtoCreateEmptyResponse num cmd = .error .EINVAL ↔
      (num > 9 ∨ (∀ c ∈ cmd_data, some c.cmd ≠ cmd) ∨
        ∃ c ∈ cmd_data, some c.cmd = cmd ∧ c.suppdata &&& 1 = 0)) ∧
    (MapsProtoCreateEmptyRequest num cmd = .error .EINVAL ∨
      ∃ f, MapsProtoCreateEmptyRequest num cmd = .ok f) ∧
    (MapsProtoCreateEmptyResponse num cmd = .error .EINVAL ∨
      ∃ f, MapsProtoCreateEmptyResponse num cmd = .ok f) := by
  have hq := empty_frame_EINVAL_iff 0 num 2 cmd (Or.inl ⟨rfl, rfl⟩)
  have hs := empty_frame_EINVAL_iff 1 num 1 cmd (Or.inr ⟨rfl, rfl⟩)
  refine ⟨hq.1, hs.1, ?_, ?_⟩
  · unfold MapsProtoCreateEmptyRequest
    cases h : MapsProtoCreateFrame K_MAPS_PROTO_REQ_TYPE num cmd none 0 with
    | error e => rw [hq.2 e h]; exact Or.inl rfl
    | ok f => exact Or.inr ⟨f, rfl⟩
  · unfold MapsProtoCreateEmptyResponse
    cases h : MapsProtoCreateFrame K_MAPS_PROTO_RES_TYPE num cmd none 0 with
    | error e => rw [hs.2 e h]; exact Or.inl rfl
    | ok f => exact Or.inr ⟨f, rfl⟩

/-! ## C7: BR request -/

theorem u8_natCast (n : Nat) (h : n < 256) : u8 (n : Int) = n := by
  unfold u8
  omega

/-- C7 fails for `baud_rate = 0`: `MapsProtoCreateBRRequest(0,0)` puts `'0'`
(not `'1'`) in the payload, returning `01 30 42 52 30 31 30 0D`, and
`MapsProtoParseFrame` rejects that frame with ENOEXEC. -/
theorem BR_request_baud_zero :
    MapsProtoCreateBRRequest 0 0 = .ok ⟨8, [0x01, 0x30, 0x42, 0x52, 0x30, 0x31, 0x30, 0x0D]⟩ ∧
    MapsProtoParseFrame (some [0x01, 0x30, 0x42, 0x52, 0x30, 0x31, 0x30, 0x0D]) 8
      = .error .ENOEXEC := by
  decide

/-- For `num <= 9` and `baud_rate >= 1` the BR request is 8 bytes, its payload
byte is the digit of `baud_rate` for 1..5 and `'1'` above 5, and it parses to
Request, BR, with that value as its one-byte payload; BR(0,3) is
`01 30 42 52 33 31 33 0D`. -/
theorem BR_request_roundtrip (num baud_rate : Nat) (hn : num ≤ 9) (hb : 1 ≤ baud_rate) :
    (∃ f, MapsProtoCreateBRRequest num baud_rate = .ok f ∧ f.size = 8 ∧
      f.data[4]? = some (if baud_rate > 5 then 49 else baud_rate + 48) ∧
      MapsProtoParseFrame (some f.data) f.size
        = .ok { num := num, type := 0, cmd := [66, 82, 0, 0], size := 1,
                data := some (Payload.byte (if baud_rate > 5 then 1 else baud_rate)) }) ∧
    MapsProtoCreateBRRequest 0 3 = .ok ⟨8, [0x01, 0x30, 0x42, 0x52, 0x33, 0x31, 0x33, 0x0D]⟩ := by
  refine ⟨?_, by decide⟩
  have hn' : ¬ (num > 9) := by omega
  have hfind : MapsProtoFindCmd (some [66, 82])
      = some ⟨0b101, 0b101, [66, 82], MapsProtoPrepareSingelData, MapsProtoPrepareNoData⟩ := rfl
  have hbuild : MapsProtoCreateBRRequest num baud_rate
      = .ok ⟨8, envelope num [66, 82, if baud_rate > 5 then 49 else baud_rate + 48]⟩ := by
    unfold MapsProtoCreateBRRequest
    rw [CreateFrame_eq _ _ _ _ _ (by decide)]
    by_cases h5 : baud_rate > 5
    · simp [hn', hfind, dir_tag, src_bytes_take, K_MAPS_PROTO_REQ_TYPE, h5]
    · have : (baud_rate + 48) % 256 = baud_rate + 48 := by omega
      simp [hn', hfind, dir_tag, src_bytes_take, K_MAPS_PROTO_REQ_TYPE, h5, this]
  refine ⟨_, hbuild, rfl, by simp [envelope], ?_⟩
  rw [parse_envelope num 66 82 [_] 8 hn rfl (by decide) (by decide)]
  by_cases h5 : baud_rate > 5
  · simp [cstr, hfind, MapsProtoPrepareSingelData, rd, envelope, h5, u8]
  · have h1 : ¬ (baud_rate + 48 < 49) := by omega
    have h2 : ¬ (baud_rate + 48 > 53) := by omega
    have h3 : u8 (baud_rate : Int) = baud_rate := u8_natCast _ (by omega)
    simp [cstr, hfind, MapsProtoPrepareSingelData, rd, envelope, h5, h1, h2, h3]

/-! ## C8: SC request -/

theorem sprintf_u2 (v : Nat) (h : v ≤ 99) : sprintf_u 2 v = [v / 10 + 48, v % 10 + 48] := by
  unfold sprintf_u
  by_cases h1 : v < 10
  · have e : v / 10 = 0 := by omega
    have e2 : v % 10 = v := by omega
    simp [udigits, h1, e, e2]
  · have h2 : v / 10 < 10 := by omega
    simp [udigits, h1, h2]

theorem sprintf_u3 (v : Nat) (h : v ≤ 999) :
    sprintf_u 3 v = [v / 100 + 48, v / 10 % 10 + 48, v % 10 + 48] := by
  unfold sprintf_u
  by_cases h1 : v < 10
  · have e : v / 100 = 0 := by omega
    have e1 : v / 10 % 10 = 0 := by omega
    have e2 : v % 10 = v := by omega
    simp [udigits, h1, e, e1, e2]
  · by_cases h2 : v / 10 < 10
    · have e : v / 100 = 0 := by omega
      have e1 : v / 10 % 10 = v / 10 := by omega
      simp [udigits, h1, h2, e, e1]
    · have h3 : v / 100 < 10 := by omega
      have e : v / 10 / 10 = v / 100 := by omega
      simp [udigits, h1, h2, h3, e]

theorem isdigit_digit (a : Nat) (h : a ≤ 9) : isdigit (a + 48) = true := by
  simp [isdigit]; omega

theorem atoi_three (a b c : Nat) (ha : a ≤ 9) (hb : b ≤ 9) (hc : c ≤ 9) :
    atoi [a + 48, b + 48, c + 48, 0] = a * 100 + b * 10 + c := by
  simp [atoi, cstr, List.takeWhile, isdigit_digit, ha, hb, hc]
  omega

/-- C8: for `num <= 9`, a mode among A, B, C, D, E, H, I and any `msec_time`,
the frame built by `MapsProtoCreateSCRequest` parses to Request, SC, with
payload mode `mode` and send_time `min(msec_time, 999)`; for every other mode
the builder fails with EINVAL. -/
theorem SC_request_roundtrip (num mode msec_time : Nat) (hn : num ≤ 9) :
    (mode ∈ [65, 66, 67, 68, 69, 72, 73] →
      ∃ f, MapsProtoCreateSCRequest num mode msec_time = .ok f ∧
        MapsProtoParseFrame (some f.data) f.size
          = .ok { num := num, type := 0, cmd := [83, 67, 0, 0], size := 4,
                  data := some (Payload.SC ⟨mode, min msec_time 999⟩) }) ∧
    (mode ∉ [65, 66, 67, 68, 69, 72, 73] →
      MapsProtoCreateSCRequest num mode msec_time = .error .EINVAL) := by
  have hn' : ¬ (num > 9) := by omega
  have hfind : MapsProtoFindCmd (some [83, 67])
      = some ⟨0b101, 0b101, [83, 67], MapsProtoPrepareSCData, MapsProtoPrepareNoData⟩ := rfl
  constructor
  · intro hm
    have hmode : ¬ (mode ≠ 65 ∧ mode ≠ 66 ∧ mode ≠ 67 ∧ mode ≠ 68 ∧ mode ≠ 69 ∧ mode ≠ 72 ∧
        mode ≠ 73) := by
      simp only [List.mem_cons, List.mem_singleton, List.not_mem_nil, or_false] at hm
      omega
    generalize ht : (if msec_time > 999 then 999 else msec_time) = t
    have ht999 : t ≤ 999 := by rw [← ht]; split_ifs <;> omega
    have htmin : min msec_time 999 = t := by rw [← ht]; split_ifs <;> omega
    have ha : t / 100 ≤ 9 := by omega
    have hb : t / 10 % 10 ≤ 9 := by omega
    have hc : t % 10 ≤ 9 := by omega
    have hval : t / 100 * 100 + t / 10 % 10 * 10 + t % 10 = t := by omega
    have hs3 := sprintf_u3 t ht999
    generalize t / 100 = a at ha hval hs3
    generalize t / 10 % 10 = b at hb hval hs3
    generalize t % 10 = c at hc hval hs3
    have hbuild : MapsProtoCreateSCRequest num mode msec_time
        = .ok ⟨11, envelope num [83, 67, mode, a + 48, b + 48, c + 48]⟩ := by
      unfold MapsProtoCreateSCRequest
      rw [if_neg hmode]
      simp only [ht, hs3]
      rw [CreateFrame_eq _ _ _ _ _ (by decide)]
      simp [hn', hfind, dir_tag, src_bytes_take, K_MAPS_PROTO_REQ_TYPE]
    refine ⟨_, hbuild, ?_⟩
    rw [parse_envelope num 83 67 [_, _, _, _] 11 hn rfl (by decide) (by decide)]
    simp [cstr, hfind, MapsProtoPrepareSCData, rd, rdN, envelope, hmode, isdigit_digit, ha, hb, hc,
      memcpy, atoi_three, htmin]
    omega
  · intro hm
    have hmode : mode ≠ 65 ∧ mode ≠ 66 ∧ mode ≠ 67 ∧ mode ≠ 68 ∧ mode ≠ 69 ∧ mode ≠ 72 ∧
        mode ≠ 73 := by
      simp only [List.mem_cons, List.mem_singleton, List.not_mem_nil, or_false] at hm
      omega
    unfold MapsProtoCreateSCRequest
    rw [if_pos hmode]

theorem SC_request_roundtrip_witness :
    ((1 : Nat) ≤ 9 ∧ (72 : Nat) ∈ [65, 66, 67, 68, 69, 72, 73] ∧
      ∃ f, MapsProtoCreateSCRequest 1 72 2000 = .ok f ∧
        MapsProtoParseFrame (some f.data) f.size
          = .ok { num := 1, type := 0, cmd := [83, 67, 0, 0], size := 4,
                  data := some (Payload.SC ⟨72, min 2000 999⟩) }) ∧
    ((0 : Nat) ∉ [65, 66, 67, 68, 69, 72, 73] ∧
      MapsProtoCreateSCRequest 1 0 2000 = .error .EINVAL) :=
  ⟨⟨by decide, by decide, (SC_request_roundtrip 1 72 2000 (by decide)).1 (by decide)⟩,
    ⟨by decide, (SC_request_roundtrip 1 0 2000 (by decide)).2 (by decide)⟩⟩

/-! ## C9: SM request -/

theorem hex_byte_roundtrip (v : Nat) : (v ≤ 15 →
    isxdigit (if v < 10 then v + 48 else v + 55) = true) ∧
    (v ≤ 15 → (if (if v < 10 then v + 48 else v + 55) < 58
      then u8 (((if v < 10 then v + 48 else v + 55 : Nat) : Int) - 48)
      else u8 (((if v < 10 then v + 48 else v + 55 : Nat) : Int) - 55)) = v) := by
  constructor <;> intro h <;> interval_cases v <;> decide

/-- What a frame returned by `MapsProtoCreateSMRequest` looks like: `num <= 9`,
`elements` is 3, 4 or 5, the size is `7 + elements` and the frame parses to the
SM record built from the input. That the builder does return a frame is shown
separately. -/
theorem SM_request_parse_of_ok (num elements : Nat) (d : tMAPS_PROTO_SM_DATA)
    (f : tMAPS_PROTO_RAW_FRAME)
    (h : MapsProtoCreateSMRequest num elements (some d) = .ok f) :
    num ≤ 9 ∧ (elements = 3 ∨ elements = 4 ∨ elements = 5) ∧ f.size = 7 + elements ∧
    MapsProtoParseFrame (some f.data) f.size
      = .ok { num := num, type := 0, cmd := [83, 77, 0, 0], size := 5,
              data := some (Payload.SM
                { work_mode := d.work_mode
                  axis_ispeed := d.axis_ispeed
                  axis_height := d.axis_height
                  tow_detection := if elements ≥ 4
                    then (if d.tow_detection = 0 then 48 else d.tow_detection) else 48
                  rcvr_direction := if elements = 5 then d.rcvr_direction else 48 }) } := by
  have hfind : MapsProtoFindCmd (some [83, 77])
      = some ⟨0b111, 0b101, [83, 77], MapsProtoPrepareSMData, MapsProtoPrepareNoData⟩ := rfl
  obtain ⟨hx1, hx2⟩ := hex_byte_roundtrip d.axis_ispeed
  unfold MapsProtoCreateSMRequest at h
  simp only [] at h
  generalize (if d.axis_ispeed < 10 then d.axis_ispeed + 48 else d.axis_ispeed + 55) = x5
    at h hx1 hx2
  generalize (if d.tow_detection = 0 then 48 else d.tow_detection) = td at h ⊢
  generalize d.work_mode = wm at h ⊢
  generalize d.axis_height = ah at h ⊢
  generalize d.axis_ispeed = sp at h hx1 hx2 ⊢
  generalize d.rcvr_direction = rcv at h ⊢
  split_ifs at h with h1 h2 h3 h4 h5 h6
  have he : elements = 3 ∨ elements = 4 ∨ elements = 5 := by omega
  rw [CreateFrame_eq _ _ _ _ _ (by split_ifs <;> omega)] at h
  have hn : num ≤ 9 := by
    by_contra hcon
    have : num > 9 := by omega
    simp [this] at h
  have hn' : ¬ (num > 9) := by omega
  have hx1 := hx1 (by omega)
  have hx2 := hx2 (by omega)
  simp only [u8] at hx2
  have htd : bad_tow td = false := by simpa using h5
  have hwm : wm ≤ 3 := by omega
  have hah : ah ≤ 2 := by omega
  refine ⟨hn, he, ?_⟩
  rcases he with rfl | rfl | rfl
  · simp [hn', hfind, dir_tag, src_bytes_take, K_MAPS_PROTO_REQ_TYPE, cinfo_suppdata] at h
    subst h
    refine ⟨rfl, ?_⟩
    simp only []
    rw [parse_envelope num 83 77 [_, _, _] 10 hn rfl (by decide) (by decide)]
    interval_cases wm <;> interval_cases ah <;>
      simp [cstr, hfind, MapsProtoPrepareSMData, rd, envelope, hx1, u8] <;> exact hx2
  · simp [hn', hfind, dir_tag, src_bytes_take, K_MAPS_PROTO_REQ_TYPE, cinfo_suppdata] at h
    subst h
    refine ⟨rfl, ?_⟩
    simp only []
    rw [parse_envelope num 83 77 [_, _, _, _] 11 hn rfl (by decide) (by decide)]
    interval_cases wm <;> interval_cases ah <;>
      simp [cstr, hfind, MapsProtoPrepareSMData, rd, envelope, hx1, u8, htd] <;> exact hx2
  · simp [hn', hfind, dir_tag, src_bytes_take, K_MAPS_PROTO_REQ_TYPE, cinfo_suppdata] at h
    subst h
    refine ⟨rfl, ?_⟩
    simp only []
    have h6' : ¬ (rcv ≠ 80 ∧ rcv ≠ 78) := by simpa using h6
    rw [parse_envelope num 83 77 [_, _, _, _, _] 12 hn rfl (by decide) (by decide)]
    interval_cases wm <;> interval_cases ah <;>
      simp [cstr, hfind, MapsProtoPrepareSMData, rd, envelope, hx1, u8, htd, h6'] <;> exact hx2

/-- C9: for every `num <= 9`, `elements` in 3, 4, 5 and SM record with
work_mode at most 3, axis_ispeed at most 15, axis_height at most 2,
tow_detection one of 0, `0`, `R`, `M`, `N`, `E`, `T` and, when `elements = 5`,
rcvr_direction `P` or `N`, `MapsProtoCreateSMRequest` returns a frame; the
frame has size `7 + elements` and parses to Request, SM, with work_mode,
axis_ispeed and axis_height of the input, tow_detection of the input (0 read
back as `'0'`) when `elements >= 4` and `'0'` otherwise, rcvr_direction of the
input when `elements = 5` and `'0'` otherwise. These conditions are exactly
those under which the builder returns a frame. -/
theorem SM_request_roundtrip (num elements : Nat) (d : tMAPS_PROTO_SM_DATA) :
    (num ≤ 9 → (elements = 3 ∨ elements = 4 ∨ elements = 5) →
      d.work_mode ≤ 3 → d.axis_ispeed ≤ 15 → d.axis_height ≤ 2 →
      d.tow_detection ∈ [0, 48, 82, 77, 78, 69, 84] →
      (elements = 5 → d.rcvr_direction = 80 ∨ d.rcvr_direction = 78) →
      ∃ f, MapsProtoCreateSMRequest num elements (some d) = .ok f ∧
        f.size = 7 + elements ∧
        MapsProtoParseFrame (some f.data) f.size
          = .ok { num := num, type := 0, cmd := [83, 77, 0, 0], size := 5,
                  data := some (Payload.SM
                    { work_mode := d.work_mode
                      axis_ispeed := d.axis_ispeed
                      axis_height := d.axis_height
                      tow_detection := if elements ≥ 4
                        then (if d.tow_detection = 0 then 48 else d.tow_detection) else 48
                      rcvr_direction := if elements = 5 then d.rcvr_direction else 48 }) }) ∧
    (∀ f, MapsProtoCreateSMRequest num elements (some d) = .ok f →
      num ≤ 9 ∧ (elements = 3 ∨ elements = 4 ∨ elements = 5) ∧
      d.work_mode ≤ 3 ∧ d.axis_ispeed ≤ 15 ∧ d.axis_height ≤ 2 ∧
      d.tow_detection ∈ [0, 48, 82, 77, 78, 69, 84] ∧
      (elements = 5 → d.rcvr_direction = 80 ∨ d.rcvr_direction = 78)) := by
  have hfind : MapsProtoFindCmd (some [83, 77])
      = some ⟨0b111, 0b101, [83, 77], MapsProtoPrepareSMData, MapsProtoPrepareNoData⟩ := rfl
  constructor
  · intro hn he hwm hsp hah htd hrc
    have hex : ∃ f, MapsProtoCreateSMRequest num elements (some d) = .ok f := by
      have h1 : ¬ (elements < 3 ∨ elements > 5) := by omega
      have h2 : ¬ (d.work_mode > 3) := by omega
      have h3 : ¬ (d.axis_ispeed > 15) := by omega
      have h4 : ¬ (d.axis_height > 2) := by omega
      have h5 : bad_tow (if d.tow_detection = 0 then 48 else d.tow_detection) = false := by
        simp only [List.mem_cons, List.mem_singleton, List.not_mem_nil, or_false] at htd
        rcases htd with h | h | h | h | h | h | h <;> rw [h] <;> decide
      have h6 : ¬ (elements = 5 ∧ d.rcvr_direction ≠ 80 ∧ d.rcvr_direction ≠ 78) := by
        rintro ⟨e, a, b⟩
        rcases hrc e with h | h
        · exact a h
        · exact b h
      have h7 : ¬ (num > 9) := by omega
      have h8 : ¬ (elements = 0) := by omega
      unfold MapsProtoCreateSMRequest
      simp only [if_neg h1, if_neg h2, if_neg h3, if_neg h4, h5, Bool.false_eq_true, if_false,
        if_neg h6]
      rw [CreateFrame_eq _ _ _ _ _ (by split_ifs <;> omega)]
      simp [h7, h8, hfind, K_MAPS_PROTO_REQ_TYPE]
    obtain ⟨f, hf⟩ := hex
    have hp := SM_request_parse_of_ok num elements d f hf
    exact ⟨f, hf, hp.2.2.1, hp.2.2.2⟩
  · intro f h
    have hp := SM_request_parse_of_ok num elements d f h
    refine ⟨hp.1, hp.2.1, ?_⟩
    have h1 : ¬ (elements < 3 ∨ elements > 5) := by
      have := hp.2.1
      omega
    unfold MapsProtoCreateSMRequest at h
    simp only [] at h
    rw [if_neg h1] at h
    by_cases h2 : d.work_mode > 3
    · rw [if_pos h2] at h
      cases h
    rw [if_neg h2] at h
    by_cases h3 : d.axis_ispeed > 15
    · rw [if_pos h3] at h
      cases h
    rw [if_neg h3] at h
    by_cases h4 : d.axis_height > 2
    · rw [if_pos h4] at h
      cases h
    rw [if_neg h4] at h
    by_cases h5 : bad_tow (if d.tow_detection = 0 then 48 else d.tow_detection) = true
    · rw [if_pos h5] at h
      cases h
    rw [if_neg h5] at h
    by_cases h6 : elements = 5 ∧ d.rcvr_direction ≠ 80 ∧ d.rcvr_direction ≠ 78
    · rw [if_pos h6] at h
      cases h
    refine ⟨by omega, by omega, by omega, ?_, ?_⟩
    · by_cases h0 : d.tow_detection = 0
      · simp [h0]
      · rw [if_neg h0] at h5
        simp only [bad_tow, decide_eq_true_eq, not_and, not_not] at h5
        simp only [List.mem_cons, List.mem_singleton, List.not_mem_nil, or_false]
        by_contra hc
        simp only [not_or] at hc
        obtain ⟨-, c1, c2, c3, c4, c5, c6⟩ := hc
        exact c6 (h5 c1 c2 c3 c4 c5)
    · intro e
      by_contra hc
      exact h6 ⟨e, fun a => hc (Or.inl a), fun b => hc (Or.inr b)⟩

theorem SM_request_roundtrip_witness :
    ((2 : Nat) ≤ 9 ∧ ((5 : Nat) = 3 ∨ (5 : Nat) = 4 ∨ (5 : Nat) = 5) ∧ (3 : Nat) ≤ 3 ∧
      (8 : Nat) ≤ 15 ∧ (2 : Nat) ≤ 2 ∧ (84 : Nat) ∈ [0, 48, 82, 77, 78, 69, 84] ∧
      ((5 : Nat) = 5 → (78 : Nat) = 80 ∨ (78 : Nat) = 78) ∧
      ∃ f, MapsProtoCreateSMRequest 2 5 (some ⟨3, 8, 2, 84, 78⟩) = .ok f ∧
        f.size = 7 + 5 ∧
        MapsProtoParseFrame (some f.data) f.size
          = .ok { num := 2, type := 0, cmd := [83, 77, 0, 0], size := 5,
                  data := some (Payload.SM
                    { work_mode := 3
                      axis_ispeed := 8
                      axis_height := 2
                      tow_detection := if 5 ≥ 4 then (if 84 = 0 then 48 else 84) else 48
                      rcvr_direction := if 5 = 5 then 78 else 48 }) }) ∧
    (MapsProtoCreateSMRequest 2 5 (some ⟨3, 8, 2, 84, 78⟩)
        = .ok ⟨12, [1, 50, 83, 77, 51, 56, 50, 84, 78, 48, 63, 13]⟩ ∧
      (2 : Nat) ≤ 9 ∧ ((5 : Nat) = 3 ∨ (5 : Nat) = 4 ∨ (5 : Nat) = 5) ∧ (3 : Nat) ≤ 3 ∧
      (8 : Nat) ≤ 15 ∧ (2 : Nat) ≤ 2 ∧ (84 : Nat) ∈ [0, 48, 82, 77, 78, 69, 84] ∧
      ((5 : Nat) = 5 → (78 : Nat) = 80 ∨ (78 : Nat) = 78)) :=
  ⟨⟨by decide, by decide, by decide, by decide, by decide, by decide, by decide,
      (SM_request_roundtrip 2 5 ⟨3, 8, 2, 84, 78⟩).1 (by decide) (by decide) (by decide)
        (by decide) (by decide) (by decide) (by decide)⟩,
    ⟨by decide,
      (SM_request_roundtrip 2 5 ⟨3, 8, 2, 84, 78⟩).2
        ⟨12, [1, 50, 83, 77, 51, 56, 50, 84, 78, 48, 63, 13]⟩ (by decide)⟩⟩

/-! ## C10: CA, ER, SR and PR requests -/

theorem two_digits_digits (v : Nat) (h : v ≤ 99) : two_digits (v / 10 + 48) (v % 10 + 48) = v := by
  unfold two_digits u8
  omega

theorem dual_request_roundtrip (num v c0 c1 : Nat) (hn : num ≤ 9) (hv : v ≤ 99)
    (hfind : MapsProtoFindCmd (some [c0, c1])
      = some ⟨4, 5, [c0, c1], MapsProtoPrepareDualData, MapsProtoPrepareNoData⟩ ∨
      MapsProtoFindCmd (some [c0, c1])
      = some ⟨5, 4, [c0, c1], MapsProtoPrepareDualData, MapsProtoPrepareSingelData⟩ ∨
      MapsProtoFindCmd (some [c0, c1])
      = some ⟨4, 5, [c0, c1], MapsProtoPrepareDualData, MapsProtoPrepareDualData⟩)
    (hc : c0 ≠ 0 ∧ c1 ≠ 0 ∧ ¬ (c0 = 78 ∧ c1 = 69) ∧ ¬ (c0 = 82 ∧ c1 = 83) ∧ ¬ (c0 = 70 ∧ c1 = 65))
    (her : [c0, c1] = [69, 82] → 1 ≤ v ∧ v ≤ 24)
    (hsr : [c0, c1] = [83, 82] → 3 ≤ v ∧ v ≤ 10) :
    ∃ f, MapsProtoCreateFrame 0 num (some [c0, c1]) (some (sprintf_u 2 v ++ [0])) 2 = .ok f ∧
      MapsProtoParseFrame (some f.data) f.size
        = .ok { num := num, type := 0, cmd := [c0, c1, 0, 0], size := 1,
                data := some (Payload.byte v) } := by
  have hn' : ¬ (num > 9) := by omega
  have hsome : (MapsProtoFindCmd (some [c0, c1])).isNone = false := by
    rcases hfind with h | h | h <;> rw [h] <;> rfl
  have hd1 := isdigit_digit (v / 10) (by omega)
  have hd2 := isdigit_digit (v % 10) (by omega)
  have hval := two_digits_digits v hv
  refine ⟨⟨9, envelope num [c0, c1, v / 10 + 48, v % 10 + 48]⟩, ?_, ?_⟩
  · rw [CreateFrame_eq _ _ _ _ _ (by decide), sprintf_u2 v hv]
    simp [hn', hsome, dir_tag, src_bytes_take]
  · simp only []
    rw [parse_envelope num c0 c1 [_, _] 9 hn rfl (by decide) (by decide)]
    have hc0 := hc.1
    have hc1 := hc.2.1
    have h1 : ¬ (c0 = 78 ∧ c1 = 69) := hc.2.2.1
    have h2 : ¬ (c0 = 82 ∧ c1 = 83) := hc.2.2.2.1
    have h3 : ¬ (c0 = 70 ∧ c1 = 65) := hc.2.2.2.2
    have hb0 : (c0 != 0) = true := by simpa using hc0
    have hb1 : (c1 != 0) = true := by simpa using hc1
    have hcs : cstr [c0, c1, 0, 0] = [c0, c1] := by simp [cstr, List.takeWhile, hb0, hb1]
    have her' : ¬ ([c0, c1] = [69, 82] ∧ (v < 1 ∨ v > 24)) := by
      rintro ⟨he, hr⟩
      have := her he
      omega
    have hsr' : ¬ ([c0, c1] = [83, 82] ∧ (v < 3 ∨ v > 10)) := by
      rintro ⟨he, hr⟩
      have := hsr he
      omega
    simp only [h1, h2, h3, if_false, false_and, hcs]
    rcases hfind with h | h | h <;> rw [h] <;>
      simp only [MapsProtoPrepareDualData, rd, envelope, List.cons_append, List.getElem?_cons_succ,
        List.getElem?_cons_zero, ok_bind, pure_eq_ok, hd1, hd2, hval, her', hsr', hcs, if_true,
        if_false, and_self, ne_eq, not_true_eq_false, OfNat.ofNat_ne_zero, not_false_eq_true,
        Nat.reduceAdd]

/-- C10: for `num <= 9`, the CA request with both counts at most 99 parses
to the payload `(ca_sensors, da_sensors)` of the inputs, the ER request with
`1 <= pcell_num <= 24` to the one-byte payload `pcell_num`, the SR request
with `3 <= sensors_num <= 10` to `sensors_num`, the PR request for any
`msec_time` to `min(msec_time, 99)`; the ER and SR builders fail with EINVAL
outside those ranges. -/
theorem CA_ER_SR_PR_request_roundtrip (num : Nat) (hn : num ≤ 9) :
    (∀ ncs nds, ncs ≤ 99 → nds ≤ 99 →
      ∃ f, MapsProtoCreateCARequest num ncs nds = .ok f ∧
        MapsProtoParseFrame (some f.data) f.size
          = .ok { num := num, type := 0, cmd := [67, 65, 0, 0], size := 2,
                  data := some (Payload.CA ⟨ncs, nds⟩) }) ∧
    (∀ pcell_num, 1 ≤ pcell_num → pcell_num ≤ 24 →
      ∃ f, MapsProtoCreateERRequest num pcell_num = .ok f ∧
        MapsProtoParseFrame (some f.data) f.size
          = .ok { num := num, type := 0, cmd := [69, 82, 0, 0], size := 1,
                  data := some (Payload.byte pcell_num) }) ∧
    (∀ sensors_num, 3 ≤ sensors_num → sensors_num ≤ 10 →
      ∃ f, MapsProtoCreateSRRequest num sensors_num = .ok f ∧
        MapsProtoParseFrame (some f.data) f.size
          = .ok { num := num, type := 0, cmd := [83, 82, 0, 0], size := 1,
                  data := some (Payload.byte sensors_num) }) ∧
    (∀ msec_time,
      ∃ f, MapsProtoCreatePRRequest num msec_time = .ok f ∧
        MapsProtoParseFrame (some f.data) f.size
          = .ok { num := num, type := 0, cmd := [80, 82, 0, 0], size := 1,
                  data := some (Payload.byte (min msec_time 99)) }) ∧
    (∀ pcell_num, pcell_num < 1 ∨ pcell_num > 24 →
      MapsProtoCreateERRequest num pcell_num = .error .EINVAL) ∧
    (∀ sensors_num, sensors_num < 3 ∨ sensors_num > 10 →
      MapsProtoCreateSRRequest num sensors_num = .error .EINVAL) := by
  have hn' : ¬ (num > 9) := by omega
  refine ⟨?_, ?_, ?_, ?_, ?_, ?_⟩
  · intro ncs nds h1 h2
    have hfind : MapsProtoFindCmd (some [67, 65])
        = some ⟨0b100, 0b101, [67, 65], MapsProtoPrepareCAData, MapsProtoPrepareNoData⟩ := rfl
    have hd1 := isdigit_digit (ncs / 10) (by omega)
    have hd2 := isdigit_digit (ncs % 10) (by omega)
    have hd3 := isdigit_digit (nds / 10) (by omega)
    have hd4 := isdigit_digit (nds % 10) (by omega)
    have hv1 := two_digits_digits ncs h1
    have hv2 := two_digits_digits nds h2
    refine ⟨⟨11, envelope num [67, 65, ncs / 10 + 48, ncs % 10 + 48, nds / 10 + 48,
      nds % 10 + 48]⟩, ?_, ?_⟩
    · unfold MapsProtoCreateCARequest
      rw [CreateFrame_eq _ _ _ _ _ (by decide), sprintf_u2 ncs h1, sprintf_u2 nds h2]
      simp [hn', hfind, dir_tag, src_bytes_take, K_MAPS_PROTO_REQ_TYPE]
    · simp only []
      rw [parse_envelope num 67 65 [_, _, _, _] 11 hn rfl (by decide) (by decide)]
      simp [cstr, hfind, MapsProtoPrepareCAData, rd, envelope, hd1, hd2, hd3, hd4, hv1, hv2]
  · intro p h1 h2
    unfold MapsProtoCreateERRequest
    rw [if_neg (by omega)]
    exact dual_request_roundtrip num p 69 82 hn (by omega) (Or.inr (Or.inl rfl)) (by decide)
      (fun _ => ⟨h1, h2⟩) (fun h => absurd h (by decide))
  · intro s h1 h2
    unfold MapsProtoCreateSRRequest
    rw [if_neg (by omega)]
    exact dual_request_roundtrip num s 83 82 hn (by omega) (Or.inr (Or.inr rfl)) (by decide)
      (fun h => absurd h (by decide)) (fun _ => ⟨h1, h2⟩)
  · intro t
    unfold MapsProtoCreatePRRequest
    have ht : (if t > 99 then 99 else t) = min t 99 := by split_ifs <;> omega
    simp only [ht]
    exact dual_request_roundtrip num (min t 99) 80 82 hn (by omega) (Or.inl rfl) (by decide)
      (fun h => absurd h (by decide)) (fun h => absurd h (by decide))
  · intro p hp
    unfold MapsProtoCreateERRequest
    rw [if_pos hp]
  · intro s hs
    unfold MapsProtoCreateSRRequest
    rw [if_pos hs]

theorem CA_ER_SR_PR_request_roundtrip_witness :
    (4 : Nat) ≤ 9 ∧
    (∃ f, MapsProtoCreateCARequest 4 1 2 = .ok f ∧
        MapsProtoParseFrame (some f.data) f.size
          = .ok { num := 4, type := 0, cmd := [67, 65, 0, 0], size := 2,
                  data := some (Payload.CA ⟨1, 2⟩) }) ∧
    (∃ f, MapsProtoCreateERRequest 4 23 = .ok f ∧
        MapsProtoParseFrame (some f.data) f.size
          = .ok { num := 4, type := 0, cmd := [69, 82, 0, 0], size := 1,
                  data := some (Payload.byte 23) }) ∧
    (∃ f, MapsProtoCreateSRRequest 4 4 = .ok f ∧
        MapsProtoParseFrame (some f.data) f.size
          = .ok { num := 4, type := 0, cmd := [83, 82, 0, 0], size := 1,
                  data := some (Payload.byte 4) }) ∧
    (∃ f, MapsProtoCreatePRRequest 4 200 = .ok f ∧
        MapsProtoParseFrame (some f.data) f.size
          = .ok { num := 4, type := 0, cmd := [80, 82, 0, 0], size := 1,
                  data := some (Payload.byte (min 200 99)) }) ∧
    MapsProtoCreateERRequest 4 25 = .error .EINVAL ∧
    MapsProtoCreateSRRequest 4 2 = .error .EINVAL :=
  ⟨by decide,
    (CA_ER_SR_PR_request_roundtrip 4 (by decide)).1 1 2 (by decide) (by decide),
    (CA_ER_SR_PR_request_roundtrip 4 (by decide)).2.1 23 (by decide) (by decide),
    (CA_ER_SR_PR_request_roundtrip 4 (by decide)).2.2.1 4 (by decide) (by decide),
    (CA_ER_SR_PR_request_roundtrip 4 (by decide)).2.2.2.1 200,
    (CA_ER_SR_PR_request_roundtrip 4 (by decide)).2.2.2.2.1 25 (by decide),
    (CA_ER_SR_PR_request_roundtrip 4 (by decide)).2.2.2.2.2 2 (by decide)⟩

/-! ## C11: CA request, counts above 99 -/

/-- C11 fails: `MapsProtoCreateCARequest(0,100,0)` is not rejected with
EINVAL. The function has no range test; `sprintf` formats `10000`, the framer
takes the first four characters, and the frame returned is
`01 30 43 41 31 30 30 30 33 33 0D`, which parses to the counts 10 and 0. -/
theorem CA_request_no_range_check :
    MapsProtoCreateCARequest 0 100 0
      = .ok ⟨11, [0x01, 0x30, 0x43, 0x41, 0x31, 0x30, 0x30, 0x30, 0x33, 0x33, 0x0D]⟩ ∧
    MapsProtoParseFrame
        (some [0x01, 0x30, 0x43, 0x41, 0x31, 0x30, 0x30, 0x30, 0x33, 0x33, 0x0D]) 11
      = .ok { num := 0, type := 0, cmd := [67, 65, 0, 0], size := 2,
              data := some (Payload.CA ⟨10, 0⟩) } := by
  decide

/-! ## C12: RH request and response -/

/-- C12: for `num <= 9`, `mode` 0 or 1 and a receiver number in 1..24, the RH
request is 10 bytes and parses to Request, RH, with payload `(mode, receiver)`;
the RH response is 12 bytes and parses to Response, RH, with the same payload;
for a receiver number 0 or above 24 both builders fail with EINVAL. -/
theorem RH_request_response_roundtrip (num mode recv : Nat) (hn : num ≤ 9) (hm : mode ≤ 1) :
    (1 ≤ recv ∧ recv ≤ 24 →
      (∃ f, MapsProtoCreateRHRequest num mode recv = .ok f ∧ f.size = 10 ∧
        MapsProtoParseFrame (some f.data) f.size
          = .ok { num := num, type := 0, cmd := [82, 72, 0, 0], size := 2,
                  data := some (Payload.RH ⟨mode, recv⟩) }) ∧
      (∃ f, MapsProtoCreateRHResponse num mode recv = .ok f ∧ f.size = 12 ∧
        MapsProtoParseFrame (some f.data) f.size
          = .ok { num := num, type := 1, cmd := [82, 72, 0, 0], size := 2,
                  data := some (Payload.RH ⟨mode, recv⟩) })) ∧
    (recv = 0 ∨ recv > 24 →
      MapsProtoCreateRHRequest num mode recv = .error .EINVAL ∧
      MapsProtoCreateRHResponse num mode recv = .error .EINVAL) := by
  have hn' : ¬ (num > 9) := by omega
  have hfind : MapsProtoFindCmd (some [82, 72])
      = some ⟨0b001, 0b100, [82, 72], MapsProtoPrepareRHData, MapsProtoPrepareRHData⟩ := rfl
  constructor
  · rintro ⟨h1, h2⟩
    have hr99 : recv ≤ 99 := by omega
    have hv := two_digits_digits recv hr99
    have hs := sprintf_u2 recv hr99
    have hm48 : (mode + 48) % 256 = mode + 48 := by omega
    have hu : u8 (((mode + 48 : Nat) : Int) - 48) = mode := u8_digit mode (by omega)
    have hm0 : ¬ (¬ mode = 0 ∧ ¬ mode = 1) := by omega
    have hu' : u8 (mode : Int) = mode := u8_natCast mode (by omega)
    have hnr : ¬ (recv = 0 ∨ 24 < recv) := by omega
    have hw : (if mode ≠ 0 then 49 else 48) = mode + 48 := by
      interval_cases mode <;> rfl
    constructor
    · refine ⟨⟨10, envelope num [82, 72, mode + 48, recv / 10 + 48, recv % 10 + 48]⟩, ?_, rfl, ?_⟩
      · unfold MapsProtoCreateRHRequest
        rw [if_neg (by omega), CreateFrame_eq _ _ _ _ _ (by decide), hs, hm48]
        simp [hn', hfind, dir_tag, src_bytes_take, K_MAPS_PROTO_REQ_TYPE]
      · simp only []
        rw [parse_envelope num 82 72 [_, _, _] 10 hn rfl (by decide) (by decide)]
        simp [cstr, hfind, MapsProtoPrepareRHData, rd, envelope, hv, hu, hu', hm0, hnr]
    · refine ⟨⟨12, envelope num [82, 83, 82, 72, mode + 48, recv / 10 + 48, recv % 10 + 48]⟩,
        ?_, rfl, ?_⟩
      · unfold MapsProtoCreateRHResponse
        rw [if_neg (by omega), CreateFrame_eq _ _ _ _ _ (by decide), hs, hw]
        simp [hn', hfind, dir_tag, src_bytes_take, K_MAPS_PROTO_RES_TYPE]
      · simp only []
        rw [parse_envelope num 82 83 [_, _, _, _, _] 12 hn rfl (by decide) (by decide)]
        simp [cstr, hfind, MapsProtoPrepareRHData, rd, rdN, envelope, hv, hu, hu', hm0, hnr]
  · intro h
    constructor
    · unfold MapsProtoCreateRHRequest
      rw [if_pos (by omega)]
    · unfold MapsProtoCreateRHResponse
      rw [if_pos (by omega)]

theorem RH_request_response_roundtrip_witness :
    ((5 : Nat) ≤ 9 ∧ (1 : Nat) ≤ 1) ∧
    ((1 ≤ 20 ∧ 20 ≤ 24) ∧
      (∃ f, MapsProtoCreateRHRequest 5 1 20 = .ok f ∧ f.size = 10 ∧
        MapsProtoParseFrame (some f.data) f.size
          = .ok { num := 5, type := 0, cmd := [82, 72, 0, 0], size := 2,
                  data := some (Payload.RH ⟨1, 20⟩) }) ∧
      (∃ f, MapsProtoCreateRHResponse 5 1 20 = .ok f ∧ f.size = 12 ∧
        MapsProtoParseFrame (some f.data) f.size
          = .ok { num := 5, type := 1, cmd := [82, 72, 0, 0], size := 2,
                  data := some (Payload.RH ⟨1, 20⟩) })) ∧
    ((25 : Nat) > 24 ∧
      MapsProtoCreateRHRequest 5 1 25 = .error .EINVAL ∧
      MapsProtoCreateRHResponse 5 1 25 = .error .EINVAL) :=
  ⟨⟨by decide, by decide⟩,
    ⟨⟨by decide, by decide⟩,
      (RH_request_response_roundtrip 5 1 20 (by decide) (by decide)).1 ⟨by decide, by decide⟩⟩,
    ⟨by decide,
      (RH_request_response_roundtrip 5 1 25 (by decide) (by decide)).2 (Or.inr (by decide))⟩⟩

/-! ## C13: barrier adjust request -/

theorem rdN_envelope (num b0 b1 : Nat) (rest : List Nat) (k n : Nat)
    (h : k + n ≤ rest.length) :
    rdN (envelope num (b0 :: b1 :: rest)) (4 + k) n = .ok ((rest.drop k).take n) := by
  have hl := length_envelope num (b0 :: b1 :: rest)
  simp only [List.length_cons] at hl
  unfold rdN
  rw [if_pos (by omega)]
  have e : 4 + k = k + 1 + 1 + 1 + 1 := by omega
  rw [e]
  simp only [envelope, List.cons_append, List.drop_succ_cons, List.append_assoc]
  rw [List.drop_append_of_le_length (by omega),
    List.take_append_of_le_length (by rw [List.length_drop]; omega)]

theorem rdN_append_mid (a b c : List Nat) (pos n : Nat) (hp : pos = a.length)
    (hb : n = b.length) : rdN (a ++ b ++ c) pos n = .ok b := by
  subst hp hb
  unfold rdN
  rw [if_pos (by simp)]
  simp

theorem any_not_isxdigit (buf : List Nat) (n : Nat) (hn : n ≤ buf.length)
    (hx : ∀ b ∈ buf, isxdigit b = true) :
    (List.range n).any (fun i => !isxdigit (buf.getD i 0)) = false := by
  rw [List.any_eq_false]
  intro i hi
  have hi' : i < buf.length := by
    have := List.mem_range.1 hi
    omega
  have hg : buf.getD i 0 = buf[i] := by
    simp [List.getD, List.getElem?_eq_getElem hi']
  rw [hg, hx _ (List.getElem_mem hi')]
  simp

/-- C13: for a barrier-adjust record (64 + 24 bytes) whose 88 bytes are all
hex digits: with `type = 0` the builder returns exactly those 88 bytes followed
by CR (size 89), whatever `num` is, and that buffer parses to cmd `PAS` with
the two maps of the record; with `type != 0` and `num <= 9` it returns a
95-byte frame that parses to Request, `AJ`, the same `num` and the same maps. -/
theorem BarrierAdj_request_roundtrip (num type : Nat) (d : tMAPS_PROTO_BARRIER_ADJUST)
    (h8 : d.rcv_map8.length = 64) (h3 : d.rcv_map3.length = 24)
    (hx : ∀ b ∈ d.rcv_map8 ++ d.rcv_map3, isxdigit b = true) :
    (type = 0 →
      MapsProtoCreateBarrierAdjRequest num type (some d)
        = .ok ⟨89, d.rcv_map8 ++ d.rcv_map3 ++ [K_MAPS_PROTO_CR]⟩ ∧
      MapsProtoParseFrame (some (d.rcv_map8 ++ d.rcv_map3 ++ [K_MAPS_PROTO_CR])) 89
        = .ok { num := 0, type := 0, cmd := [80, 65, 83, 0], size := 88,
                data := some (Payload.BARRIER_ADJUST d) }) ∧
    (type ≠ 0 → num ≤ 9 →
      ∃ f, MapsProtoCreateBarrierAdjRequest num type (some d) = .ok f ∧ f.size = 95 ∧
        MapsProtoParseFrame (some f.data) f.size
          = .ok { num := num, type := 0, cmd := [65, 74, 0, 0], size := 88,
                  data := some (Payload.BARRIER_ADJUST d) }) := by
  have hlen : (d.rcv_map8 ++ d.rcv_map3).length = 88 := by simp [h8, h3]
  have hany := any_not_isxdigit (d.rcv_map8 ++ d.rcv_map3) 88 (by omega) hx
  have hsb : src_bytes (d.rcv_map8 ++ d.rcv_map3) 88 = d.rcv_map8 ++ d.rcv_map3 := by
    rw [src_bytes_take _ _ (by omega)]
    exact List.take_of_length_le (by omega)
  constructor
  · intro ht
    constructor
    · unfold MapsProtoCreateBarrierAdjRequest
      simp only [K_MAPS_PROTO_PASF_SIZE, hany, Bool.false_eq_true, if_false, ht, ne_eq,
        not_true_eq_false, Nat.reduceAdd]
      rw [memcpy_eq _ _ _ _ (by simp), hsb]
      have hr : List.drop (0 + 88) (List.replicate 89 0) = [0] := by decide
      rw [hr, List.take_zero, List.nil_append, set_mid _ _ _ _ _ hlen.symm]
    · have r88 : rd (d.rcv_map8 ++ d.rcv_map3 ++ [K_MAPS_PROTO_CR]) 88 = .ok 13 := by
        have := rd_append_right (d.rcv_map8 ++ d.rcv_map3) [K_MAPS_PROTO_CR] 0
        rw [hlen] at this
        exact this.trans (rd_cons_zero _ _)
      have m8 : rdN (d.rcv_map8 ++ d.rcv_map3 ++ [K_MAPS_PROTO_CR]) 0 64 = .ok d.rcv_map8 := by
        have := rdN_append_mid [] d.rcv_map8 (d.rcv_map3 ++ [K_MAPS_PROTO_CR]) 0 64 rfl h8.symm
        simpa using this
      have m3 : rdN (d.rcv_map8 ++ d.rcv_map3 ++ [K_MAPS_PROTO_CR]) 64 24 = .ok d.rcv_map3 :=
        rdN_append_mid d.rcv_map8 d.rcv_map3 [K_MAPS_PROTO_CR] 64 24 h8.symm h3.symm
      simp only [List.append_assoc] at r88 m8 m3
      simp [MapsProtoParseFrame, MapsProtoPreparePASpecial, parsed_calloc, r88, m8, m3,
        K_MAPS_PROTO_RECEIVE_GROUP8, K_MAPS_PROTO_RECEIVE_GROUP3, K_MAPS_PROTO_CR]
  · intro ht hn
    have hn' : ¬ (num > 9) := by omega
    have hfind : MapsProtoFindCmd (some [65, 74])
        = some ⟨0b111, 0b001, [65, 74], MapsProtoPrepareAJData, MapsProtoPrepareNoData⟩ := rfl
    refine ⟨⟨95, envelope num (65 :: 74 :: (d.rcv_map8 ++ d.rcv_map3))⟩, ?_, rfl, ?_⟩
    · unfold MapsProtoCreateBarrierAdjRequest
      simp only [K_MAPS_PROTO_PASF_SIZE, hany, Bool.false_eq_true, if_false, ht, ne_eq,
        not_false_eq_true, if_true]
      rw [CreateFrame_eq _ _ _ _ _ (by decide)]
      simp [hn', hfind, dir_tag, hsb, src_bytes_two, K_MAPS_PROTO_REQ_TYPE]
    · simp only []
      rw [parse_envelope num 65 74 (d.rcv_map8 ++ d.rcv_map3) 95 hn (by rw [hlen])
        (by decide) (by decide)]
      have m8 := rdN_envelope num 65 74 (d.rcv_map8 ++ d.rcv_map3) 0 64 (by omega)
      have m3 := rdN_envelope num 65 74 (d.rcv_map8 ++ d.rcv_map3) 64 24 (by omega)
      have e8 : List.take 64 (List.drop 0 (d.rcv_map8 ++ d.rcv_map3)) = d.rcv_map8 := by
        rw [List.drop_zero, List.take_append_of_le_length (by omega)]
        exact List.take_of_length_le (by omega)
      have e3 : List.take 24 (List.drop 64 (d.rcv_map8 ++ d.rcv_map3)) = d.rcv_map3 := by
        rw [← h8, List.drop_left]
        exact List.take_of_length_le (by omega)
      rw [e8] at m8
      rw [e3] at m3
      simp [cstr, hfind, MapsProtoPrepareAJData, m8, m3, K_MAPS_PROTO_RECEIVE_GROUP8,
        K_MAPS_PROTO_RECEIVE_GROUP3]

theorem BarrierAdj_request_roundtrip_witness :
    ((List.replicate 64 70).length = 64 ∧ (List.replicate 24 69).length = 24 ∧
      ∀ b ∈ List.replicate 64 70 ++ List.replicate 24 69, isxdigit b = true) ∧
    ((0 : Nat) = 0 ∧
      MapsProtoCreateBarrierAdjRequest 8 0 (some ⟨List.replicate 64 70, List.replicate 24 69⟩)
        = .ok ⟨89, List.replicate 64 70 ++ List.replicate 24 69 ++ [K_MAPS_PROTO_CR]⟩ ∧
      MapsProtoParseFrame
          (some (List.replicate 64 70 ++ List.replicate 24 69 ++ [K_MAPS_PROTO_CR])) 89
        = .ok { num := 0, type := 0, cmd := [80, 65, 83, 0], size := 88,
                data := some (Payload.BARRIER_ADJUST
                  ⟨List.replicate 64 70, List.replicate 24 69⟩) }) ∧
    ((1 : Nat) ≠ 0 ∧ (7 : Nat) ≤ 9 ∧
      ∃ f, MapsProtoCreateBarrierAdjRequest 7 1
          (some ⟨List.replicate 64 70, List.replicate 24 69⟩) = .ok f ∧ f.size = 95 ∧
        MapsProtoParseFrame (some f.data) f.size
          = .ok { num := 7, type := 0, cmd := [65, 74, 0, 0], size := 88,
                  data := some (Payload.BARRIER_ADJUST
                    ⟨List.replicate 64 70, List.replicate 24 69⟩) }) :=
  ⟨⟨by simp, by simp, by decide⟩,
    ⟨rfl, (BarrierAdj_request_roundtrip 8 0 ⟨List.replicate 64 70, List.replicate 24 69⟩
      (by simp) (by simp) (by decide)).1 rfl⟩,
    ⟨by decide, by decide,
      (BarrierAdj_request_roundtrip 7 1 ⟨List.replicate 64 70, List.replicate 24 69⟩
        (by simp) (by simp) (by decide)).2 (by decide) (by decide)⟩⟩

/-! ## C14: SC special request, modes D, E, H, I -/

/-- C14: for an SC-special record whose 12-byte map is all hex digits, the
builder returns the 12 bytes followed by CR (size 13) for mode D or E and by
CR LF (size 14) for mode H or I, whatever `num` is; the 13-byte buffer parses
to cmd `SCS`, mode `D`, and the 14-byte buffer to cmd `SCS`, mode `H`, both
with the same 12-byte map. -/
theorem SCSpecial_DEHI_roundtrip (num : Nat) (d : tMAPS_PROTO_SC_SPECIAL)
    (hl : d.MODES.length = 12) (hx : ∀ b ∈ d.MODES, isxdigit b = true) :
    (d.mode = 68 ∨ d.mode = 69 →
      MapsProtoCreateSCSpecialRequest num (some d)
        = .ok ⟨13, d.MODES ++ [K_MAPS_PROTO_CR]⟩ ∧
      MapsProtoParseFrame (some (d.MODES ++ [K_MAPS_PROTO_CR])) 13
        = .ok { num := 0, type := 0, cmd := [83, 67, 83, 0], size := 12,
                data := some (Payload.SC_SPECIAL ⟨68, d.MODES⟩) }) ∧
    (d.mode = 72 ∨ d.mode = 73 →
      MapsProtoCreateSCSpecialRequest num (some d)
        = .ok ⟨14, d.MODES ++ [K_MAPS_PROTO_CR, K_MAPS_PROTO_LF]⟩ ∧
      MapsProtoParseFrame (some (d.MODES ++ [K_MAPS_PROTO_CR, K_MAPS_PROTO_LF])) 14
        = .ok { num := 0, type := 0, cmd := [83, 67, 83, 0], size := 12,
                data := some (Payload.SC_SPECIAL ⟨72, d.MODES⟩) }) := by
  have hany := any_not_isxdigit d.MODES 12 (by omega) hx
  have hsb : src_bytes d.MODES 12 = d.MODES := by
    rw [src_bytes_take _ _ (by omega)]
    exact List.take_of_length_le (by omega)
  have hback : memcpy (List.replicate 12 0) 0 d.MODES 12 = d.MODES := by
    rw [memcpy_eq _ _ _ _ (by simp), hsb]
    simp
  constructor
  · intro hm
    have habc : ¬ (d.mode = 65 ∨ d.mode = 66 ∨ d.mode = 67) := by omega
    have hdehi : d.mode = 68 ∨ d.mode = 69 ∨ d.mode = 72 ∨ d.mode = 73 := by omega
    constructor
    · unfold MapsProtoCreateSCSpecialRequest
      simp only [K_MAPS_PROTO_DEHI_BUFFER, hany, Bool.false_eq_true, if_false, habc, hdehi, hm,
        if_true, Nat.reduceAdd, OfNat.ofNat_ne_one, one_ne_zero, Nat.reduceEqDiff]
      rw [memcpy_eq _ _ _ _ (by simp), hsb]
      have hr : List.drop (0 + 12) (List.replicate 13 0) = [0] := by decide
      rw [hr, List.take_zero, List.nil_append, set_mid _ _ _ _ _ hl.symm]
    · have r12 : rd (d.MODES ++ [K_MAPS_PROTO_CR]) 12 = .ok 13 := by
        have := rd_append_right d.MODES [K_MAPS_PROTO_CR] 0
        rw [hl] at this
        exact this.trans (rd_cons_zero _ _)
      have m : rdN (d.MODES ++ [K_MAPS_PROTO_CR]) 0 12 = .ok d.MODES := by
        have := rdN_append_mid [] d.MODES [K_MAPS_PROTO_CR] 0 12 rfl hl.symm
        simpa using this
      simp [MapsProtoParseFrame, MapsProtoPrepareSCSpecial, parsed_calloc, r12, m,
        K_MAPS_PROTO_DEHI_BUFFER, K_MAPS_PROTO_CR]
      exact hback
  · intro hm
    have habc : ¬ (d.mode = 65 ∨ d.mode = 66 ∨ d.mode = 67) := by omega
    have hde : ¬ (d.mode = 68 ∨ d.mode = 69) := by omega
    have hdehi : d.mode = 68 ∨ d.mode = 69 ∨ d.mode = 72 ∨ d.mode = 73 := by omega
    constructor
    · unfold MapsProtoCreateSCSpecialRequest
      simp only [K_MAPS_PROTO_DEHI_BUFFER, hany, Bool.false_eq_true, if_false, habc, hdehi, hde,
        if_true, Nat.reduceAdd]
      rw [memcpy_eq _ _ _ _ (by simp), hsb]
      have hr : List.drop (0 + 12) (List.replicate 14 0) = [0, 0] := by decide
      rw [hr, List.take_zero, List.nil_append, set_mid _ _ _ _ _ hl.symm]
      have e : d.MODES ++ K_MAPS_PROTO_CR :: [0] = (d.MODES ++ [K_MAPS_PROTO_CR]) ++ 0 :: [] := by
        simp
      rw [e, set_mid _ _ _ _ _ (by simp [hl])]
      simp
    · have r12 : rd (d.MODES ++ [K_MAPS_PROTO_CR, K_MAPS_PROTO_LF]) 12 = .ok 13 := by
        have := rd_append_right d.MODES [K_MAPS_PROTO_CR, K_MAPS_PROTO_LF] 0
        rw [hl] at this
        exact this.trans (rd_cons_zero _ _)
      have r13 : rd (d.MODES ++ [K_MAPS_PROTO_CR, K_MAPS_PROTO_LF]) 13 = .ok 10 := by
        have := rd_append_right d.MODES [K_MAPS_PROTO_CR, K_MAPS_PROTO_LF] 1
        rw [hl] at this
        exact this.trans ((rd_cons_succ _ _ _).trans (rd_cons_zero _ _))
      have m : rdN (d.MODES ++ [K_MAPS_PROTO_CR, K_MAPS_PROTO_LF]) 0 12 = .ok d.MODES := by
        have := rdN_append_mid [] d.MODES [K_MAPS_PROTO_CR, K_MAPS_PROTO_LF] 0 12 rfl hl.symm
        simpa using this
      simp [MapsProtoParseFrame, MapsProtoPrepareSCSpecial, parsed_calloc, r12, r13, m,
        K_MAPS_PROTO_DEHI_BUFFER, K_MAPS_PROTO_CR, K_MAPS_PROTO_LF]
      exact hback

theorem SCSpecial_DEHI_roundtrip_witness :
    ((List.replicate 12 70).length = 12 ∧ ∀ b ∈ List.replicate 12 70, isxdigit b = true) ∧
    (((69 : Nat) = 68 ∨ (69 : Nat) = 69) ∧
      MapsProtoCreateSCSpecialRequest 0 (some ⟨69, List.replicate 12 70⟩)
        = .ok ⟨13, List.replicate 12 70 ++ [K_MAPS_PROTO_CR]⟩ ∧
      MapsProtoParseFrame (some (List.replicate 12 70 ++ [K_MAPS_PROTO_CR])) 13
        = .ok { num := 0, type := 0, cmd := [83, 67, 83, 0], size := 12,
                data := some (Payload.SC_SPECIAL ⟨68, List.replicate 12 70⟩) }) ∧
    (((73 : Nat) = 72 ∨ (73 : Nat) = 73) ∧
      MapsProtoCreateSCSpecialRequest 1 (some ⟨73, List.replicate 12 70⟩)
        = .ok ⟨14, List.replicate 12 70 ++ [K_MAPS_PROTO_CR, K_MAPS_PROTO_LF]⟩ ∧
      MapsProtoParseFrame
          (some (List.replicate 12 70 ++ [K_MAPS_PROTO_CR, K_MAPS_PROTO_LF])) 14
        = .ok { num := 0, type := 0, cmd := [83, 67, 83, 0], size := 12,
                data := some (Payload.SC_SPECIAL ⟨72, List.replicate 12 70⟩) }) :=
  ⟨⟨by simp, by decide⟩,
    ⟨by decide, (SCSpecial_DEHI_roundtrip 0 ⟨69, List.replicate 12 70⟩ (by simp) (by decide)).1
      (by decide)⟩,
    ⟨by decide, (SCSpecial_DEHI_roundtrip 1 ⟨73, List.replicate 12 70⟩ (by simp) (by decide)).2
      (by decide)⟩⟩

/-! ## C15: SC special request, modes A, B, C -/

theorem length_six (l : List Nat) (h : l.length = 6) :
    ∃ a b c d e f, l = [a, b, c, d, e, f] := by
  match l, h with
  | [a, b, c, d, e, f], _ => exact ⟨a, b, c, d, e, f, rfl⟩

/-- C15 as stated fails for mode `B`: the record with mode `B`, presence 1,
sensors `FFFFFF` and 7 sweeps is built as the 15-byte frame
`01 39 53 43 31 46 46 46 46 46 46 37 32 3F 0D`, and the payload parsed from it
has mode `A` (65), not `B` (66). -/
theorem SCSpecial_B_parsed_as_A :
    MapsProtoCreateSCSpecialRequest 9 (some ⟨66, [1, 70, 70, 70, 70, 70, 70, 7, 0, 0, 0, 0]⟩)
      = .ok ⟨15, [0x01, 0x39, 0x53, 0x43, 0x31, 0x46, 0x46, 0x46, 0x46, 0x46, 0x46, 0x37, 0x32,
          0x3F, 0x0D]⟩ ∧
    MapsProtoParseFrame (some [0x01, 0x39, 0x53, 0x43, 0x31, 0x46, 0x46, 0x46, 0x46, 0x46, 0x46,
        0x37, 0x32, 0x3F, 0x0D]) 15
      = .ok { num := 9, type := 0, cmd := [83, 67, 83, 0], size := 13,
              data := some (Payload.SC_SPECIAL ⟨65, [1, 70, 70, 70, 70, 70, 70, 7, 0, 0, 0, 0]⟩) } ∧
    (⟨65, [1, 70, 70, 70, 70, 70, 70, 7, 0, 0, 0, 0]⟩ : tMAPS_PROTO_SC_SPECIAL).mode ≠ 66 := by
  decide

/-- C15 amended: for `num <= 9` and an SC-special record with mode A, B or C,
presence 0 or 1, six hex sensor bytes and `sweeps_num <= 9`, the built frame
has 15 bytes and parses to Request, cmd `SCS`, with a payload whose mode is
`A` whatever the mode of the record was, and whose presence, sensors and
sweeps_num are those of the record (the other four bytes of the union are 0). -/
theorem SCSpecial_ABC_roundtrip (num : Nat) (d : tMAPS_PROTO_SC_SPECIAL) (hn : num ≤ 9)
    (hm : d.mode = 65 ∨ d.mode = 66 ∨ d.mode = 67) (hl : d.MODES.length = 12)
    (hp : d.presence ≤ 1) (hx : ∀ b ∈ d.sensors, isxdigit b = true) (hs : d.sweeps_num ≤ 9) :
    ∃ f p, MapsProtoCreateSCSpecialRequest num (some d) = .ok f ∧ f.size = 15 ∧
      MapsProtoParseFrame (some f.data) f.size
        = .ok { num := num, type := 0, cmd := [83, 67, 83, 0], size := 13,
                data := some (Payload.SC_SPECIAL p) } ∧
      p.mode = 65 ∧ p.presence = d.presence ∧ p.sensors = d.sensors ∧
      p.sweeps_num = d.sweeps_num ∧ p.MODES.drop 8 = [0, 0, 0, 0] := by
  have hn' : ¬ (num > 9) := by omega
  have hfind : MapsProtoFindCmd (some [83, 67])
      = some ⟨0b101, 0b101, [83, 67], MapsProtoPrepareSCData, MapsProtoPrepareNoData⟩ := rfl
  have hl6 : d.sensors.length = 6 := by
    simp [tMAPS_PROTO_SC_SPECIAL.sensors, hl]
  obtain ⟨s0, s1, s2, s3, s4, s5, hsen⟩ := length_six d.sensors hl6
  rw [hsen] at hx
  have x0 := hx s0 (by simp)
  have x1 := hx s1 (by simp)
  have x2 := hx s2 (by simp)
  have x3 := hx s3 (by simp)
  have x4 := hx s4 (by simp)
  have x5 := hx s5 (by simp)
  have hany : (List.range 6).any (fun i => !isxdigit ([s0, s1, s2, s3, s4, s5].getD i 0))
      = false := by
    simp [List.range_succ, x0, x1, x2, x3, x4, x5]
  have hpb : (if d.presence ≠ 0 then 49 else 48) = d.presence + 48 := by
    generalize d.presence = p at hp
    interval_cases p <;> rfl
  have hup : u8 (((d.presence + 48 : Nat) : Int) - 48) = d.presence := u8_digit _ (by omega)
  have hus : u8 (((d.sweeps_num + 48 : Nat) : Int) - 48) = d.sweeps_num := u8_digit _ (by omega)
  have hsd := isdigit_digit d.sweeps_num hs
  have hp1 : ¬ (((d.presence + 48 : Nat) : Int) - 48 > 1) := by omega
  refine ⟨⟨15, envelope num [83, 67, d.presence + 48, s0, s1, s2, s3, s4, s5,
      d.sweeps_num + 48]⟩,
    ⟨65, [d.presence, s0, s1, s2, s3, s4, s5, d.sweeps_num, 0, 0, 0, 0]⟩, ?_, rfl, ?_, rfl, rfl,
    ?_, rfl, rfl⟩
  · unfold MapsProtoCreateSCSpecialRequest
    simp only [hm, if_true, hsen, hany, K_MAPS_PROTO_SENSORS_MAP, Bool.false_eq_true, if_false,
      hpb, Nat.not_lt.2 hs, gt_iff_lt]
    rw [CreateFrame_eq _ _ _ _ _ (by decide)]
    simp [hn', hfind, dir_tag, src_bytes_take, K_MAPS_PROTO_REQ_TYPE, memcpy]
  · simp only []
    rw [parse_envelope num 83 67 [_, _, _, _, _, _, _, _] 15 hn rfl (by decide) (by decide)]
    generalize d.presence + 48 = pb at hup hp1
    generalize d.sweeps_num + 48 = sb at hus hsd
    simp [cstr, hfind, MapsProtoPrepareSCData, rd, rdN, scan, envelope, memcpy, hup, hus, hsd,
      hp1, x0, x1, x2, x3, x4, x5]
  · rw [hsen]
    rfl

theorem SCSpecial_ABC_roundtrip_witness :
    ((9 : Nat) ≤ 9 ∧ ((66 : Nat) = 65 ∨ (66 : Nat) = 66 ∨ (66 : Nat) = 67) ∧
      [1, 70, 70, 70, 70, 70, 70, 7, 0, 0, 0, 0].length = 12 ∧
      tMAPS_PROTO_SC_SPECIAL.presence ⟨66, [1, 70, 70, 70, 70, 70, 70, 7, 0, 0, 0, 0]⟩ ≤ 1 ∧
      (∀ b ∈ tMAPS_PROTO_SC_SPECIAL.sensors ⟨66, [1, 70, 70, 70, 70, 70, 70, 7, 0, 0, 0, 0]⟩,
        isxdigit b = true) ∧
      tMAPS_PROTO_SC_SPECIAL.sweeps_num ⟨66, [1, 70, 70, 70, 70, 70, 70, 7, 0, 0, 0, 0]⟩ ≤ 9) ∧
    ∃ f p, MapsProtoCreateSCSpecialRequest 9
        (some ⟨66, [1, 70, 70, 70, 70, 70, 70, 7, 0, 0, 0, 0]⟩) = .ok f ∧ f.size = 15 ∧
      MapsProtoParseFrame (some f.data) f.size
        = .ok { num := 9, type := 0, cmd := [83, 67, 83, 0], size := 13,
                data := some (Payload.SC_SPECIAL p) } ∧
      p.mode = 65 ∧
      p.presence
        = tMAPS_PROTO_SC_SPECIAL.presence ⟨66, [1, 70, 70, 70, 70, 70, 70, 7, 0, 0, 0, 0]⟩ ∧
      p.sensors
        = tMAPS_PROTO_SC_SPECIAL.sensors ⟨66, [1, 70, 70, 70, 70, 70, 70, 7, 0, 0, 0, 0]⟩ ∧
      p.sweeps_num
        = tMAPS_PROTO_SC_SPECIAL.sweeps_num ⟨66, [1, 70, 70, 70, 70, 70, 70, 7, 0, 0, 0, 0]⟩ ∧
      p.MODES.drop 8 = [0, 0, 0, 0] :=
  ⟨⟨by decide, by decide, by decide, by decide, by decide, by decide⟩,
    SCSpecial_ABC_roundtrip 9 ⟨66, [1, 70, 70, 70, 70, 70, 70, 7, 0, 0, 0, 0]⟩ (by decide)
      (by decide) (by decide) (by decide) (by decide) (by decide)⟩

/-! ## C16: AP request, short form -/

/-- For `num <= 9` and an AP record with `smbyte < 2` the request has 9 bytes
and parses to Request, AP, with smbyte 0 and a vheight computed as
`tens * 10 - units` of the two digits written (an 8-bit value): the decoder
subtracts the units digit. -/
theorem AP_short_request_parse (num : Nat) (d : tMAPS_PROTO_AP_DATA) (hn : num ≤ 9)
    (hsm : d.smbyte < 2) (hv : d.vheight ≤ 99) :
    ∃ f, MapsProtoCreateAPRequest num (some d) = .ok f ∧ f.size = 9 ∧
      MapsProtoParseFrame (some f.data) f.size
        = .ok { num := num, type := 0, cmd := [65, 80, 0, 0], size := 8,
                data := some (Payload.AP ⟨0,
                  u8 ((d.vheight / 10 : Nat) * 10 - ((d.vheight % 10 : Nat) : Int)),
                  0, 0, 0, 0, 0, 0⟩) } := by
  have hn' : ¬ (num > 9) := by omega
  have hfind : MapsProtoFindCmd (some [65, 80])
      = some ⟨0b111, 0b001, [65, 80], MapsProtoPrepareAPData, MapsProtoPrepareNoData⟩ := rfl
  have hd1 := isdigit_digit (d.vheight / 10) (by omega)
  have hd2 := isdigit_digit (d.vheight % 10) (by omega)
  have hs := sprintf_u2 d.vheight hv
  have hval : u8 ((((d.vheight / 10 + 48 : Nat) : Int) - 48) * 10
      - (((d.vheight % 10 + 48 : Nat) : Int) - 48))
      = u8 ((d.vheight / 10 : Nat) * 10 - ((d.vheight % 10 : Nat) : Int)) := by
    congr 1
    push_cast
    ring
  refine ⟨⟨9, envelope num [65, 80, d.vheight / 10 + 48, d.vheight % 10 + 48]⟩, ?_, rfl, ?_⟩
  · unfold MapsProtoCreateAPRequest
    simp only [ge_iff_le, Nat.not_le.2 hsm, if_false, gt_iff_lt, Nat.not_lt.2 hv]
    rw [CreateFrame_eq _ _ _ _ _ (by decide), hs]
    simp [hn', hfind, dir_tag, src_bytes_take, K_MAPS_PROTO_REQ_TYPE]
  · simp only []
    rw [parse_envelope num 65 80 [_, _] 9 hn rfl (by decide) (by decide)]
    generalize d.vheight / 10 + 48 = a at hd1 hval
    generalize d.vheight % 10 + 48 = b at hd2 hval
    simp [cstr, hfind, MapsProtoPrepareAPData, rd, envelope, hd1, hd2, hval]

/-- C16 fails for `vheight = 12` (the record of the test in main.c):
`MapsProtoCreateAPRequest(0, {smbyte 0, vheight 12})` returns
`01 30 41 50 31 32 32 32 0D`, and the vheight parsed from it is 8
(`1 * 10 - 2`), not 12. -/
theorem AP_short_request_vheight_12 :
    MapsProtoCreateAPRequest 0 (some ⟨0, 12, 0, 0, 15, 11, 20, 40⟩)
      = .ok ⟨9, [0x01, 0x30, 0x41, 0x50, 0x31, 0x32, 0x32, 0x32, 0x0D]⟩ ∧
    MapsProtoParseFrame (some [0x01, 0x30, 0x41, 0x50, 0x31, 0x32, 0x32, 0x32, 0x0D]) 9
      = .ok { num := 0, type := 0, cmd := [65, 80, 0, 0], size := 8,
              data := some (Payload.AP ⟨0, 8, 0, 0, 0, 0, 0, 0⟩) } := by
  decide

/-! ## C17: AP request, long form -/

/-- C17: for `num <= 9` and an AP record with smbyte 2, vaxis `'0'`, `'N'` or
`'P'`, `axis_height <= 15` and the three other heights at most 99, the request
has 17 bytes and parses to Request, AP, with smbyte 2 and vaxis, axis_height,
vmax_height, hmin_height and lmax_height of the record (vheight and reserved
are 0). -/
theorem AP_long_request_roundtrip (num : Nat) (d : tMAPS_PROTO_AP_DATA) (hn : num ≤ 9)
    (hsm : d.smbyte = 2) (hv : d.vaxis = 48 ∨ d.vaxis = 78 ∨ d.vaxis = 80)
    (ha : d.axis_height ≤ 15) (h1 : d.vmax_height ≤ 99) (h2 : d.hmin_height ≤ 99)
    (h3 : d.lmax_height ≤ 99) :
    ∃ f, MapsProtoCreateAPRequest num (some d) = .ok f ∧ f.size = 17 ∧
      MapsProtoParseFrame (some f.data) f.size
        = .ok { num := num, type := 0, cmd := [65, 80, 0, 0], size := 8,
                data := some (Payload.AP ⟨2, 0, d.vaxis, 0, d.axis_height, d.vmax_height,
                  d.hmin_height, d.lmax_height⟩) } := by
  have hn' : ¬ (num > 9) := by omega
  have hfind : MapsProtoFindCmd (some [65, 80])
      = some ⟨0b111, 0b001, [65, 80], MapsProtoPrepareAPData, MapsProtoPrepareNoData⟩ := rfl
  have ha99 : d.axis_height ≤ 99 := by omega
  have d1 := isdigit_digit (d.axis_height / 10) (by omega)
  have d2 := isdigit_digit (d.axis_height % 10) (by omega)
  have d3 := isdigit_digit (d.vmax_height / 10) (by omega)
  have d4 := isdigit_digit (d.vmax_height % 10) (by omega)
  have d5 := isdigit_digit (d.hmin_height / 10) (by omega)
  have d6 := isdigit_digit (d.hmin_height % 10) (by omega)
  have d7 := isdigit_digit (d.lmax_height / 10) (by omega)
  have d8 := isdigit_digit (d.lmax_height % 10) (by omega)
  have v1 := two_digits_digits d.axis_height ha99
  have v2 := two_digits_digits d.vmax_height h1
  have v3 := two_digits_digits d.hmin_height h2
  have v4 := two_digits_digits d.lmax_height h3
  have hva : ¬ (d.vaxis ≠ 80 ∧ d.vaxis ≠ 78 ∧ d.vaxis ≠ 48 ∧ d.vaxis ≠ 0) := by omega
  have hv0 : (if d.vaxis = 0 then 48 else d.vaxis) = d.vaxis := by
    rw [if_neg (by omega)]
  have hvb : ¬ (d.vaxis ≠ 48 ∧ d.vaxis ≠ 78 ∧ d.vaxis ≠ 80) := by omega
  refine ⟨⟨17, envelope num [65, 80, d.vaxis, 48,
      d.axis_height / 10 + 48, d.axis_height % 10 + 48,
      d.vmax_height / 10 + 48, d.vmax_height % 10 + 48,
      d.hmin_height / 10 + 48, d.hmin_height % 10 + 48,
      d.lmax_height / 10 + 48, d.lmax_height % 10 + 48]⟩, ?_, rfl, ?_⟩
  · unfold MapsProtoCreateAPRequest
    simp only [hsm, ge_iff_le, le_refl, if_true, hva, if_false, hv0, gt_iff_lt,
      Nat.not_lt.2 ha, Nat.not_lt.2 h1, Nat.not_lt.2 h2, Nat.not_lt.2 h3]
    rw [CreateFrame_eq _ _ _ _ _ (by decide), sprintf_u2 _ ha99, sprintf_u2 _ h1,
      sprintf_u2 _ h2, sprintf_u2 _ h3]
    simp [hn', hfind, dir_tag, src_bytes_take, K_MAPS_PROTO_REQ_TYPE]
  · simp only []
    rw [parse_envelope num 65 80 [_, _, _, _, _, _, _, _, _, _] 17 hn rfl (by decide)
      (by decide)]
    simp [cstr, hfind, MapsProtoPrepareAPData, rd, scan, envelope, d1, d2, d3, d4, d5, d6, d7,
      d8, v1, v2, v3, v4, hvb]

theorem AP_long_request_roundtrip_witness :
    ((0 : Nat) ≤ 9 ∧ (2 : Nat) = 2 ∧ ((78 : Nat) = 48 ∨ (78 : Nat) = 78 ∨ (78 : Nat) = 80) ∧
      (15 : Nat) ≤ 15 ∧ (11 : Nat) ≤ 99 ∧ (20 : Nat) ≤ 99 ∧ (40 : Nat) ≤ 99) ∧
    ∃ f, MapsProtoCreateAPRequest 0 (some ⟨2, 12, 78, 0, 15, 11, 20, 40⟩) = .ok f ∧
      f.size = 17 ∧
      MapsProtoParseFrame (some f.data) f.size
        = .ok { num := 0, type := 0, cmd := [65, 80, 0, 0], size := 8,
                data := some (Payload.AP ⟨2, 0, 78, 0, 15, 11, 20, 40⟩) } :=
  ⟨⟨by decide, by decide, by decide, by decide, by decide, by decide, by decide⟩,
    AP_long_request_roundtrip 0 ⟨2, 12, 78, 0, 15, 11, 20, 40⟩ (by decide) rfl (by decide)
      (by decide) (by decide) (by decide) (by decide)⟩

/-! ## C18: EJ request -/

/-- For `num <= 9` every EJ request is a 13-byte frame, and since its byte 12
is CR the parser takes it as the special SC frame: the result is cmd `SCS`,
num 0, mode `D`, with the first 12 bytes of the frame as the map. The EJ
decoder is never reached. -/
theorem EJ_request_parsed_as_SCS (num : Nat) (d : tMAPS_PROTO_EJ_DATA) (hn : num ≤ 9) :
    ∃ f, MapsProtoCreateEJRequest num (some d) = .ok f ∧ f.size = 13 ∧
      MapsProtoParseFrame (some f.data) f.size
        = .ok { num := 0, type := 0, cmd := [83, 67, 83, 0], size := 12,
                data := some (Payload.SC_SPECIAL ⟨68, f.data.take 12⟩) } := by
  have hn' : ¬ (num > 9) := by omega
  have hfind : MapsProtoFindCmd (some [69, 74])
      = some ⟨0b100, 0b001, [69, 74], MapsProtoPrepareEJData, MapsProtoPrepareNoData⟩ := rfl
  generalize hp : (if d.paxes > 99 then 99 else d.paxes) = p
  generalize hq : (if d.naxes > 99 then 99 else d.naxes) = q
  generalize hr : (if d.ispeed > 99 then 99 else d.ispeed) = r
  have hp99 : p ≤ 99 := by rw [← hp]; split_ifs <;> omega
  have hq99 : q ≤ 99 := by rw [← hq]; split_ifs <;> omega
  have hr99 : r ≤ 99 := by rw [← hr]; split_ifs <;> omega
  refine ⟨⟨13, envelope num [69, 74, p / 10 + 48, p % 10 + 48, q / 10 + 48, q % 10 + 48,
      r / 10 + 48, r % 10 + 48]⟩, ?_, rfl, ?_⟩
  · unfold MapsProtoCreateEJRequest
    simp only [hp, hq, hr]
    rw [CreateFrame_eq _ _ _ _ _ (by decide), sprintf_u2 _ hp99, sprintf_u2 _ hq99,
      sprintf_u2 _ hr99]
    simp [hn', hfind, dir_tag, src_bytes_take, K_MAPS_PROTO_REQ_TYPE]
  · simp only []
    have hlrc := LRC_eq [num + 48, 69, 74, p / 10 + 48, p % 10 + 48, q / 10 + 48, q % 10 + 48,
      r / 10 + 48, r % 10 + 48]
    generalize hx : List.foldl (fun x b => (x ^^^ b) % 256) 0
      [num + 48, 69, 74, p / 10 + 48, p % 10 + 48, q / 10 + 48, q % 10 + 48,
        r / 10 + 48, r % 10 + 48] = x at hlrc
    simp [MapsProtoParseFrame, MapsProtoPrepareSCSpecial, parsed_calloc, envelope, hlrc, rd, rdN,
      memcpy, K_MAPS_PROTO_SCSF_SIZE, K_MAPS_PROTO_CR, K_MAPS_PROTO_SOH, K_MAPS_PROTO_DEHI_BUFFER]

/-- C18 fails: `MapsProtoCreateEJRequest(1, {9, 3, 50})` returns the 13-byte
frame `01 31 45 4A 30 39 30 33 35 30 33 31 0D`, and `MapsProtoParseFrame` returns
for it cmd `SCS`, num 0 and an SC-special payload of mode `D`, not cmd `EJ`,
num 1 and the payload (9, 3, 50). -/
theorem EJ_request_not_parsed_as_EJ :
    MapsProtoCreateEJRequest 1 (some ⟨9, 3, 50⟩)
      = .ok ⟨13, [0x01, 0x31, 0x45, 0x4A, 0x30, 0x39, 0x30, 0x33, 0x35, 0x30, 0x33, 0x31,
          0x0D]⟩ ∧
    MapsProtoParseFrame (some [0x01, 0x31, 0x45, 0x4A, 0x30, 0x39, 0x30, 0x33, 0x35, 0x30,
        0x33, 0x31, 0x0D]) 13
      = .ok { num := 0, type := 0, cmd := [83, 67, 83, 0], size := 12,
              data := some (Payload.SC_SPECIAL
                ⟨68, [0x01, 0x31, 0x45, 0x4A, 0x30, 0x39, 0x30, 0x33, 0x35, 0x30, 0x33,
                  0x31]⟩) } := by
  decide

/-! ## C19: EM request -/

theorem EM_parse_16 (num wm sp ah hw cl fw : Nat) (hn : num ≤ 9) (hwm : wm ≤ 3)
    (hsp : sp ≤ 15) (hah : ah ≤ 2) (hhw : 1 ≤ hw ∧ hw ≤ 3) (hcl : 1 ≤ cl ∧ cl ≤ 2)
    (hfw : fw ≤ 99) :
    MapsProtoParseFrame (some (envelope num [69, 77, wm + 48,
        if sp < 10 then sp + 48 else sp + 55, ah + 48, hw + 48, cl + 48,
        fw / 10 + 48, fw % 10 + 48, 48, 48])) 16
      = .ok { num := num, type := 0, cmd := [69, 77, 0, 0], size := 9,
              data := some (Payload.EM ⟨wm, sp, ah, 0, hw, cl, fw, 0, 0⟩) } := by
  have hfind : MapsProtoFindCmd (some [69, 77])
      = some ⟨0b111, 0b001, [69, 77], MapsProtoPrepareEMData, MapsProtoPrepareNoData⟩ := rfl
  obtain ⟨hx1, hx2⟩ := hex_byte_roundtrip sp
  have hx1 := hx1 hsp
  have hx2 := hx2 hsp
  have hd1 := isdigit_digit (fw / 10) (by omega)
  have hd2 := isdigit_digit (fw % 10) (by omega)
  have hv := two_digits_digits fw hfw
  have e_wm := isdigit_digit wm (by omega)
  have g_wm : ¬ (((wm + 48 : Nat) : Int) - 48 > 3) := by omega
  have u_wm : u8 (((wm + 48 : Nat) : Int) - 48) = wm := u8_digit wm (by omega)
  have e_ah := isdigit_digit ah (by omega)
  have g_ah : ¬ (((ah + 48 : Nat) : Int) - 48 > 2) := by omega
  have u_ah : u8 (((ah + 48 : Nat) : Int) - 48) = ah := u8_digit ah (by omega)
  have e_hw : ¬ (hw + 48 ≠ 49 ∧ hw + 48 ≠ 50 ∧ hw + 48 ≠ 51) := by omega
  have u_hw : u8 (((hw + 48 : Nat) : Int) - 48) = hw := u8_digit hw (by omega)
  have e_cl : ¬ (cl + 48 ≠ 49 ∧ cl + 48 ≠ 50) := by omega
  have u_cl : u8 (((cl + 48 : Nat) : Int) - 48) = cl := u8_digit cl (by omega)
  rw [parse_envelope num 69 77 [_, _, _, _, _, _, _, _, _] 16 hn rfl (by decide) (by decide)]
  generalize (if sp < 10 then sp + 48 else sp + 55) = x5 at hx1 hx2 ⊢
  generalize wm + 48 = wb at e_wm g_wm u_wm ⊢
  generalize ah + 48 = ab at e_ah g_ah u_ah ⊢
  generalize hw + 48 = hb at e_hw u_hw ⊢
  generalize cl + 48 = cb at e_cl u_cl ⊢
  generalize fw / 10 + 48 = f1 at hd1 hv ⊢
  generalize fw % 10 + 48 = f2 at hd2 hv ⊢
  simp [cstr, hfind, MapsProtoPrepareEMData, rd, envelope, hx1, hx2, hd1, hd2, hv, e_wm, g_wm,
    u_wm, e_ah, g_ah, u_ah, e_hw, u_hw, e_cl, u_cl]

theorem EM_parse_17 (num wm sp ah td hw cl fw : Nat) (hn : num ≤ 9) (hwm : wm ≤ 3)
    (hsp : sp ≤ 15) (hah : ah ≤ 2) (htd : bad_tow td = false) (hhw : 1 ≤ hw ∧ hw ≤ 3)
    (hcl : 1 ≤ cl ∧ cl ≤ 2) (hfw : fw ≤ 99) :
    MapsProtoParseFrame (some (envelope num [69, 77, wm + 48,
        if sp < 10 then sp + 48 else sp + 55, ah + 48, td, hw + 48, cl + 48,
        fw / 10 + 48, fw % 10 + 48, 80, 48])) 17
      = .ok { num := num, type := 0, cmd := [69, 77, 0, 0], size := 9,
              data := some (Payload.EM ⟨wm, sp, ah, td, hw, cl, fw, 80, 0⟩) } := by
  have hfind : MapsProtoFindCmd (some [69, 77])
      = some ⟨0b111, 0b001, [69, 77], MapsProtoPrepareEMData, MapsProtoPrepareNoData⟩ := rfl
  obtain ⟨hx1, hx2⟩ := hex_byte_roundtrip sp
  have hx1 := hx1 hsp
  have hx2 := hx2 hsp
  have hd1 := isdigit_digit (fw / 10) (by omega)
  have hd2 := isdigit_digit (fw % 10) (by omega)
  have hv := two_digits_digits fw hfw
  have e_wm := isdigit_digit wm (by omega)
  have g_wm : ¬ (((wm + 48 : Nat) : Int) - 48 > 3) := by omega
  have u_wm : u8 (((wm + 48 : Nat) : Int) - 48) = wm := u8_digit wm (by omega)
  have e_ah := isdigit_digit ah (by omega)
  have g_ah : ¬ (((ah + 48 : Nat) : Int) - 48 > 2) := by omega
  have u_ah : u8 (((ah + 48 : Nat) : Int) - 48) = ah := u8_digit ah (by omega)
  have e_hw : ¬ (hw + 48 ≠ 49 ∧ hw + 48 ≠ 50 ∧ hw + 48 ≠ 51) := by omega
  have u_hw : u8 (((hw + 48 : Nat) : Int) - 48) = hw := u8_digit hw (by omega)
  have e_cl : ¬ (cl + 48 ≠ 49 ∧ cl + 48 ≠ 50) := by omega
  have u_cl : u8 (((cl + 48 : Nat) : Int) - 48) = cl := u8_digit cl (by omega)
  rw [parse_envelope num 69 77 [_, _, _, _, _, _, _, _, _, _] 17 hn rfl (by decide)
    (by decide)]
  generalize (if sp < 10 then sp + 48 else sp + 55) = x5 at hx1 hx2 ⊢
  generalize wm + 48 = wb at e_wm g_wm u_wm ⊢
  generalize ah + 48 = ab at e_ah g_ah u_ah ⊢
  generalize hw + 48 = hb at e_hw u_hw ⊢
  generalize cl + 48 = cb at e_cl u_cl ⊢
  generalize fw / 10 + 48 = f1 at hd1 hv ⊢
  generalize fw % 10 + 48 = f2 at hd2 hv ⊢
  simp [cstr, hfind, MapsProtoPrepareEMData, rd, envelope, hx1, hx2, hd1, hd2, hv, htd, e_wm,
    g_wm, u_wm, e_ah, g_ah, u_ah, e_hw, u_hw, e_cl, u_cl]

/-- C19 as stated fails. With rcvr_direction `N` the builder accepts the record
(3, 8, 2, `M`, 1, 2, 31, `N`) and returns the 17-byte frame
`01 32 45 4D 33 38 32 4D 31 32 33 31 4E 30 33 31 0D`, which the parser rejects
with ENOEXEC (the decoder tests `frame[12] != 'P' && frame[13] != 'N'`). With
rcvr_direction `P` and tow_detection 0 the frame parses, but tow_detection is
read back as `'0'` (48), not 0. -/
theorem EM_request_N_rejected_tow_zero_changed :
    (MapsProtoCreateEMRequest 2 (some ⟨3, 8, 2, 77, 1, 2, 31, 78, 0⟩)
      = .ok ⟨17, [0x01, 0x32, 0x45, 0x4D, 0x33, 0x38, 0x32, 0x4D, 0x31, 0x32, 0x33, 0x31, 0x4E,
          0x30, 0x33, 0x31, 0x0D]⟩ ∧
     MapsProtoParseFrame (some [0x01, 0x32, 0x45, 0x4D, 0x33, 0x38, 0x32, 0x4D, 0x31, 0x32, 0x33,
        0x31, 0x4E, 0x30, 0x33, 0x31, 0x0D]) 17 = .error .ENOEXEC) ∧
    (MapsProtoCreateEMRequest 2 (some ⟨3, 8, 2, 0, 1, 2, 31, 80, 0⟩)
      = .ok ⟨17, [0x01, 0x32, 0x45, 0x4D, 0x33, 0x38, 0x32, 0x30, 0x31, 0x32, 0x33, 0x31, 0x50,
          0x30, 0x35, 0x32, 0x0D]⟩ ∧
     MapsProtoParseFrame (some [0x01, 0x32, 0x45, 0x4D, 0x33, 0x38, 0x32, 0x30, 0x31, 0x32, 0x33,
        0x31, 0x50, 0x30, 0x35, 0x32, 0x0D]) 17
      = .ok { num := 2, type := 0, cmd := [69, 77, 0, 0], size := 9,
              data := some (Payload.EM ⟨3, 8, 2, 48, 1, 2, 31, 80, 0⟩) }) := by
  decide

/-- C19 amended: when `MapsProtoCreateEMRequest` accepts `num` and the EM
record (so `num <= 9`): with rcvr_direction 0 the frame has size 16 and parses
to Request, EM, with work_mode, axis_ispeed, axis_height, hw_failure,
se_cleaning and firmware_ver of the record (tow_detection and rcvr_direction
0); with rcvr_direction `P` or `N` the frame has size 17; with rcvr_direction
`P` it parses to Request, EM, with those six fields, rcvr_direction `P` and
the tow_detection of the record, 0 read back as `'0'`. -/
theorem EM_request_roundtrip (num : Nat) (d : tMAPS_PROTO_EM_DATA) (f : tMAPS_PROTO_RAW_FRAME)
    (h : MapsProtoCreateEMRequest num (some d) = .ok f) :
    num ≤ 9 ∧
    (d.rcvr_direction = 0 → f.size = 16 ∧
      MapsProtoParseFrame (some f.data) f.size
        = .ok { num := num, type := 0, cmd := [69, 77, 0, 0], size := 9,
                data := some (Payload.EM ⟨d.work_mode, d.axis_ispeed, d.axis_height, 0,
                  d.hw_failure, d.se_cleaning, d.firmware_ver, 0, 0⟩) }) ∧
    (d.rcvr_direction = 80 ∨ d.rcvr_direction = 78 → f.size = 17) ∧
    (d.rcvr_direction = 80 →
      MapsProtoParseFrame (some f.data) f.size
        = .ok { num := num, type := 0, cmd := [69, 77, 0, 0], size := 9,
                data := some (Payload.EM ⟨d.work_mode, d.axis_ispeed, d.axis_height,
                  if d.tow_detection = 0 then 48 else d.tow_detection,
                  d.hw_failure, d.se_cleaning, d.firmware_ver, 80, 0⟩) }) := by
  have hfind : MapsProtoFindCmd (some [69, 77])
      = some ⟨0b111, 0b001, [69, 77], MapsProtoPrepareEMData, MapsProtoPrepareNoData⟩ := rfl
  unfold MapsProtoCreateEMRequest at h
  simp only [] at h
  generalize hx5 : (if d.axis_ispeed < 10 then d.axis_ispeed + 48 else d.axis_ispeed + 55) = x5
    at h
  generalize (if d.tow_detection = 0 then 48 else d.tow_detection) = td at h ⊢
  generalize d.work_mode = wm at h ⊢
  generalize d.axis_height = ah at h ⊢
  generalize d.axis_ispeed = sp at h hx5 ⊢
  generalize d.hw_failure = hw at h ⊢
  generalize d.se_cleaning = cl at h ⊢
  generalize d.firmware_ver = fw at h ⊢
  generalize d.rcvr_direction = rcv at h ⊢
  split_ifs at h with h1 h2 h3 h4 h5 h6 h7 h8 h9
  all_goals rw [CreateFrame_eq _ _ _ _ _ (by decide)] at h
  all_goals
    have hn : num ≤ 9 := by
      by_contra hcon
      have : num > 9 := by omega
      simp [this] at h
  all_goals have hn' : ¬ (num > 9) := by omega
  all_goals have htd : bad_tow td = false := by simpa using h4
  all_goals rw [sprintf_u2 fw (by omega)] at h
  all_goals
    simp [hn', hfind, dir_tag, src_bytes_take, K_MAPS_PROTO_REQ_TYPE, cinfo_suppdata, memcpy] at h
  all_goals subst h
  all_goals subst hx5
  · refine ⟨hn, fun _ => ⟨rfl, ?_⟩, fun hc => absurd h9 (by omega), fun hc => absurd h9 (by omega)⟩
    exact EM_parse_16 num wm sp ah hw cl fw hn (by omega) (by omega) (by omega) (by omega)
      (by omega) (by omega)
  · refine ⟨hn, fun hc => absurd hc h9, fun _ => rfl, fun hc => ?_⟩
    subst hc
    exact EM_parse_17 num wm sp ah td hw cl fw hn (by omega) (by omega) (by omega) htd
      (by omega) (by omega) (by omega)

theorem EM_request_roundtrip_witness :
    MapsProtoCreateEMRequest 2 (some ⟨3, 8, 2, 77, 1, 2, 31, 80, 0⟩)
      = .ok ⟨17, [1, 50, 69, 77, 51, 56, 50, 77, 49, 50, 51, 49, 80, 48, 50, 63, 13]⟩ ∧
    ((2 : Nat) ≤ 9 ∧
      (⟨17, [1, 50, 69, 77, 51, 56, 50, 77, 49, 50, 51, 49, 80, 48, 50, 63, 13]⟩ :
        tMAPS_PROTO_RAW_FRAME).size = 17 ∧
      MapsProtoParseFrame
          (some [1, 50, 69, 77, 51, 56, 50, 77, 49, 50, 51, 49, 80, 48, 50, 63, 13]) 17
        = .ok { num := 2, type := 0, cmd := [69, 77, 0, 0], size := 9,
                data := some (Payload.EM ⟨3, 8, 2, 77, 1, 2, 31, 80, 0⟩) }) :=
  ⟨by decide,
    (EM_request_roundtrip 2 ⟨3, 8, 2, 77, 1, 2, 31, 80, 0⟩
      ⟨17, [1, 50, 69, 77, 51, 56, 50, 77, 49, 50, 51, 49, 80, 48, 50, 63, 13]⟩ (by decide)).1,
    (EM_request_roundtrip 2 ⟨3, 8, 2, 77, 1, 2, 31, 80, 0⟩
      ⟨17, [1, 50, 69, 77, 51, 56, 50, 77, 49, 50, 51, 49, 80, 48, 50, 63, 13]⟩ (by decide)).2.2.1
      (Or.inl rfl),
    (EM_request_roundtrip 2 ⟨3, 8, 2, 77, 1, 2, 31, 80, 0⟩
      ⟨17, [1, 50, 69, 77, 51, 56, 50, 77, 49, 50, 51, 49, 80, 48, 50, 63, 13]⟩ (by decide)).2.2.2
      rfl⟩

/-! ## C20: end of vehicle request -/

theorem EndVeh_parse_11 (num b1 p q : Nat) (hn : num ≤ 9) (hb : b1 = 65 ∨ b1 = 82)
    (hp : p ≤ 99) (hq : q ≤ 99) :
    MapsProtoParseFrame (some (envelope num [70, b1, p / 10 + 48, p % 10 + 48,
        q / 10 + 48, q % 10 + 48])) 11
      = .ok { num := num, type := 0,
              cmd := if b1 = 65 then [70, 65, 83, 0] else [70, 82, 0, 0], size := 10,
              data := some (Payload.END_VEHICLE ⟨3, 0, p, q, 0, 0, 0, 0, 0, 0⟩) } := by
  have hfas : MapsProtoFindCmd (some [70, 65, 83])
      = some ⟨0b110, 0b001, [70, 65, 83], MapsProtoPrepareEndVehData, MapsProtoPrepareNoData⟩ :=
    rfl
  have hfr : MapsProtoFindCmd (some [70, 82])
      = some ⟨0b110, 0b001, [70, 82], MapsProtoPrepareEndVehData, MapsProtoPrepareNoData⟩ := rfl
  have d1 := isdigit_digit (p / 10) (by omega)
  have d2 := isdigit_digit (p % 10) (by omega)
  have d3 := isdigit_digit (q / 10) (by omega)
  have d4 := isdigit_digit (q % 10) (by omega)
  have v1 := two_digits_digits p hp
  have v2 := two_digits_digits q hq
  rw [parse_envelope num 70 b1 [_, _, _, _] 11 hn rfl (by decide) (by decide)]
  generalize p / 10 + 48 = a1 at d1 v1 ⊢
  generalize p % 10 + 48 = a2 at d2 v1 ⊢
  generalize q / 10 + 48 = a3 at d3 v2 ⊢
  generalize q % 10 + 48 = a4 at d4 v2 ⊢
  rcases hb with rfl | rfl <;>
    simp [cstr, hfas, hfr, MapsProtoPrepareEndVehData, rd, scan, envelope, d1, d2, d3, d4, v1,
      v2]

theorem EndVeh_parse_12 (num b1 p q vc : Nat) (hn : num ≤ 9) (hb : b1 = 65 ∨ b1 = 82)
    (hp : p ≤ 99) (hq : q ≤ 99) (hvc : ¬ (vc ≠ 77 ∧ vc ≠ 88 ∧ (vc < 65 ∨ vc > 70))) :
    MapsProtoParseFrame (some (envelope num [70, b1, p / 10 + 48, p % 10 + 48,
        q / 10 + 48, q % 10 + 48, vc])) 12
      = .ok { num := num, type := 0,
              cmd := if b1 = 65 then [70, 65, 83, 0] else [70, 82, 0, 0], size := 10,
              data := some (Payload.END_VEHICLE ⟨1, vc, p, q, 0, 0, 0, 0, 0, 0⟩) } := by
  have hfas : MapsProtoFindCmd (some [70, 65, 83])
      = some ⟨0b110, 0b001, [70, 65, 83], MapsProtoPrepareEndVehData, MapsProtoPrepareNoData⟩ :=
    rfl
  have hfr : MapsProtoFindCmd (some [70, 82])
      = some ⟨0b110, 0b001, [70, 82], MapsProtoPrepareEndVehData, MapsProtoPrepareNoData⟩ := rfl
  have d1 := isdigit_digit (p / 10) (by omega)
  have d2 := isdigit_digit (p % 10) (by omega)
  have d3 := isdigit_digit (q / 10) (by omega)
  have d4 := isdigit_digit (q % 10) (by omega)
  have v1 := two_digits_digits p hp
  have v2 := two_digits_digits q hq
  rw [parse_envelope num 70 b1 [_, _, _, _, _] 12 hn rfl (by decide) (by decide)]
  generalize p / 10 + 48 = a1 at d1 v1 ⊢
  generalize p % 10 + 48 = a2 at d2 v1 ⊢
  generalize q / 10 + 48 = a3 at d3 v2 ⊢
  generalize q % 10 + 48 = a4 at d4 v2 ⊢
  rcases hb with rfl | rfl <;>
    simp [cstr, hfas, hfr, MapsProtoPrepareEndVehData, rd, scan, envelope, d1, d2, d3, d4, v1,
      v2, hvc]

theorem EndVeh_parse_24 (num b1 p q p10 q10 p16 q16 p22 q22 vc : Nat) (hn : num ≤ 9)
    (hb : b1 = 65 ∨ b1 = 82) (hp : p ≤ 99) (hq : q ≤ 99) (hp10 : p10 ≤ 99) (hq10 : q10 ≤ 99)
    (hp16 : p16 ≤ 99) (hq16 : q16 ≤ 99) (hp22 : p22 ≤ 99) (hq22 : q22 ≤ 99)
    (hvc : ¬ (vc ≠ 77 ∧ vc ≠ 88 ∧ (vc < 65 ∨ vc > 70))) :
    MapsProtoParseFrame (some (envelope num [70, b1, p / 10 + 48, p % 10 + 48,
        q / 10 + 48, q % 10 + 48, p10 / 10 + 48, p10 % 10 + 48, q10 / 10 + 48, q10 % 10 + 48,
        p16 / 10 + 48, p16 % 10 + 48, q16 / 10 + 48, q16 % 10 + 48,
        p22 / 10 + 48, p22 % 10 + 48, q22 / 10 + 48, q22 % 10 + 48, vc])) 24
      = .ok { num := num, type := 0,
              cmd := if b1 = 65 then [70, 65, 83, 0] else [70, 82, 0, 0], size := 10,
              data := some (Payload.END_VEHICLE
                ⟨2, vc, p, q, p10, q10, p16, q16, p22, q22⟩) } := by
  have hfas : MapsProtoFindCmd (some [70, 65, 83])
      = some ⟨0b110, 0b001, [70, 65, 83], MapsProtoPrepareEndVehData, MapsProtoPrepareNoData⟩ :=
    rfl
  have hfr : MapsProtoFindCmd (some [70, 82])
      = some ⟨0b110, 0b001, [70, 82], MapsProtoPrepareEndVehData, MapsProtoPrepareNoData⟩ := rfl
  have d1 := isdigit_digit (p / 10) (by omega)
  have d2 := isdigit_digit (p % 10) (by omega)
  have d3 := isdigit_digit (q / 10) (by omega)
  have d4 := isdigit_digit (q % 10) (by omega)
  have d5 := isdigit_digit (p10 / 10) (by omega)
  have d6 := isdigit_digit (p10 % 10) (by omega)
  have d7 := isdigit_digit (q10 / 10) (by omega)
  have d8 := isdigit_digit (q10 % 10) (by omega)
  have d9 := isdigit_digit (p16 / 10) (by omega)
  have d10 := isdigit_digit (p16 % 10) (by omega)
  have d11 := isdigit_digit (q16 / 10) (by omega)
  have d12 := isdigit_digit (q16 % 10) (by omega)
  have d13 := isdigit_digit (p22 / 10) (by omega)
  have d14 := isdigit_digit (p22 % 10) (by omega)
  have d15 := isdigit_digit (q22 / 10) (by omega)
  have d16 := isdigit_digit (q22 % 10) (by omega)
  have v1 := two_digits_digits p hp
  have v2 := two_digits_digits q hq
  have v3 := two_digits_digits p10 hp10
  have v4 := two_digits_digits q10 hq10
  have v5 := two_digits_digits p16 hp16
  have v6 := two_digits_digits q16 hq16
  have v7 := two_digits_digits p22 hp22
  have v8 := two_digits_digits q22 hq22
  rw [parse_envelope num 70 b1 [_, _, _, _, _, _, _, _, _, _, _, _, _, _, _, _, _] 24 hn rfl
    (by decide) (by decide)]
  generalize p / 10 + 48 = a1 at d1 v1 ⊢
  generalize p % 10 + 48 = a2 at d2 v1 ⊢
  generalize q / 10 + 48 = a3 at d3 v2 ⊢
  generalize q % 10 + 48 = a4 at d4 v2 ⊢
  generalize p10 / 10 + 48 = a5 at d5 v3 ⊢
  generalize p10 % 10 + 48 = a6 at d6 v3 ⊢
  generalize q10 / 10 + 48 = a7 at d7 v4 ⊢
  generalize q10 % 10 + 48 = a8 at d8 v4 ⊢
  generalize p16 / 10 + 48 = a9 at d9 v5 ⊢
  generalize p16 % 10 + 48 = a10 at d10 v5 ⊢
  generalize q16 / 10 + 48 = a11 at d11 v6 ⊢
  generalize q16 % 10 + 48 = a12 at d12 v6 ⊢
  generalize p22 / 10 + 48 = a13 at d13 v7 ⊢
  generalize p22 % 10 + 48 = a14 at d14 v7 ⊢
  generalize q22 / 10 + 48 = a15 at d15 v8 ⊢
  generalize q22 % 10 + 48 = a16 at d16 v8 ⊢
  rcases hb with rfl | rfl <;>
    simp [cstr, hfas, hfr, MapsProtoPrepareEndVehData, rd, scan, envelope, d1, d2, d3, d4, d5,
      d6, d7, d8, d9, d10, d11, d12, d13, d14, d15, d16, v1, v2, v3, v4, v5, v6, v7, v8, hvc]

/-- What a frame returned by `MapsProtoCreateEndVehicleRequest` for a record with
axle counts at most 99 looks like: `num <= 9`, the size is 11, 24 or 12 by
`smb`, and the frame parses to the end-of-vehicle record built from the input.
That the builder does return a frame is shown separately. -/
theorem EndVehicle_request_parse_of_ok (num type : Nat) (d : tMAPS_PROTO_END_VEHICLE)
    (f : tMAPS_PROTO_RAW_FRAME)
    (h : MapsProtoCreateEndVehicleRequest num type (some d) = .ok f)
    (hp : d.paxes ≤ 99) (hq : d.naxes ≤ 99) (hp10 : d.paxes10 ≤ 99) (hq10 : d.naxes10 ≤ 99)
    (hp16 : d.paxes16 ≤ 99) (hq16 : d.naxes16 ≤ 99) (hp22 : d.paxes22 ≤ 99)
    (hq22 : d.naxes22 ≤ 99) :
    num ≤ 9 ∧
    f.size = (if d.smb = 3 then 11 else if d.smb = 2 then 24 else 12) ∧
    MapsProtoParseFrame (some f.data) f.size
      = .ok { num := num, type := 0,
              cmd := if type = 0 then [70, 65, 83, 0] else [70, 82, 0, 0], size := 10,
              data := some (Payload.END_VEHICLE
                (if d.smb = 3 then ⟨3, 0, d.paxes, d.naxes, 0, 0, 0, 0, 0, 0⟩
                 else if d.smb = 2 then
                   ⟨2, d.vclass, d.paxes, d.naxes, d.paxes10, d.naxes10, d.paxes16, d.naxes16,
                     d.paxes22, d.naxes22⟩
                 else ⟨1, d.vclass, d.paxes, d.naxes, 0, 0, 0, 0, 0, 0⟩)) } := by
  have hfa : MapsProtoFindCmd (some [70, 65])
      = some ⟨0b111, 0b111, [70, 65], MapsProtoPrepareNoData, MapsProtoPrepareNoData⟩ := rfl
  have hfr : MapsProtoFindCmd (some [70, 82])
      = some ⟨0b110, 0b001, [70, 82], MapsProtoPrepareEndVehData, MapsProtoPrepareNoData⟩ := rfl
  obtain ⟨b1, hb, hcmd, hfind, hres⟩ : ∃ b1, (b1 = 65 ∨ b1 = 82) ∧
      [[70, 65], [70, 82]].getD (if type ≠ 0 then 1 else 0) [] = [70, b1] ∧
      (MapsProtoFindCmd (some [70, b1])).isSome = true ∧
      (if b1 = 65 then [70, 65, 83, 0] else [70, 82, 0, 0])
        = (if type = 0 then [70, 65, 83, 0] else [70, 82, 0, 0]) := by
    by_cases ht : type = 0
    · exact ⟨65, Or.inl rfl, by simp [ht], by rw [hfa]; rfl, by simp [ht]⟩
    · exact ⟨82, Or.inr rfl, by simp [ht], by rw [hfr]; rfl, by simp [ht]⟩
  unfold MapsProtoCreateEndVehicleRequest at h
  simp only [hcmd, gt_iff_lt, Nat.not_lt.2 hp, Nat.not_lt.2 hq, Nat.not_lt.2 hp10,
    Nat.not_lt.2 hq10, Nat.not_lt.2 hp16, Nat.not_lt.2 hq16, Nat.not_lt.2 hp22,
    Nat.not_lt.2 hq22, if_false, sprintf_u2 _ hp, sprintf_u2 _ hq, sprintf_u2 _ hp10,
    sprintf_u2 _ hq10, sprintf_u2 _ hp16, sprintf_u2 _ hq16, sprintf_u2 _ hp22,
    sprintf_u2 _ hq22] at h
  rw [← hres]
  generalize d.vclass = vc at h ⊢
  generalize d.smb = smb at h ⊢
  generalize d.paxes = p at h hp ⊢
  generalize d.naxes = q at h hq ⊢
  generalize d.paxes10 = p10 at h hp10 ⊢
  generalize d.naxes10 = q10 at h hq10 ⊢
  generalize d.paxes16 = p16 at h hp16 ⊢
  generalize d.naxes16 = q16 at h hq16 ⊢
  generalize d.paxes22 = p22 at h hp22 ⊢
  generalize d.naxes22 = q22 at h hq22 ⊢
  have hisn : ¬ ((MapsProtoFindCmd (some [70, b1])).isNone = true) := by
    cases hc : MapsProtoFindCmd (some [70, b1]) with
    | none => rw [hc] at hfind; exact absurd hfind (by decide)
    | some c => simp
  split_ifs at h with h1 h2 h3 h4
  all_goals rw [CreateFrame_eq _ _ _ _ _ (by decide)] at h
  all_goals
    have hn : num ≤ 9 := by
      by_contra hcon
      have : num > 9 := by omega
      simp [this] at h
  all_goals have hn' : ¬ (num > 9) := by omega
  all_goals
    simp [hn', hisn, dir_tag, src_bytes_take, K_MAPS_PROTO_REQ_TYPE, memcpy] at h
  all_goals subst h
  · have e3 : ¬ (smb = 3) := by omega
    have e2 : ¬ (smb = 2) := by omega
    refine ⟨hn, by simp [e3, e2], ?_⟩
    simp only [e3, e2, if_false]
    have hvc : ¬ (vc ≠ 77 ∧ vc ≠ 88 ∧ (vc < 65 ∨ vc > 70)) := by
      intro hc
      exact h2 ⟨e3, hc⟩
    rcases hb with rfl | rfl
    · exact EndVeh_parse_12 num 65 p q vc hn (Or.inl rfl) hp hq hvc
    · exact EndVeh_parse_12 num 82 p q vc hn (Or.inr rfl) hp hq hvc
  · have e3 : ¬ (smb = 3) := by omega
    refine ⟨hn, by simp [e3, h4], ?_⟩
    simp only [e3, h4, if_false, if_true]
    have hvc : ¬ (vc ≠ 77 ∧ vc ≠ 88 ∧ (vc < 65 ∨ vc > 70)) := by
      intro hc
      exact h2 ⟨e3, hc⟩
    rcases hb with rfl | rfl
    · exact EndVeh_parse_24 num 65 p q p10 q10 p16 q16 p22 q22 vc hn (Or.inl rfl) hp hq hp10
        hq10 hp16 hq16 hp22 hq22 hvc
    · exact EndVeh_parse_24 num 82 p q p10 q10 p16 q16 p22 q22 vc hn (Or.inr rfl) hp hq hp10
        hq10 hp16 hq16 hp22 hq22 hvc
  · have e3 : smb = 3 := by omega
    refine ⟨hn, by simp [e3], ?_⟩
    simp only [e3, if_true]
    rcases hb with rfl | rfl
    · exact EndVeh_parse_11 num 65 p q hn (Or.inl rfl) hp hq
    · exact EndVeh_parse_11 num 82 p q hn (Or.inr rfl) hp hq

/-- C20: for every `num <= 9` and end-of-vehicle record with `smb <= 3`, a
vehicle class `M`, `X` or `A`..`F` unless `smb = 3`, and all axle counts at
most 99, `MapsProtoCreateEndVehicleRequest` returns a frame; the frame has size
11 for smb 3, 24 for smb 2 and 12 for smb 0 or 1, and it parses to Request, cmd
`FAS` for `type = 0` and `FR` otherwise, with paxes and naxes of the record,
smb 3, 2 or 1 respectively, the vclass of the record for sizes 12 and 24 (0 for
size 11), and for size 24 the six counts paxes10..naxes22 of the record (0 for
the other sizes). The conditions on `num`, `smb` and the class are exactly
those under which the builder returns a frame. -/
theorem EndVehicle_request_roundtrip (num type : Nat) (d : tMAPS_PROTO_END_VEHICLE) :
    (num ≤ 9 → d.smb ≤ 3 →
      (d.smb ≠ 3 → d.vclass = 77 ∨ d.vclass = 88 ∨ (65 ≤ d.vclass ∧ d.vclass ≤ 70)) →
      d.paxes ≤ 99 → d.naxes ≤ 99 → d.paxes10 ≤ 99 → d.naxes10 ≤ 99 →
      d.paxes16 ≤ 99 → d.naxes16 ≤ 99 → d.paxes22 ≤ 99 → d.naxes22 ≤ 99 →
      ∃ f, MapsProtoCreateEndVehicleRequest num type (some d) = .ok f ∧
        f.size = (if d.smb = 3 then 11 else if d.smb = 2 then 24 else 12) ∧
        MapsProtoParseFrame (some f.data) f.size
          = .ok { num := num, type := 0,
                  cmd := if type = 0 then [70, 65, 83, 0] else [70, 82, 0, 0], size := 10,
                  data := some (Payload.END_VEHICLE
                    (if d.smb = 3 then ⟨3, 0, d.paxes, d.naxes, 0, 0, 0, 0, 0, 0⟩
                     else if d.smb = 2 then
                       ⟨2, d.vclass, d.paxes, d.naxes, d.paxes10, d.naxes10, d.paxes16,
                         d.naxes16, d.paxes22, d.naxes22⟩
                     else ⟨1, d.vclass, d.paxes, d.naxes, 0, 0, 0, 0, 0, 0⟩)) }) ∧
    (∀ f, MapsProtoCreateEndVehicleRequest num type (some d) = .ok f →
      num ≤ 9 ∧ d.smb ≤ 3 ∧
      (d.smb ≠ 3 → d.vclass = 77 ∨ d.vclass = 88 ∨ (65 ≤ d.vclass ∧ d.vclass ≤ 70))) := by
  have hfa : MapsProtoFindCmd (some [70, 65])
      = some ⟨0b111, 0b111, [70, 65], MapsProtoPrepareNoData, MapsProtoPrepareNoData⟩ := rfl
  have hfr : MapsProtoFindCmd (some [70, 82])
      = some ⟨0b110, 0b001, [70, 82], MapsProtoPrepareEndVehData, MapsProtoPrepareNoData⟩ := rfl
  obtain ⟨b1, hcmd, hisn⟩ : ∃ b1,
      [[70, 65], [70, 82]].getD (if type ≠ 0 then 1 else 0) [] = [70, b1] ∧
      ¬ ((MapsProtoFindCmd (some [70, b1])).isNone = true) := by
    by_cases ht : type = 0
    · exact ⟨65, by simp [ht], by rw [hfa]; simp⟩
    · exact ⟨82, by simp [ht], by rw [hfr]; simp⟩
  constructor
  · intro hn hsmb hvc hp hq hp10 hq10 hp16 hq16 hp22 hq22
    have hex : ∃ f, MapsProtoCreateEndVehicleRequest num type (some d) = .ok f := by
      have h1 : ¬ (d.smb > 3) := by omega
      have h2 : ¬ (d.smb ≠ 3 ∧
          (d.vclass ≠ 77 ∧ d.vclass ≠ 88 ∧ (d.vclass < 65 ∨ d.vclass > 70))) := by
        rintro ⟨a, b⟩
        have := hvc a
        omega
      have h7 : ¬ (num > 9) := by omega
      unfold MapsProtoCreateEndVehicleRequest
      simp only [if_neg h1, if_neg h2, hcmd]
      by_cases c1 : d.smb ≤ 1
      · rw [if_pos c1, CreateFrame_eq _ _ _ _ _ (by decide)]
        simp [h7, hisn, K_MAPS_PROTO_REQ_TYPE]
      rw [if_neg c1]
      by_cases c2 : d.smb = 2
      · rw [if_pos c2, CreateFrame_eq _ _ _ _ _ (by decide)]
        simp [h7, hisn, K_MAPS_PROTO_REQ_TYPE]
      · rw [if_neg c2, CreateFrame_eq _ _ _ _ _ (by decide)]
        simp [h7, hisn, K_MAPS_PROTO_REQ_TYPE]
    obtain ⟨f, hf⟩ := hex
    have hr := EndVehicle_request_parse_of_ok num type d f hf hp hq hp10 hq10 hp16 hq16
      hp22 hq22
    exact ⟨f, hf, hr.2.1, hr.2.2⟩
  · intro f h
    unfold MapsProtoCreateEndVehicleRequest at h
    simp only [hcmd] at h
    by_cases h1 : d.smb > 3
    · rw [if_pos h1] at h
      cases h
    rw [if_neg h1] at h
    by_cases h2 : d.smb ≠ 3 ∧
        (d.vclass ≠ 77 ∧ d.vclass ≠ 88 ∧ (d.vclass < 65 ∨ d.vclass > 70))
    · rw [if_pos h2] at h
      cases h
    rw [if_neg h2] at h
    have hn : num ≤ 9 := by
      by_contra hcon
      have h9 : num > 9 := by omega
      by_cases c1 : d.smb ≤ 1
      · rw [if_pos c1, CreateFrame_eq _ _ _ _ _ (by decide)] at h
        simp [h9] at h
      rw [if_neg c1] at h
      by_cases c2 : d.smb = 2
      · rw [if_pos c2, CreateFrame_eq _ _ _ _ _ (by decide)] at h
        simp [h9] at h
      · rw [if_neg c2, CreateFrame_eq _ _ _ _ _ (by decide)] at h
        simp [h9] at h
    refine ⟨hn, by omega, ?_⟩
    intro a
    by_contra hc
    apply h2
    refine ⟨a, ?_⟩
    omega

theorem EndVehicle_request_roundtrip_witness :
    ((4 : Nat) ≤ 9 ∧ (2 : Nat) ≤ 3 ∧
      ((2 : Nat) ≠ 3 → (67 : Nat) = 77 ∨ (67 : Nat) = 88 ∨ ((65 : Nat) ≤ 67 ∧ (67 : Nat) ≤ 70)) ∧
      (9 : Nat) ≤ 99 ∧ (9 : Nat) ≤ 99 ∧ (1 : Nat) ≤ 99 ∧ (2 : Nat) ≤ 99 ∧ (3 : Nat) ≤ 99 ∧
      (4 : Nat) ≤ 99 ∧ (5 : Nat) ≤ 99 ∧ (99 : Nat) ≤ 99 ∧
      ∃ f, MapsProtoCreateEndVehicleRequest 4 0 (some ⟨2, 67, 9, 9, 1, 2, 3, 4, 5, 99⟩)
          = .ok f ∧
        f.size = (if (2 : Nat) = 3 then 11 else if (2 : Nat) = 2 then 24 else 12) ∧
        MapsProtoParseFrame (some f.data) f.size
          = .ok { num := 4, type := 0,
                  cmd := if (0 : Nat) = 0 then [70, 65, 83, 0] else [70, 82, 0, 0], size := 10,
                  data := some (Payload.END_VEHICLE
                    (if (2 : Nat) = 3 then ⟨3, 0, 9, 9, 0, 0, 0, 0, 0, 0⟩
                     else if (2 : Nat) = 2 then ⟨2, 67, 9, 9, 1, 2, 3, 4, 5, 99⟩
                     else ⟨1, 67, 9, 9, 0, 0, 0, 0, 0, 0⟩)) }) ∧
    (MapsProtoCreateEndVehicleRequest 4 0 (some ⟨2, 67, 9, 9, 1, 2, 3, 4, 5, 99⟩)
        = .ok ⟨24, [1, 52, 70, 65, 48, 57, 48, 57, 48, 49, 48, 50, 48, 51, 48, 52, 48, 53, 57,
          57, 67, 55, 49, 13]⟩ ∧
      (4 : Nat) ≤ 9 ∧ (2 : Nat) ≤ 3 ∧
      ((2 : Nat) ≠ 3 →
        (67 : Nat) = 77 ∨ (67 : Nat) = 88 ∨ ((65 : Nat) ≤ 67 ∧ (67 : Nat) ≤ 70))) :=
  ⟨⟨by decide, by decide, by decide, by decide, by decide, by decide, by decide, by decide,
      by decide, by decide, by decide,
      (EndVehicle_request_roundtrip 4 0 ⟨2, 67, 9, 9, 1, 2, 3, 4, 5, 99⟩).1 (by decide)
        (by decide) (by decide) (by decide) (by decide) (by decide) (by decide) (by decide)
        (by decide) (by decide) (by decide)⟩,
    ⟨by decide,
      (EndVehicle_request_roundtrip 4 0 ⟨2, 67, 9, 9, 1, 2, 3, 4, 5, 99⟩).2
        ⟨24, [1, 52, 70, 65, 48, 57, 48, 57, 48, 49, 48, 50, 48, 51, 48, 52, 48, 53, 57, 57,
          67, 55, 49, 13]⟩ (by decide)⟩⟩

/-! ## C21: IA and RM requests -/

theorem IARM_empty_roundtrip (num c0 c1 : Nat) (hn : num ≤ 9)
    (hc : (c0 = 73 ∧ c1 = 65) ∨ (c0 = 82 ∧ c1 = 77)) :
    MapsProtoCreateEmptyRequest num (some [c0, c1]) = .ok ⟨7, envelope num [c0, c1]⟩ ∧
    MapsProtoParseFrame (some (envelope num [c0, c1])) 7
      = .ok { num := num, type := 0, cmd := [c0, c1, 0, 0], size := 0, data := none } := by
  have hia : MapsProtoFindCmd (some [73, 65])
      = some ⟨0b110, 0b011, [73, 65], MapsProtoPrepareIARMData, MapsProtoPrepareNoData⟩ := rfl
  have hrm : MapsProtoFindCmd (some [82, 77])
      = some ⟨0b110, 0b011, [82, 77], MapsProtoPrepareIARMData, MapsProtoPrepareNoData⟩ := rfl
  rcases hc with ⟨rfl, rfl⟩ | ⟨rfl, rfl⟩
  · refine ⟨empty_request_build num [73, 65] _ hn hia (by decide), ?_⟩
    rw [parse_envelope num 73 65 [] 7 hn rfl (by decide) (by decide)]
    simp [cstr, hia, MapsProtoPrepareIARMData]
  · refine ⟨empty_request_build num [82, 77] _ hn hrm (by decide), ?_⟩
    rw [parse_envelope num 82 77 [] 7 hn rfl (by decide) (by decide)]
    simp [cstr, hrm, MapsProtoPrepareIARMData]

theorem IARM_value_roundtrip (num v c0 c1 : Nat) (hn : num ≤ 9) (hv : v ≤ 99)
    (hc : (c0 = 73 ∧ c1 = 65) ∨ (c0 = 82 ∧ c1 = 77)) :
    MapsProtoCreateFrame K_MAPS_PROTO_REQ_TYPE num (some [c0, c1]) (some (sprintf_u 2 v ++ [0])) 2
      = .ok ⟨9, envelope num [c0, c1, v / 10 + 48, v % 10 + 48]⟩ ∧
    MapsProtoParseFrame (some (envelope num [c0, c1, v / 10 + 48, v % 10 + 48])) 9
      = .ok { num := num, type := 0, cmd := [c0, c1, 0, 0], size := 1,
              data := some (Payload.byte v) } := by
  have hn' : ¬ (num > 9) := by omega
  have hia : MapsProtoFindCmd (some [73, 65])
      = some ⟨0b110, 0b011, [73, 65], MapsProtoPrepareIARMData, MapsProtoPrepareNoData⟩ := rfl
  have hrm : MapsProtoFindCmd (some [82, 77])
      = some ⟨0b110, 0b011, [82, 77], MapsProtoPrepareIARMData, MapsProtoPrepareNoData⟩ := rfl
  have hd1 := isdigit_digit (v / 10) (by omega)
  have hd2 := isdigit_digit (v % 10) (by omega)
  have hval := two_digits_digits v hv
  rcases hc with ⟨rfl, rfl⟩ | ⟨rfl, rfl⟩
  · constructor
    · rw [CreateFrame_eq _ _ _ _ _ (by decide), sprintf_u2 v hv]
      simp [hn', hia, dir_tag, src_bytes_take, K_MAPS_PROTO_REQ_TYPE]
    · rw [parse_envelope num 73 65 [_, _] 9 hn rfl (by decide) (by decide)]
      simp [cstr, hia, MapsProtoPrepareIARMData, rd, envelope, hd1, hd2, hval]
  · constructor
    · rw [CreateFrame_eq _ _ _ _ _ (by decide), sprintf_u2 v hv]
      simp [hn', hrm, dir_tag, src_bytes_take, K_MAPS_PROTO_REQ_TYPE]
    · rw [parse_envelope num 82 77 [_, _] 9 hn rfl (by decide) (by decide)]
      simp [cstr, hrm, MapsProtoPrepareIARMData, rd, envelope, hd1, hd2, hval]

/-- C21: for `num <= 9` and any value `v`, `MapsProtoCreateIARequest` and
`MapsProtoCreateRMRequest` return, when `v = 0`, the 7-byte empty request of
`MapsProtoCreateEmptyRequest`, which parses to Request, IA (resp. RM), with no
payload, and otherwise a 9-byte request whose payload bytes 4 and 5 are the two
decimal digits of `min(v, 99)`, which parses to Request, IA (resp. RM), with
the one-byte payload `min(v, 99)`. -/
theorem IA_RM_request_roundtrip (num v : Nat) (hn : num ≤ 9) :
    (v = 0 →
      (∃ f, MapsProtoCreateIARequest num v = .ok f ∧
        MapsProtoCreateEmptyRequest num (some [73, 65]) = .ok f ∧ f.size = 7 ∧
        MapsProtoParseFrame (some f.data) f.size
          = .ok { num := num, type := 0, cmd := [73, 65, 0, 0], size := 0, data := none }) ∧
      (∃ f, MapsProtoCreateRMRequest num v = .ok f ∧
        MapsProtoCreateEmptyRequest num (some [82, 77]) = .ok f ∧ f.size = 7 ∧
        MapsProtoParseFrame (some f.data) f.size
          = .ok { num := num, type := 0, cmd := [82, 77, 0, 0], size := 0, data := none })) ∧
    (v ≠ 0 →
      (∃ f, MapsProtoCreateIARequest num v = .ok f ∧ f.size = 9 ∧
        (f.data.drop 4).take 2 = [min v 99 / 10 + 48, min v 99 % 10 + 48] ∧
        MapsProtoParseFrame (some f.data) f.size
          = .ok { num := num, type := 0, cmd := [73, 65, 0, 0], size := 1,
                  data := some (Payload.byte (min v 99)) }) ∧
      (∃ f, MapsProtoCreateRMRequest num v = .ok f ∧ f.size = 9 ∧
        (f.data.drop 4).take 2 = [min v 99 / 10 + 48, min v 99 % 10 + 48] ∧
        MapsProtoParseFrame (some f.data) f.size
          = .ok { num := num, type := 0, cmd := [82, 77, 0, 0], size := 1,
                  data := some (Payload.byte (min v 99)) })) := by
  have hclamp : (if v > 99 then 99 else v) = min v 99 := by split_ifs <;> omega
  constructor
  · intro hv
    subst hv
    obtain ⟨b1, p1⟩ := IARM_empty_roundtrip num 73 65 hn (Or.inl ⟨rfl, rfl⟩)
    obtain ⟨b2, p2⟩ := IARM_empty_roundtrip num 82 77 hn (Or.inr ⟨rfl, rfl⟩)
    refine ⟨⟨⟨7, envelope num [73, 65]⟩, ?_, b1, rfl, p1⟩,
      ⟨⟨7, envelope num [82, 77]⟩, ?_, b2, rfl, p2⟩⟩
    · unfold MapsProtoCreateIARequest
      simpa using b1
    · unfold MapsProtoCreateRMRequest
      simpa using b2
  · intro hv
    have hm : min v 99 ≠ 0 := by omega
    obtain ⟨b1, p1⟩ := IARM_value_roundtrip num (min v 99) 73 65 hn (by omega)
      (Or.inl ⟨rfl, rfl⟩)
    obtain ⟨b2, p2⟩ := IARM_value_roundtrip num (min v 99) 82 77 hn (by omega)
      (Or.inr ⟨rfl, rfl⟩)
    refine ⟨⟨⟨9, envelope num [73, 65, min v 99 / 10 + 48, min v 99 % 10 + 48]⟩, ?_, rfl, ?_,
        p1⟩,
      ⟨⟨9, envelope num [82, 77, min v 99 / 10 + 48, min v 99 % 10 + 48]⟩, ?_, rfl, ?_, p2⟩⟩
    · unfold MapsProtoCreateIARequest
      simp only [hclamp, hm, ne_eq, not_false_eq_true, if_true]
      exact b1
    · simp [envelope]
    · unfold MapsProtoCreateRMRequest
      simp only [hclamp, hm, ne_eq, not_false_eq_true, if_true]
      exact b2
    · simp [envelope]

theorem IA_RM_request_roundtrip_witness :
    (8 : Nat) ≤ 9 ∧
    ((∃ f, MapsProtoCreateIARequest 8 0 = .ok f ∧
        MapsProtoCreateEmptyRequest 8 (some [73, 65]) = .ok f ∧ f.size = 7 ∧
        MapsProtoParseFrame (some f.data) f.size
          = .ok { num := 8, type := 0, cmd := [73, 65, 0, 0], size := 0, data := none }) ∧
      (∃ f, MapsProtoCreateRMRequest 8 0 = .ok f ∧
        MapsProtoCreateEmptyRequest 8 (some [82, 77]) = .ok f ∧ f.size = 7 ∧
        MapsProtoParseFrame (some f.data) f.size
          = .ok { num := 8, type := 0, cmd := [82, 77, 0, 0], size := 0, data := none })) ∧
    ((∃ f, MapsProtoCreateIARequest 8 200 = .ok f ∧ f.size = 9 ∧
        (f.data.drop 4).take 2 = [min 200 99 / 10 + 48, min 200 99 % 10 + 48] ∧
        MapsProtoParseFrame (some f.data) f.size
          = .ok { num := 8, type := 0, cmd := [73, 65, 0, 0], size := 1,
                  data := some (Payload.byte (min 200 99)) }) ∧
      (∃ f, MapsProtoCreateRMRequest 8 200 = .ok f ∧ f.size = 9 ∧
        (f.data.drop 4).take 2 = [min 200 99 / 10 + 48, min 200 99 % 10 + 48] ∧
        MapsProtoParseFrame (some f.data) f.size
          = .ok { num := 8, type := 0, cmd := [82, 77, 0, 0], size := 1,
                  data := some (Payload.byte (min 200 99)) })) :=
  ⟨by decide, (IA_RM_request_roundtrip 8 0 (by decide)).1 rfl,
    (IA_RM_request_roundtrip 8 200 (by decide)).2 (by decide)⟩

/-! ## C22: the sample RE frame -/

/-- C22 as stated fails: the 39-byte frame parses, but to a Request (type 0,
its bytes 2..3 are `RE`, not `RS`), and the strings read from it are not
`/32CF-220`, `M/V-` and `30/R`. -/
theorem RE_sample_frame_not_as_claimed :
    ∃ p d, MapsProtoParseFrame (some [0x01, 0x30, 0x52, 0x45, 0x2F, 0x33, 0x32, 0x43, 0x46, 0x2D,
        0x32, 0x32, 0x30, 0x4D, 0x2F, 0x56, 0x2D, 0x33, 0x30, 0x2F, 0x52, 0x2D, 0x30, 0x31, 0x2F,
        0x44, 0x2D, 0x30, 0x33, 0x2D, 0x30, 0x32, 0x2D, 0x32, 0x31, 0x2F, 0x33, 0x31, 0x0D]) 39
        = .ok p ∧
      p.data = some (Payload.RE d) ∧ p.type ≠ K_MAPS_PROTO_RES_TYPE ∧
      cstr d.bmodel ≠ [0x2F, 0x33, 0x32, 0x43, 0x46, 0x2D, 0x32, 0x32, 0x30] ∧
      cstr d.fversion ≠ [0x4D, 0x2F, 0x56, 0x2D] ∧
      cstr d.fnum_rev ≠ [0x33, 0x30, 0x2F, 0x52] := by
  refine ⟨⟨0, 0, [82, 69, 0, 0], 29, some (Payload.RE
      ⟨[51, 50, 67, 70, 45, 50, 50, 48, 77, 0], [86, 45, 51, 48, 0], [82, 45, 48, 49, 0],
        [48, 51, 45, 48, 50, 45, 50, 49, 0]⟩)⟩,
    ⟨[51, 50, 67, 70, 45, 50, 50, 48, 77, 0], [86, 45, 51, 48, 0], [82, 45, 48, 49, 0],
      [48, 51, 45, 48, 50, 45, 50, 49, 0]⟩, ?_, rfl, ?_, ?_, ?_, ?_⟩ <;> decide

/-- C22 amended: the 39-byte frame parses to Request, cmd RE, num 0, with
bmodel `32CF-220M`, fversion `V-30`, fnum_rev `R-01` and ver_date `03-02-21`
(each followed by its NUL). -/
theorem RE_sample_frame_parse :
    MapsProtoParseFrame (some [0x01, 0x30, 0x52, 0x45, 0x2F, 0x33, 0x32, 0x43, 0x46, 0x2D,
        0x32, 0x32, 0x30, 0x4D, 0x2F, 0x56, 0x2D, 0x33, 0x30, 0x2F, 0x52, 0x2D, 0x30, 0x31, 0x2F,
        0x44, 0x2D, 0x30, 0x33, 0x2D, 0x30, 0x32, 0x2D, 0x32, 0x31, 0x2F, 0x33, 0x31, 0x0D]) 39
      = .ok { num := 0, type := K_MAPS_PROTO_REQ_TYPE, cmd := [82, 69, 0, 0], size := 29,
              data := some (Payload.RE
                { bmodel := [51, 50, 67, 70, 45, 50, 50, 48, 77, 0] /- 32CF-220M -/
                  fversion := [86, 45, 51, 48, 0] /- V-30 -/
                  fnum_rev := [82, 45, 48, 49, 0] /- R-01 -/
                  ver_date := [48, 51, 45, 48, 50, 45, 50, 49, 0] /- 03-02-21 -/ }) } := by
  decide

/-! ## C23: RE request -/

theorem RE_parse_39 (num a1 a2 b1 b2 d1 d2 m1 m2 y1 y2 : Nat) (hn : num ≤ 9) :
    MapsProtoParseFrame (some (envelope num [82, 69,
        47, 51, 50, 67, 70, 45, 50, 50, 48, 77, 47, 86, 45, a1, a2, 47, 82, 45, b1, b2,
        47, 68, 45, d1, d2, 45, m1, m2, 45, y1, y2, 47])) 39
      = .ok { num := num, type := 0, cmd := [82, 69, 0, 0], size := 29,
              data := some (Payload.RE
                { bmodel := [51, 50, 67, 70, 45, 50, 50, 48, 77, 0]
                  fversion := [86, 45, a1, a2, 0]
                  fnum_rev := [82, 45, b1, b2, 0]
                  ver_date := [d1, d2, 45, m1, m2, 45, y1, y2, 0] }) } := by
  have hfind : MapsProtoFindCmd (some [82, 69])
      = some ⟨0b111, 0b011, [82, 69], MapsProtoPrepareREData, MapsProtoPrepareNoData⟩ := rfl
  rw [parse_envelope num 82 69 [_, _, _, _, _, _, _, _, _, _, _, _, _, _, _, _, _, _, _, _, _,
    _, _, _, _, _, _, _, _, _, _, _] 39 hn rfl (by decide) (by decide)]
  simp [cstr, hfind, MapsProtoPrepareREData, rdN, envelope, memcpy, K_MAPS_PROTO_BMODEL_LENGTH,
    K_MAPS_PROTO_FVERSION_LENGTH, K_MAPS_PROTO_FNUM_REV_LENGTH, K_MAPS_PROTO_VER_DATE_LENGTH]

/-- C23: for `num <= 9`, non-zero `firm_ver`, `rev_ver` and `date_ver`, with
`date_ver` read as day `date_ver / 10000 % 100`, month `date_ver / 100 % 100`
and year `date_ver % 100`, a month in 1..12 and a day in 1..`days[month-1]`:
`MapsProtoCreateRERequest` returns a 39-byte RE request that parses to bmodel
`32CF-220M`, fversion `V-` and the two digits of `min(firm_ver, 99)`, fnum_rev
`R-` and the two digits of `min(rev_ver, 99)`, ver_date `dd-mm-yy`. When one
of the three arguments is 0 it returns the 7-byte empty RE request, which parses
with no payload. -/
theorem RE_request_roundtrip (num firm_ver rev_ver date_ver : Nat) (hn : num ≤ 9) :
    (firm_ver ≠ 0 → rev_ver ≠ 0 → date_ver ≠ 0 →
      1 ≤ date_ver / 100 % 100 → date_ver / 100 % 100 ≤ 12 →
      1 ≤ date_ver / 10000 % 100 →
      date_ver / 10000 % 100 ≤ days.getD (date_ver / 100 % 100 - 1) 0 →
      ∃ f, MapsProtoCreateRERequest num firm_ver rev_ver date_ver = .ok f ∧ f.size = 39 ∧
        MapsProtoParseFrame (some f.data) f.size
          = .ok { num := num, type := 0, cmd := [82, 69, 0, 0], size := 29,
                  data := some (Payload.RE
                    { bmodel := [51, 50, 67, 70, 45, 50, 50, 48, 77, 0]
                      fversion := [86, 45, min firm_ver 99 / 10 + 48, min firm_ver 99 % 10 + 48, 0]
                      fnum_rev := [82, 45, min rev_ver 99 / 10 + 48, min rev_ver 99 % 10 + 48, 0]
                      ver_date :=
                        [date_ver / 10000 % 100 / 10 + 48, date_ver / 10000 % 100 % 10 + 48, 45,
                         date_ver / 100 % 100 / 10 + 48, date_ver / 100 % 100 % 10 + 48, 45,
                         date_ver % 100 / 10 + 48, date_ver % 100 % 10 + 48, 0] }) }) ∧
    (firm_ver = 0 ∨ rev_ver = 0 ∨ date_ver = 0 →
      ∃ f, MapsProtoCreateRERequest num firm_ver rev_ver date_ver = .ok f ∧ f.size = 7 ∧
        MapsProtoCreateEmptyRequest num (some [82, 69]) = .ok f ∧
        MapsProtoParseFrame (some f.data) f.size
          = .ok { num := num, type := 0, cmd := [82, 69, 0, 0], size := 0, data := none }) := by
  have hn' : ¬ (num > 9) := by omega
  have hfind : MapsProtoFindCmd (some [82, 69])
      = some ⟨0b111, 0b011, [82, 69], MapsProtoPrepareREData, MapsProtoPrepareNoData⟩ := rfl
  constructor
  · intro hf hr hd hm1 hm2 hd1 hd2
    have hcf : (if firm_ver > 99 then 99 else firm_ver) = min firm_ver 99 := by
      split_ifs <;> omega
    have hcr : (if rev_ver > 99 then 99 else rev_ver) = min rev_ver 99 := by
      split_ifs <;> omega
    have e1 : date_ver / 100 / 100 = date_ver / 10000 := by omega
    have hmon : ¬ (date_ver / 100 % 100 = 0 ∨ date_ver / 100 % 100 > 12) := by omega
    have hday : ¬ (date_ver / 10000 % 100 = 0 ∨
        date_ver / 10000 % 100 > days.getD (date_ver / 100 % 100 - 1) 0) := by omega
    refine ⟨⟨39, envelope num [82, 69,
        47, 51, 50, 67, 70, 45, 50, 50, 48, 77, 47, 86, 45,
        min firm_ver 99 / 10 + 48, min firm_ver 99 % 10 + 48, 47, 82, 45,
        min rev_ver 99 / 10 + 48, min rev_ver 99 % 10 + 48, 47, 68, 45,
        date_ver / 10000 % 100 / 10 + 48, date_ver / 10000 % 100 % 10 + 48, 45,
        date_ver / 100 % 100 / 10 + 48, date_ver / 100 % 100 % 10 + 48, 45,
        date_ver % 100 / 10 + 48, date_ver % 100 % 10 + 48, 47]⟩, ?_, rfl, ?_⟩
    · unfold MapsProtoCreateRERequest
      simp only [hf, hr, hd, ne_eq, not_false_eq_true, and_self, if_true, hcf, hcr, e1, hmon,
        hday, if_false]
      rw [CreateFrame_eq _ _ _ _ _ (by decide), sprintf_u2 _ (by omega : min firm_ver 99 ≤ 99),
        sprintf_u2 _ (by omega : min rev_ver 99 ≤ 99),
        sprintf_u2 _ (by omega : date_ver / 10000 % 100 ≤ 99),
        sprintf_u2 _ (by omega : date_ver / 100 % 100 ≤ 99),
        sprintf_u2 _ (by omega : date_ver % 100 ≤ 99)]
      simp [hn', hfind, dir_tag, src_bytes_take, K_MAPS_PROTO_REQ_TYPE]
    · exact RE_parse_39 num _ _ _ _ _ _ _ _ _ _ hn
  · intro h0
    have hcond : ¬ (firm_ver ≠ 0 ∧ rev_ver ≠ 0 ∧ date_ver ≠ 0) := by omega
    have hb := empty_request_build num [82, 69] _ hn hfind (by decide)
    refine ⟨⟨7, envelope num [82, 69]⟩, ?_, rfl, hb, ?_⟩
    · unfold MapsProtoCreateRERequest
      rw [if_neg hcond]
      exact hb
    · simp only []
      rw [parse_envelope num 82 69 [] 7 hn rfl (by decide) (by decide)]
      simp [cstr, hfind, MapsProtoPrepareREData]

theorem RE_request_roundtrip_witness :
    (0 : Nat) ≤ 9 ∧
    (((30 : Nat) ≠ 0 ∧ (1 : Nat) ≠ 0 ∧ (30221 : Nat) ≠ 0 ∧ 1 ≤ 30221 / 100 % 100 ∧
        30221 / 100 % 100 ≤ 12 ∧ 1 ≤ 30221 / 10000 % 100 ∧
        30221 / 10000 % 100 ≤ days.getD (30221 / 100 % 100 - 1) 0) ∧
      ∃ f, MapsProtoCreateRERequest 0 30 1 30221 = .ok f ∧ f.size = 39 ∧
        MapsProtoParseFrame (some f.data) f.size
          = .ok { num := 0, type := 0, cmd := [82, 69, 0, 0], size := 29,
                  data := some (Payload.RE
                    { bmodel := [51, 50, 67, 70, 45, 50, 50, 48, 77, 0]
                      fversion := [86, 45, min 30 99 / 10 + 48, min 30 99 % 10 + 48, 0]
                      fnum_rev := [82, 45, min 1 99 / 10 + 48, min 1 99 % 10 + 48, 0]
                      ver_date :=
                        [30221 / 10000 % 100 / 10 + 48, 30221 / 10000 % 100 % 10 + 48, 45,
                         30221 / 100 % 100 / 10 + 48, 30221 / 100 % 100 % 10 + 48, 45,
                         30221 % 100 / 10 + 48, 30221 % 100 % 10 + 48, 0] }) }) ∧
    (((0 : Nat) = 0 ∨ (1 : Nat) = 0 ∨ (30221 : Nat) = 0) ∧
      ∃ f, MapsProtoCreateRERequest 0 0 1 30221 = .ok f ∧ f.size = 7 ∧
        MapsProtoCreateEmptyRequest 0 (some [82, 69]) = .ok f ∧
        MapsProtoParseFrame (some f.data) f.size
          = .ok { num := 0, type := 0, cmd := [82, 69, 0, 0], size := 0, data := none }) :=
  ⟨by decide,
    ⟨⟨by decide, by decide, by decide, by decide, by decide, by decide, by decide⟩,
      (RE_request_roundtrip 0 30 1 30221 (by decide)).1 (by decide) (by decide) (by decide)
        (by decide) (by decide) (by decide) (by decide)⟩,
    ⟨by decide, (RE_request_roundtrip 0 0 1 30221 (by decide)).2 (Or.inl rfl)⟩⟩

/-! ## C24: RE request, date validation -/

/-- The date tests that `MapsProtoCreateRERequest` makes: with the three
arguments non-zero, a month (`date_ver / 100 % 100`) outside 1..12 or a day
(`date_ver / 10000 % 100`) outside 1..`days[month-1]` gives EINVAL, whatever
`num` is. -/
theorem RE_request_date_EINVAL (num firm_ver rev_ver date_ver : Nat) (hf : firm_ver ≠ 0)
    (hr : rev_ver ≠ 0) (hd : date_ver ≠ 0)
    (hbad : date_ver / 100 % 100 = 0 ∨ date_ver / 100 % 100 > 12 ∨
      date_ver / 10000 % 100 = 0 ∨
      date_ver / 10000 % 100 > days.getD (date_ver / 100 % 100 - 1) 0) :
    MapsProtoCreateRERequest num firm_ver rev_ver date_ver = .error .EINVAL := by
  have e1 : date_ver / 100 / 100 = date_ver / 10000 := by omega
  unfold MapsProtoCreateRERequest
  simp only [hf, hr, hd, ne_eq, not_false_eq_true, and_self, if_true, e1]
  by_cases hm : date_ver / 100 % 100 = 0 ∨ date_ver / 100 % 100 > 12
  · rw [if_pos hm]
  · rw [if_neg hm, if_pos (by omega)]

/-- C24 fails: 29 February 2021 is not a calendar date, but
`MapsProtoCreateRERequest(0, 30, 1, 290221)` does not fail, it returns the
39-byte frame with the date `29-02-21` (`days[1]` is 29 whatever the year is);
and the seven-digit `date_ver = 1010121` is accepted as `01-01-21` (the digits
above the sixth are never looked at). -/
theorem RE_request_accepts_invalid_date :
    MapsProtoCreateRERequest 0 30 1 290221
      = .ok ⟨39, [0x01, 0x30, 0x52, 0x45, 0x2F, 0x33, 0x32, 0x43, 0x46, 0x2D, 0x32, 0x32, 0x30,
          0x4D, 0x2F, 0x56, 0x2D, 0x33, 0x30, 0x2F, 0x52, 0x2D, 0x30, 0x31, 0x2F, 0x44, 0x2D,
          0x32, 0x39, 0x2D, 0x30, 0x32, 0x2D, 0x32, 0x31, 0x2F, 0x33, 0x39, 0x0D]⟩ ∧
    MapsProtoCreateRERequest 0 30 1 1010121
      = .ok ⟨39, [0x01, 0x30, 0x52, 0x45, 0x2F, 0x33, 0x32, 0x43, 0x46, 0x2D, 0x32, 0x32, 0x30,
          0x4D, 0x2F, 0x56, 0x2D, 0x33, 0x30, 0x2F, 0x52, 0x2D, 0x30, 0x31, 0x2F, 0x44, 0x2D,
          0x30, 0x31, 0x2D, 0x30, 0x31, 0x2D, 0x32, 0x31, 0x2F, 0x33, 0x30, 0x0D]⟩ := by
  decide

/-! ## C25: DE response -/

theorem DE_parse_19 (num wm sp ah td hw cl fw rc bm : Nat) (hn : num ≤ 9) (hwm : wm ≤ 3)
    (hsp : sp ≤ 15) (hah : ah ≤ 2) (htd : bad_tow td = false) (hhw : 1 ≤ hw ∧ hw ≤ 3)
    (hcl : 1 ≤ cl ∧ cl ≤ 2) (hfw : fw ≤ 99) :
    MapsProtoParseFrame (some (envelope num [82, 83, 68, 69, wm + 48,
        if sp < 10 then sp + 48 else sp + 55, ah + 48, td, hw + 48, cl + 48,
        fw / 10 + 48, fw % 10 + 48, rc, bm])) 19
      = .ok { num := num, type := 1, cmd := [68, 69, 0, 0], size := 9,
              data := some (Payload.DE ⟨wm, sp, ah, td, hw, cl, fw, rc, bm⟩) } := by
  have hfind : MapsProtoFindCmd (some [68, 69])
      = some ⟨0b111, 0b110, [68, 69], MapsProtoPrepareNoData, MapsProtoPrepareDEData⟩ := rfl
  obtain ⟨hx1, hx2⟩ := hex_byte_roundtrip sp
  have hx1 := hx1 hsp
  have hx2 := hx2 hsp
  have hd1 := isdigit_digit (fw / 10) (by omega)
  have hd2 := isdigit_digit (fw % 10) (by omega)
  have hv := two_digits_digits fw hfw
  have e_wm := isdigit_digit wm (by omega)
  have g_wm : ¬ (((wm + 48 : Nat) : Int) - 48 > 3) := by omega
  have u_wm : u8 (((wm + 48 : Nat) : Int) - 48) = wm := u8_digit wm (by omega)
  have e_ah := isdigit_digit ah (by omega)
  have g_ah : ¬ (((ah + 48 : Nat) : Int) - 48 > 2) := by omega
  have u_ah : u8 (((ah + 48 : Nat) : Int) - 48) = ah := u8_digit ah (by omega)
  have e_hw := isdigit_digit hw (by omega)
  have u_hw : u8 (((hw + 48 : Nat) : Int) - 48) = hw := u8_digit hw (by omega)
  have e_cl := isdigit_digit cl (by omega)
  have u_cl : u8 (((cl + 48 : Nat) : Int) - 48) = cl := u8_digit cl (by omega)
  rw [parse_envelope num 82 83 [_, _, _, _, _, _, _, _, _, _, _, _] 19 hn rfl (by decide)
    (by decide)]
  generalize (if sp < 10 then sp + 48 else sp + 55) = x5 at hx1 hx2 ⊢
  generalize wm + 48 = wb at e_wm g_wm u_wm ⊢
  generalize ah + 48 = ab at e_ah g_ah u_ah ⊢
  generalize hw + 48 = hb at e_hw u_hw ⊢
  generalize cl + 48 = cb at e_cl u_cl ⊢
  generalize fw / 10 + 48 = f1 at hd1 hv ⊢
  generalize fw % 10 + 48 = f2 at hd2 hv ⊢
  simp [cstr, hfind, MapsProtoPrepareDEData, rd, rdN, envelope, hx1, hx2, hd1, hd2, hv, htd,
    e_wm, g_wm, u_wm, e_ah, g_ah, u_ah, e_hw, u_hw, e_cl, u_cl]

/-- C25 as stated fails for the record of the test in main.c,
(0, 0, 2, 0, 1, 2, 11, `P`, 3): the response is
`01 32 52 53 44 45 30 30 32 30 31 32 31 31 50 33 35 30 0D` and it parses with
tow_detection `'0'` (48) and barrier_model `'3'` (51), not the inputs 0 and 3. -/
theorem DE_response_fields_changed :
    MapsProtoCreateDEResponse 2 (some ⟨0, 0, 2, 0, 1, 2, 11, 80, 3⟩)
      = .ok ⟨19, [0x01, 0x32, 0x52, 0x53, 0x44, 0x45, 0x30, 0x30, 0x32, 0x30, 0x31, 0x32, 0x31,
          0x31, 0x50, 0x33, 0x35, 0x30, 0x0D]⟩ ∧
    MapsProtoParseFrame (some [0x01, 0x32, 0x52, 0x53, 0x44, 0x45, 0x30, 0x30, 0x32, 0x30, 0x31,
        0x32, 0x31, 0x31, 0x50, 0x33, 0x35, 0x30, 0x0D]) 19
      = .ok { num := 2, type := 1, cmd := [68, 69, 0, 0], size := 9,
              data := some (Payload.DE ⟨0, 0, 2, 48, 1, 2, 11, 80, 51⟩) } ∧
    (⟨0, 0, 2, 48, 1, 2, 11, 80, 51⟩ : tMAPS_PROTO_DE_DATA) ≠ ⟨0, 0, 2, 0, 1, 2, 11, 80, 3⟩ := by
  decide

/-- C25 amended: when `MapsProtoCreateDEResponse` accepts `num` and the DE
record (so `num <= 9`; barrier_model a 7-bit value), the frame has size 19 and
parses to Response, DE, with work_mode, axis_ispeed, axis_height, hw_failure,
se_cleaning and firmware_ver of the record, and with the three character
fields as they are on the wire: tow_detection and rcvr_direction of the record
with 0 read back as `'0'` (48), barrier_model of the record with a value below
10 read back as its digit (value + 48). -/
theorem DE_response_roundtrip (num : Nat) (d : tMAPS_PROTO_DE_DATA) (f : tMAPS_PROTO_RAW_FRAME)
    (h : MapsProtoCreateDEResponse num (some d) = .ok f) (hbm : d.barrier_model < 128) :
    num ≤ 9 ∧ f.size = 19 ∧
    MapsProtoParseFrame (some f.data) f.size
      = .ok { num := num, type := 1, cmd := [68, 69, 0, 0], size := 9,
              data := some (Payload.DE
                { work_mode := d.work_mode
                  axis_ispeed := d.axis_ispeed
                  axis_height := d.axis_height
                  tow_detection := if d.tow_detection = 0 then 48 else d.tow_detection
                  hw_failure := d.hw_failure
                  se_cleaning := d.se_cleaning
                  firmware_ver := d.firmware_ver
                  rcvr_direction := if d.rcvr_direction = 0 then 48 else d.rcvr_direction
                  barrier_model :=
                    if d.barrier_model < 10 then d.barrier_model + 48 else d.barrier_model }) } := by
  have hfind : MapsProtoFindCmd (some [68, 69])
      = some ⟨0b111, 0b110, [68, 69], MapsProtoPrepareNoData, MapsProtoPrepareDEData⟩ := rfl
  have _ := hbm
  have hrc : (if d.rcvr_direction = 0 then d.rcvr_direction + 48 else d.rcvr_direction)
      = (if d.rcvr_direction = 0 then 48 else d.rcvr_direction) := by
    split_ifs with h0
    · rw [h0]
    · rfl
  unfold MapsProtoCreateDEResponse at h
  simp only [hrc] at h
  generalize hx5 : (if d.axis_ispeed < 10 then d.axis_ispeed + 48 else d.axis_ispeed + 55) = x5
    at h
  generalize (if d.tow_detection = 0 then 48 else d.tow_detection) = td at h ⊢
  generalize (if d.rcvr_direction = 0 then 48 else d.rcvr_direction) = rc at h ⊢
  generalize (if d.barrier_model < 10 then d.barrier_model + 48 else d.barrier_model) = bm
    at h ⊢
  generalize d.work_mode = wm at h ⊢
  generalize d.axis_height = ah at h ⊢
  generalize d.axis_ispeed = sp at h hx5 ⊢
  generalize d.hw_failure = hw at h ⊢
  generalize d.se_cleaning = cl at h ⊢
  generalize d.firmware_ver = fw at h ⊢
  generalize d.rcvr_direction = rcv at h
  split_ifs at h with h1 h2 h3 h4 h5 h6 h7 h8
  rw [CreateFrame_eq _ _ _ _ _ (by decide)] at h
  have hn : num ≤ 9 := by
    by_contra hcon
    have : num > 9 := by omega
    simp [this] at h
  have hn' : ¬ (num > 9) := by omega
  have htd : bad_tow td = false := by simpa using h4
  rw [sprintf_u2 fw (by omega)] at h
  simp [hn', hfind, dir_tag, src_bytes_take, K_MAPS_PROTO_RES_TYPE, cinfo_suppdata, memcpy] at h
  subst h
  subst hx5
  exact ⟨hn, rfl, DE_parse_19 num wm sp ah td hw cl fw rc bm hn (by omega) (by omega) (by omega)
    htd (by omega) (by omega) (by omega)⟩

theorem DE_response_roundtrip_witness :
    (MapsProtoCreateDEResponse 2 (some ⟨0, 0, 2, 0, 1, 2, 11, 80, 3⟩)
      = .ok ⟨19, [1, 50, 82, 83, 68, 69, 48, 48, 50, 48, 49, 50, 49, 49, 80, 51, 53, 48, 13]⟩ ∧
      (⟨0, 0, 2, 0, 1, 2, 11, 80, 3⟩ : tMAPS_PROTO_DE_DATA).barrier_model < 128) ∧
    ((2 : Nat) ≤ 9 ∧
      (⟨19, [1, 50, 82, 83, 68, 69, 48, 48, 50, 48, 49, 50, 49, 49, 80, 51, 53, 48, 13]⟩ :
        tMAPS_PROTO_RAW_FRAME).size = 19 ∧
      MapsProtoParseFrame
          (some [1, 50, 82, 83, 68, 69, 48, 48, 50, 48, 49, 50, 49, 49, 80, 51, 53, 48, 13]) 19
        = .ok { num := 2, type := 1, cmd := [68, 69, 0, 0], size := 9,
                data := some (Payload.DE ⟨0, 0, 2, 48, 1, 2, 11, 80, 51⟩) }) :=
  ⟨⟨by decide, by decide⟩,
    DE_response_roundtrip 2 ⟨0, 0, 2, 0, 1, 2, 11, 80, 3⟩
      ⟨19, [1, 50, 82, 83, 68, 69, 48, 48, 50, 48, 49, 50, 49, 49, 80, 51, 53, 48, 13]⟩
      (by decide) (by decide)⟩
/-! ## C26: EA response -/

/-- For `num <= 9` and an EA record whose four fields are at most 99 the
response has 17 bytes and parses to Response, EA, with the four fields of the
record. -/
theorem EA_response_roundtrip (num : Nat) (d : tMAPS_PROTO_EA_DATA) (hn : num ≤ 9)
    (h1 : d.imax_height ≤ 99) (h2 : d.umax_height ≤ 99) (h3 : d.umin_height ≤ 99)
    (h4 : d.lmax_height ≤ 99) :
    ∃ f, MapsProtoCreateEAResponse num (some d) = .ok f ∧ f.size = 17 ∧
      MapsProtoParseFrame (some f.data) f.size
        = .ok { num := num, type := 1, cmd := [69, 65, 0, 0], size := 4,
                data := some (Payload.EA d) } := by
  have hn' : ¬ (num > 9) := by omega
  have hfind : MapsProtoFindCmd (some [69, 65])
      = some ⟨0b101, 0b110, [69, 65], MapsProtoPrepareNoData, MapsProtoPrepareEAData⟩ := rfl
  obtain ⟨a, b, c, e⟩ := d
  simp only at h1 h2 h3 h4
  have d1 := isdigit_digit (a / 10) (by omega)
  have d2 := isdigit_digit (a % 10) (by omega)
  have d3 := isdigit_digit (b / 10) (by omega)
  have d4 := isdigit_digit (b % 10) (by omega)
  have d5 := isdigit_digit (c / 10) (by omega)
  have d6 := isdigit_digit (c % 10) (by omega)
  have d7 := isdigit_digit (e / 10) (by omega)
  have d8 := isdigit_digit (e % 10) (by omega)
  have v1 := two_digits_digits a h1
  have v2 := two_digits_digits b h2
  have v3 := two_digits_digits c h3
  have v4 := two_digits_digits e h4
  refine ⟨⟨17, envelope num [82, 83, 69, 65, a / 10 + 48, a % 10 + 48, b / 10 + 48, b % 10 + 48,
      c / 10 + 48, c % 10 + 48, e / 10 + 48, e % 10 + 48]⟩, ?_, rfl, ?_⟩
  · unfold MapsProtoCreateEAResponse
    simp only []
    rw [CreateFrame_eq _ _ _ _ _ (by decide), sprintf_u2 _ h1, sprintf_u2 _ h2, sprintf_u2 _ h3,
      sprintf_u2 _ h4]
    simp [hn', hfind, dir_tag, src_bytes_take, K_MAPS_PROTO_RES_TYPE]
  · simp only []
    rw [parse_envelope num 82 83 [_, _, _, _, _, _, _, _, _, _] 17 hn rfl (by decide)
      (by decide)]
    generalize a / 10 + 48 = a1 at d1 v1 ⊢
    generalize a % 10 + 48 = a2 at d2 v1 ⊢
    generalize b / 10 + 48 = a3 at d3 v2 ⊢
    generalize b % 10 + 48 = a4 at d4 v2 ⊢
    generalize c / 10 + 48 = a5 at d5 v3 ⊢
    generalize c % 10 + 48 = a6 at d6 v3 ⊢
    generalize e / 10 + 48 = a7 at d7 v4 ⊢
    generalize e % 10 + 48 = a8 at d8 v4 ⊢
    simp [cstr, hfind, MapsProtoPrepareEAData, rd, rdN, scan, envelope, d1, d2, d3, d4, d5, d6,
      d7, d8, v1, v2, v3, v4]

/-- C26 fails: `MapsProtoCreateEAResponse(3, {100, 0, 0, 0})` does not set the
first field to 99. `sprintf` formats `100000000`, the framer takes the first
eight characters, the frame is `01 33 52 53 45 41 31 30 30 30 30 30 30 30 33 37 0D`
and it parses to the heights (10, 0, 0, 0), not (99, 0, 0, 0). -/
theorem EA_response_no_clamp :
    MapsProtoCreateEAResponse 3 (some ⟨100, 0, 0, 0⟩)
      = .ok ⟨17, [0x01, 0x33, 0x52, 0x53, 0x45, 0x41, 0x31, 0x30, 0x30, 0x30, 0x30, 0x30, 0x30,
          0x30, 0x33, 0x37, 0x0D]⟩ ∧
    MapsProtoParseFrame (some [0x01, 0x33, 0x52, 0x53, 0x45, 0x41, 0x31, 0x30, 0x30, 0x30, 0x30,
        0x30, 0x30, 0x30, 0x33, 0x37, 0x0D]) 17
      = .ok { num := 3, type := 1, cmd := [69, 65, 0, 0], size := 4,
              data := some (Payload.EA ⟨10, 0, 0, 0⟩) } := by
  decide

/-! ## C27: TT response -/

theorem length_eight (l : List Nat) (h : l.length = 8) :
    ∃ a b c d e f g i, l = [a, b, c, d, e, f, g, i] := by
  match l, h with
  | [a, b, c, d, e, f, g, i], _ => exact ⟨a, b, c, d, e, f, g, i, rfl⟩

theorem any_not_isxdigit_of_mem (buf : List Nat) (n : Nat) (hn : buf.length ≤ n) (b : Nat)
    (hb : b ∈ buf) (hx : isxdigit b = false) :
    (List.range n).any (fun i => !isxdigit (buf.getD i 0)) = true := by
  obtain ⟨i, hi, rfl⟩ := List.getElem_of_mem hb
  rw [List.any_eq_true]
  refine ⟨i, List.mem_range.2 (by omega), ?_⟩
  simp [List.getD, List.getElem?_eq_getElem hi, hx]

theorem TT_parse_35 (num : Nat) (e r : List Nat) (hn : num ≤ 9) (he : e.length = 16)
    (hr : r.length = 8) (hx : ∀ b ∈ e ++ r, isxdigit b = true) :
    MapsProtoParseFrame (some (envelope num (82 :: 83 :: (84 :: 84 :: 77 :: e ++ 82 :: r)))) 35
      = .ok { num := num, type := 1, cmd := [84, 84, 0, 0], size := 26,
              data := some (Payload.TT ⟨77, e, 82, r⟩) } := by
  have hfind : MapsProtoFindCmd (some [84, 84])
      = some ⟨0b111, 0b110, [84, 84], MapsProtoPrepareNoData, MapsProtoPrepareTTData⟩ := rfl
  obtain ⟨e1, e2, rfl, hl1, hl2⟩ : ∃ e1 e2, e = e1 ++ e2 ∧ e1.length = 8 ∧ e2.length = 8 :=
    ⟨e.take 8, e.drop 8, ⟨(List.take_append_drop 8 e).symm, by simp [he], by simp [he]⟩⟩
  obtain ⟨a0, a1, a2, a3, a4, a5, a6, a7, rfl⟩ := length_eight e1 hl1
  obtain ⟨b0, b1, b2, b3, b4, b5, b6, b7, rfl⟩ := length_eight e2 hl2
  obtain ⟨c0, c1, c2, c3, c4, c5, c6, c7, rfl⟩ := length_eight r hr
  simp only [List.mem_append, List.mem_cons, List.not_mem_nil, or_false, forall_eq_or_imp,
    forall_eq, or_imp, forall_and] at hx
  obtain ⟨⟨⟨x0, x1, x2, x3, x4, x5, x6, x7⟩, y0, y1, y2, y3, y4, y5, y6, y7⟩,
    z0, z1, z2, z3, z4, z5, z6, z7⟩ := hx
  rw [parse_envelope num 82 83 _ 35 hn (by simp) (by decide) (by decide)]
  simp [cstr, hfind, MapsProtoPrepareTTData, rd, rdN, scan, envelope, x0, x1, x2, x3, x4, x5,
    x6, x7, y0, y1, y2, y3, y4, y5, y6, y7, z0, z1, z2, z3, z4, z5, z6, z7,
    K_MAPS_PROTO_EMITTERS_MAP_SIZE, K_MAPS_PROTO_RECEIVERS_MAP_SIZE]

/-- C27: for `num <= 9` and a TT record with a 16-byte e_map and an 8-byte
r_map: when all 24 map bytes are hex digits, `MapsProtoCreateTTResponse`
returns a 35-byte response with `M` at byte 6 and `R` at byte 23 that parses to
Response, TT, mvar `M`, rvar `R` and the two maps of the record; when some map
byte is not a hex digit it fails with EINVAL. -/
theorem TT_response_roundtrip (num : Nat) (d : tMAPS_PROTO_TT_DATA) (hn : num ≤ 9)
    (he : d.e_map.length = 16) (hr : d.r_map.length = 8) :
    ((∀ b ∈ d.e_map ++ d.r_map, isxdigit b = true) →
      ∃ f, MapsProtoCreateTTResponse num (some d) = .ok f ∧ f.size = 35 ∧
        f.data[6]? = some 77 ∧ f.data[23]? = some 82 ∧
        MapsProtoParseFrame (some f.data) f.size
          = .ok { num := num, type := 1, cmd := [84, 84, 0, 0], size := 26,
                  data := some (Payload.TT ⟨77, d.e_map, 82, d.r_map⟩) }) ∧
    ((∃ b ∈ d.e_map ++ d.r_map, isxdigit b = false) →
      MapsProtoCreateTTResponse num (some d) = .error .EINVAL) := by
  have hn' : ¬ (num > 9) := by omega
  have hfind : MapsProtoFindCmd (some [84, 84])
      = some ⟨0b111, 0b110, [84, 84], MapsProtoPrepareNoData, MapsProtoPrepareTTData⟩ := rfl
  obtain ⟨mvar, e, rvar, r⟩ := d
  simp only at he hr ⊢
  constructor
  · intro hx
    have hxe : ∀ b ∈ e, isxdigit b = true := fun b hb => hx b (List.mem_append_left _ hb)
    have hxr : ∀ b ∈ r, isxdigit b = true := fun b hb => hx b (List.mem_append_right _ hb)
    have hae := any_not_isxdigit e 16 (by omega) hxe
    have har := any_not_isxdigit r 8 (by omega) hxr
    have hparse := TT_parse_35 num e r hn he hr hx
    refine ⟨⟨35, envelope num (82 :: 83 :: (84 :: 84 :: 77 :: e ++ 82 :: r))⟩, ?_, rfl, ?_, ?_,
      hparse⟩
    · unfold MapsProtoCreateTTResponse
      simp only [K_MAPS_PROTO_EMITTERS_MAP_SIZE, K_MAPS_PROTO_RECEIVERS_MAP_SIZE, hae, har,
        Bool.false_eq_true, if_false]
      rw [CreateFrame_eq _ _ _ _ _ (by decide)]
      obtain ⟨e1, e2, rfl, hl1, hl2⟩ : ∃ e1 e2, e = e1 ++ e2 ∧ e1.length = 8 ∧ e2.length = 8 :=
        ⟨e.take 8, e.drop 8, ⟨(List.take_append_drop 8 e).symm, by simp [he], by simp [he]⟩⟩
      obtain ⟨a0, a1, a2, a3, a4, a5, a6, a7, rfl⟩ := length_eight e1 hl1
      obtain ⟨b0, b1, b2, b3, b4, b5, b6, b7, rfl⟩ := length_eight e2 hl2
      obtain ⟨c0, c1, c2, c3, c4, c5, c6, c7, rfl⟩ := length_eight r hr
      simp [hn', hfind, dir_tag, src_bytes_take, K_MAPS_PROTO_RES_TYPE, memcpy]
    · simp [envelope]
    · obtain ⟨e1, e2, rfl, hl1, hl2⟩ : ∃ e1 e2, e = e1 ++ e2 ∧ e1.length = 8 ∧ e2.length = 8 :=
        ⟨e.take 8, e.drop 8, ⟨(List.take_append_drop 8 e).symm, by simp [he], by simp [he]⟩⟩
      obtain ⟨a0, a1, a2, a3, a4, a5, a6, a7, rfl⟩ := length_eight e1 hl1
      obtain ⟨b0, b1, b2, b3, b4, b5, b6, b7, rfl⟩ := length_eight e2 hl2
      simp [envelope]
  · rintro ⟨b, hb, hx⟩
    unfold MapsProtoCreateTTResponse
    simp only [K_MAPS_PROTO_EMITTERS_MAP_SIZE, K_MAPS_PROTO_RECEIVERS_MAP_SIZE]
    rcases List.mem_append.1 hb with hbe | hbr
    · rw [if_pos (any_not_isxdigit_of_mem e 16 (by omega) b hbe hx)]
    · rw [if_pos (any_not_isxdigit_of_mem r 8 (by omega) b hbr hx)]
      split_ifs <;> rfl

theorem TT_response_roundtrip_witness :
    ((5 : Nat) ≤ 9 ∧ (List.replicate 16 55).length = 16 ∧ (List.replicate 8 53).length = 8) ∧
    ((∀ b ∈ List.replicate 16 55 ++ List.replicate 8 53, isxdigit b = true) ∧
      ∃ f, MapsProtoCreateTTResponse 5 (some ⟨77, List.replicate 16 55, 82, List.replicate 8 53⟩)
          = .ok f ∧ f.size = 35 ∧
        f.data[6]? = some 77 ∧ f.data[23]? = some 82 ∧
        MapsProtoParseFrame (some f.data) f.size
          = .ok { num := 5, type := 1, cmd := [84, 84, 0, 0], size := 26,
                  data := some (Payload.TT
                    ⟨77, List.replicate 16 55, 82, List.replicate 8 53⟩) }) ∧
    ((∃ b ∈ List.replicate 16 55 ++ List.replicate 8 71, isxdigit b = false) ∧
      MapsProtoCreateTTResponse 5 (some ⟨77, List.replicate 16 55, 82, List.replicate 8 71⟩)
        = .error .EINVAL) :=
  ⟨⟨by decide, by simp, by simp⟩,
    ⟨by decide, (TT_response_roundtrip 5 ⟨77, List.replicate 16 55, 82, List.replicate 8 53⟩
      (by decide) (by simp) (by simp)).1 (by decide)⟩,
    ⟨by decide, (TT_response_roundtrip 5 ⟨77, List.replicate 16 55, 82, List.replicate 8 71⟩
      (by decide) (by simp) (by simp)).2 (by decide)⟩⟩

/-! ## C28: the sample SR response -/

/-- C28: the 11-byte frame `01 36 52 53 53 52 30 34 33 32 0D` parses to
Response, cmd SR, num 6, with the one-byte payload 4. -/
theorem SR_sample_response_parse :
    MapsProtoParseFrame
        (some [0x01, 0x36, 0x52, 0x53, 0x53, 0x52, 0x30, 0x34, 0x33, 0x32, 0x0D]) 11
      = .ok { num := 6, type := K_MAPS_PROTO_RES_TYPE, cmd := [83, 82, 0, 0], size := 1,
              data := some (Payload.byte 4) } := by
  decide

/-! ## C29: the two sample error buffers -/

/-- C29 as stated fails: parsing the 9-byte buffer `08 01 09 58 58 31 30 31 0D`
does not succeed, it fails with ERANGE. The LRC of its bytes 1..5 is `33 39`,
the buffer holds `30 31`. -/
theorem XX_sample_buffer_rejected :
    MapsProtoParseFrame (some [0x08, 0x01, 0x09, 0x58, 0x58, 0x31, 0x30, 0x31, 0x0D]) 9
      = .error .ERANGE ∧
    MapsProtoCalculateLRC [0x01, 0x09, 0x58, 0x58, 0x31] = [0x33, 0x39] := by
  decide

/-- C29 amended: parsing either 9-byte buffer, `08 01 09 58 58 31 30 31 0D` or
`08 01 09 42 52 31 30 31 0D`, fails with ERANGE; so does parsing the 8 bytes
that follow the leading `08` with size 8, which is the call main.c makes. -/
theorem sample_error_buffers_ERANGE :
    MapsProtoParseFrame (some [0x08, 0x01, 0x09, 0x58, 0x58, 0x31, 0x30, 0x31, 0x0D]) 9
      = .error .ERANGE ∧
    MapsProtoParseFrame (some [0x08, 0x01, 0x09, 0x42, 0x52, 0x31, 0x30, 0x31, 0x0D]) 9
      = .error .ERANGE ∧
    MapsProtoParseFrame (some [0x01, 0x09, 0x58, 0x58, 0x31, 0x30, 0x31, 0x0D]) 8
      = .error .ERANGE ∧
    MapsProtoParseFrame (some [0x01, 0x09, 0x42, 0x52, 0x31, 0x30, 0x31, 0x0D]) 8
      = .error .ERANGE := by
  decide

/-! ## C30: short buffers and checksum errors -/

theorem rd_of_lt (frame : List Nat) (i : Nat) (h : i < frame.length) :
    rd frame i = .ok (frame.getD i 0) := by
  simp [rd, List.getD, List.getElem?_eq_getElem h]

theorem ParseFrame_bad_lrc (frame : List Nat) (size : Nat) (h7 : 7 ≤ size)
    (hlen : size ≤ frame.length)
    (h89 : ¬ (size = 89 ∧ frame.getD 88 0 = K_MAPS_PROTO_CR))
    (h13 : ¬ (size = 13 ∧ frame.getD 12 0 = K_MAPS_PROTO_CR))
    (h14 : ¬ (size = 14 ∧ frame.getD 12 0 = K_MAPS_PROTO_CR ∧ frame.getD 13 0 = K_MAPS_PROTO_LF))
    (hlrc : (frame.drop (size - 3)).take 2
      ≠ MapsProtoCalculateLRC ((frame.drop 1).take (size - 4))) :
    MapsProtoParseFrame (some frame) size = .error .ERANGE := by
  have hs : ¬ (size < 7) := by omega
  have r1 : rd frame 1 = .ok (frame.getD 1 0) := rd_of_lt frame 1 (by omega)
  have rl : rdN frame (size - 3) 2 = .ok ((frame.drop (size - 3)).take 2) := by
    unfold rdN
    rw [if_pos (by omega)]
  have rr : rdN frame 1 (size - 4) = .ok ((frame.drop 1).take (size - 4)) := by
    unfold rdN
    rw [if_pos (by omega)]
  by_cases e89 : size = 89
  · subst e89
    have r88 := rd_of_lt frame 88 (by omega)
    have hb : ¬ (frame.getD 88 0 = 13) := fun h => h89 ⟨rfl, h⟩
    simp only [Nat.reduceSub] at rl rr hlrc
    have hb' : ¬ (frame[88]?.getD 0 = 13) := by simpa using hb
    have hlrc' : ¬ (List.take 2 (List.drop 86 frame)
        = MapsProtoCalculateLRC (List.take 85 frame.tail)) := by simpa using hlrc
    simp [MapsProtoParseFrame, r88, r1, rl, rr, hb', hlrc', K_MAPS_PROTO_PASF_SIZE,
      K_MAPS_PROTO_SCSF_SIZE, K_MAPS_PROTO_CR]
  by_cases e13 : size = 13
  · subst e13
    have r12 := rd_of_lt frame 12 (by omega)
    have hb : ¬ (frame.getD 12 0 = 13) := fun h => h13 ⟨rfl, h⟩
    simp only [Nat.reduceSub] at rl rr hlrc
    have hb' : ¬ (frame[12]?.getD 0 = 13) := by simpa using hb
    have hlrc' : ¬ (List.take 2 (List.drop 10 frame)
        = MapsProtoCalculateLRC (List.take 9 frame.tail)) := by simpa using hlrc
    simp [MapsProtoParseFrame, r12, r1, rl, rr, hb', hlrc', K_MAPS_PROTO_PASF_SIZE,
      K_MAPS_PROTO_SCSF_SIZE, K_MAPS_PROTO_CR]
  by_cases e14 : size = 14
  · subst e14
    have r12 := rd_of_lt frame 12 (by omega)
    have r13 := rd_of_lt frame 13 (by omega)
    simp only [Nat.reduceSub] at rl rr hlrc
    have hlrc' : ¬ (List.take 2 (List.drop 11 frame)
        = MapsProtoCalculateLRC (List.take 10 frame.tail)) := by simpa using hlrc
    by_cases hb : frame.getD 12 0 = 13
    · have hc : ¬ (frame.getD 13 0 = 10) := fun h => h14 ⟨rfl, hb, h⟩
      have hb' : frame[12]?.getD 0 = 13 := by simpa using hb
      have hc' : ¬ (frame[13]?.getD 0 = 10) := by simpa using hc
      simp [MapsProtoParseFrame, r12, r13, hb', hc', r1, rl, rr, hlrc', K_MAPS_PROTO_PASF_SIZE,
        K_MAPS_PROTO_SCSF_SIZE, K_MAPS_PROTO_CR, K_MAPS_PROTO_LF]
    · have hb' : ¬ (frame[12]?.getD 0 = 13) := by simpa using hb
      simp [MapsProtoParseFrame, r12, hb', r1, rl, rr, hlrc', K_MAPS_PROTO_PASF_SIZE,
        K_MAPS_PROTO_SCSF_SIZE, K_MAPS_PROTO_CR, K_MAPS_PROTO_LF]
  have hlrc' : ¬ (List.take 2 (List.drop (size - 3) frame)
      = MapsProtoCalculateLRC (List.take (size - 4) frame.tail)) := by simpa using hlrc
  simp [MapsProtoParseFrame, hs, e89, e13, e14, r1, rl, rr, hlrc', K_MAPS_PROTO_PASF_SIZE,
    K_MAPS_PROTO_SCSF_SIZE]

/-- C30: `MapsProtoParseFrame` on a non-null buffer fails with ESPIPE when
`size < 7`; when `size >= 7`, the buffer holds `size` bytes, it matches none of
the three special patterns (size 89 with CR at 88, size 13 with CR at 12, size
14 with CR LF at 12..13) and its two bytes at `size-3..size-2` differ from
`MapsProtoCalculateLRC` of its bytes `1..size-4`, it fails with ERANGE,
whatever the other bytes are. -/
theorem ParseFrame_ESPIPE_ERANGE (frame : List Nat) (size : Nat) :
    (size < 7 → MapsProtoParseFrame (some frame) size = .error .ESPIPE) ∧
    (7 ≤ size → size ≤ frame.length →
      ¬ (size = 89 ∧ frame.getD 88 0 = K_MAPS_PROTO_CR) →
      ¬ (size = 13 ∧ frame.getD 12 0 = K_MAPS_PROTO_CR) →
      ¬ (size = 14 ∧ frame.getD 12 0 = K_MAPS_PROTO_CR ∧ frame.getD 13 0 = K_MAPS_PROTO_LF) →
      (frame.drop (size - 3)).take 2
        ≠ MapsProtoCalculateLRC ((frame.drop 1).take (size - 4)) →
      MapsProtoParseFrame (some frame) size = .error .ERANGE) := by
  constructor
  · intro h
    simp [MapsProtoParseFrame, h]
  · exact ParseFrame_bad_lrc frame size

theorem ParseFrame_ESPIPE_ERANGE_witness :
    ((6 : Nat) < 7 ∧
      MapsProtoParseFrame (some [0, 0, 0, 0, 0, 0]) 6 = .error .ESPIPE) ∧
    ((7 : Nat) ≤ 8 ∧ 8 ≤ [0x01, 0x09, 0x42, 0x52, 0x31, 0x30, 0x31, 0x0D].length ∧
      ¬ ((8 : Nat) = 89 ∧
        [0x01, 0x09, 0x42, 0x52, 0x31, 0x30, 0x31, 0x0D].getD 88 0 = K_MAPS_PROTO_CR) ∧
      ¬ ((8 : Nat) = 13 ∧
        [0x01, 0x09, 0x42, 0x52, 0x31, 0x30, 0x31, 0x0D].getD 12 0 = K_MAPS_PROTO_CR) ∧
      ¬ ((8 : Nat) = 14 ∧
        [0x01, 0x09, 0x42, 0x52, 0x31, 0x30, 0x31, 0x0D].getD 12 0 = K_MAPS_PROTO_CR ∧
        [0x01, 0x09, 0x42, 0x52, 0x31, 0x30, 0x31, 0x0D].getD 13 0 = K_MAPS_PROTO_LF) ∧
      ([0x01, 0x09, 0x42, 0x52, 0x31, 0x30, 0x31, 0x0D].drop (8 - 3)).take 2
        ≠ MapsProtoCalculateLRC
          (([0x01, 0x09, 0x42, 0x52, 0x31, 0x30, 0x31, 0x0D].drop 1).take (8 - 4)) ∧
      MapsProtoParseFrame (some [0x01, 0x09, 0x42, 0x52, 0x31, 0x30, 0x31, 0x0D]) 8
        = .error .ERANGE) :=
  ⟨⟨by decide, (ParseFrame_ESPIPE_ERANGE [0, 0, 0, 0, 0, 0] 6).1 (by decide)⟩,
    ⟨by decide, by decide, by decide, by decide, by decide, by decide,
      (ParseFrame_ESPIPE_ERANGE [0x01, 0x09, 0x42, 0x52, 0x31, 0x30, 0x31, 0x0D] 8).2 (by decide)
        (by decide) (by decide) (by decide) (by decide) (by decide)⟩⟩

/-! ## C31: a changed byte and the checksum -/

theorem foldl_xor_init_ne (l : List Nat) (x y : Nat) (hxy : x ≠ y) :
    l.foldl (fun x b => x ^^^ b) x ≠ l.foldl (fun x b => x ^^^ b) y := by
  induction l generalizing x y with
  | nil => exact hxy
  | cons b t ih =>
    simp only [List.foldl_cons]
    exact ih _ _ (fun h => hxy (Nat.xor_left_injective h))

theorem foldl_xor_set_ne (l : List Nat) (x j v : Nat) (hj : j < l.length)
    (hv : l.getD j 0 ≠ v) :
    (l.set j v).foldl (fun x b => x ^^^ b) x ≠ l.foldl (fun x b => x ^^^ b) x := by
  induction l generalizing x j with
  | nil => simp at hj
  | cons b t ih =>
    cases j with
    | zero =>
      simp only [List.set_cons_zero, List.foldl_cons]
      apply foldl_xor_init_ne
      intro h
      apply hv
      simpa using (Nat.xor_right_injective h).symm
    | succ k =>
      simp only [List.set_cons_succ, List.foldl_cons]
      apply ih
      · simpa using hj
      · simpa using hv

theorem LRC_set_ne (l : List Nat) (j v : Nat) (hl : ∀ b ∈ l, b < 256) (hv : v < 256)
    (hj : j < l.length) (hne : l.getD j 0 ≠ v) :
    MapsProtoCalculateLRC l ≠ MapsProtoCalculateLRC (l.set j v) := by
  have hl2 : ∀ b ∈ l.set j v, b < 256 := by
    intro b hb
    rcases List.mem_or_eq_of_mem_set hb with h | h
    · exact hl b h
    · rw [h]; exact hv
  obtain ⟨e1, b1⟩ := foldl_xor_lt l 0 (by decide) hl
  obtain ⟨e2, b2⟩ := foldl_xor_lt (l.set j v) 0 (by decide) hl2
  have hx := foldl_xor_set_ne l 0 j v hj hne
  rw [LRC_eq, LRC_eq, e1, e2]
  generalize List.foldl (fun x b => x ^^^ b) 0 l = p at *
  generalize List.foldl (fun x b => x ^^^ b) 0 (l.set j v) = q at *
  intro h
  simp only [List.cons.injEq, and_true] at h
  omega
theorem shaped_frame_bad_lrc (R L : List Nat) (hR : 3 ≤ R.length) (hL : L.length = 2)
    (h13 : R.length + 4 ≠ 13) (h89 : R.length + 4 ≠ 89) (hne : L ≠ MapsProtoCalculateLRC R) :
    MapsProtoParseFrame (some (K_MAPS_PROTO_SOH :: (R ++ (L ++ [K_MAPS_PROTO_CR]))))
      (R.length + 4) = .error .ERANGE := by
  apply ParseFrame_bad_lrc
  · omega
  · simp [hL]
  · exact fun h => h89 h.1
  · exact fun h => h13 h.1
  · rintro ⟨e, -, h⟩
    have e10 : R.length = 10 := by omega
    have : (K_MAPS_PROTO_SOH :: (R ++ (L ++ [K_MAPS_PROTO_CR]))).getD 13 0 = K_MAPS_PROTO_CR := by
      match L, hL with
      | [a, b], _ =>
        rw [List.getD_cons_succ, List.getD_append_right _ _ _ _ (by omega), e10]
        rfl
    rw [this] at h
    exact absurd h (by decide)
  · have e1 : R.length + 4 - 3 = R.length + 1 := by omega
    have e2 : R.length + 4 - 4 = R.length := by omega
    rw [e1, e2, List.drop_succ_cons, List.drop_succ_cons, List.drop_zero,
      List.take_append_of_le_length (Nat.le_refl _), List.take_length,
      List.drop_append_of_le_length (Nat.le_refl _), List.drop_length, List.nil_append]
    match L, hL with
    | [a, b], _ => exact hne

theorem envelope_set (num : Nat) (body : List Nat) (j v : Nat) (hj : j < body.length + 1) :
    (envelope num body).set (j + 1) v
      = K_MAPS_PROTO_SOH :: ((((num + 48) :: body).set j v)
          ++ (MapsProtoCalculateLRC ((num + 48) :: body) ++ [K_MAPS_PROTO_CR])) := by
  simp only [envelope, List.cons_append, List.append_assoc, List.set_cons_succ]
  rw [← List.cons_append, List.set_append_left _ _ (by simpa using hj)]

/-- Changing one byte of the checksummed range of an enveloped frame whose size
is neither 13 nor 89 makes the parser fail with ERANGE. -/
theorem envelope_flip_ERANGE (num : Nat) (body : List Nat) (i v : Nat)
    (hb : ∀ b ∈ (num + 48) :: body, b < 256) (hv : v < 256) (h2 : 2 ≤ body.length)
    (hi1 : 1 ≤ i) (hi2 : i ≤ body.length + 1) (hne : (envelope num body).getD i 0 ≠ v)
    (h13 : body.length + 5 ≠ 13) (h89 : body.length + 5 ≠ 89) :
    MapsProtoParseFrame (some ((envelope num body).set i v)) (body.length + 5)
      = .error .ERANGE := by
  obtain ⟨j, rfl⟩ : ∃ j, i = j + 1 := ⟨i - 1, by omega⟩
  have hj : j < ((num + 48) :: body).length := by simp; omega
  rw [envelope_set num body j v (by omega)]
  have hget : ((num + 48) :: body).getD j 0 ≠ v := by
    intro h
    apply hne
    rw [← h]
    simp only [envelope, List.cons_append, List.append_assoc, List.getD_cons_succ]
    rw [← List.cons_append, List.getD_append _ _ _ _ hj]
  have hlen : (((num + 48) :: body).set j v).length + 4 = body.length + 5 := by simp
  rw [← hlen]
  apply shaped_frame_bad_lrc
  · simp; omega
  · exact length_LRC _
  · simp; omega
  · simp; omega
  · exact LRC_set_ne _ j v hb hv hj hget

/-- Every frame returned by `MapsProtoCreateFrame` whose size is neither 13 nor
89 and whose bytes are below 256: replacing one byte at a position
`1 .. size-4` by a different byte value makes the parser fail with ERANGE. -/
theorem CreateFrame_flip_ERANGE (type num : Nat) (cmd data : Option (List Nat))
    (ds : Nat) (f : tMAPS_PROTO_RAW_FRAME) (i v : Nat)
    (hsz : (if type = 0 then 7 else 9) + ds < 65536)
    (h : MapsProtoCreateFrame type num cmd data ds = .ok f)
    (hbytes : ∀ b ∈ f.data, b < 256) (hv : v < 256)
    (hi1 : 1 ≤ i) (hi2 : i ≤ f.size - 4) (hne : f.data.getD i 0 ≠ v)
    (h13 : f.size ≠ 13) (h89 : f.size ≠ 89) :
    MapsProtoParseFrame (some (f.data.set i v)) f.size = .error .ERANGE := by
  rw [CreateFrame_eq type num cmd data ds hsz] at h
  by_cases c1 : type > 2 ∨ num > 9 ∨ cmd = none ∨ ((MapsProtoFindCmd cmd).isNone ∧ type ≠ 2) ∨
      (data = none ∧ ds ≠ 0)
  · rw [if_pos c1] at h; cases h
  rw [if_neg c1] at h
  by_cases c2 : type = 1 ∧ ds = 0 ∧ cinfo_suppdata (MapsProtoFindCmd cmd) &&& 1 = 0
  · rw [if_pos c2] at h; cases h
  rw [if_neg c2] at h
  by_cases c3 : type = 0 ∧ ds = 0 ∧ cinfo_suppdata (MapsProtoFindCmd cmd) &&& 2 = 0
  · rw [if_pos c3] at h; cases h
  rw [if_neg c3] at h
  have hf := (Except.ok.inj h).symm
  generalize hb : dir_tag type ++ src_bytes (cmd.getD []) 2 ++ src_bytes (data.getD []) ds
    = body at hf
  have hbl : body.length = (if type = 0 then 2 else 4) + ds := by
    rw [← hb]
    simp only [List.length_append, length_src_bytes, dir_tag]
    split_ifs <;> simp <;> omega
  subst hf
  simp only [] at hbytes hi2 hne h13 h89 ⊢
  have hs : (if type = 0 then 7 else 9) + ds = body.length + 5 := by
    rw [hbl]; split_ifs <;> omega
  rw [hs] at hi2 h13 h89 ⊢
  apply envelope_flip_ERANGE num body i v _ hv _ hi1 (by omega) hne h13 h89
  · intro b hb
    apply hbytes
    simp only [envelope, List.cons_append, List.append_assoc]
    exact List.mem_cons_of_mem _ (by
      rw [← List.cons_append]
      exact List.mem_append_left _ hb)
  · rw [hbl]; split_ifs <;> omega

theorem CreateFrame_flip_ERANGE_example :
    MapsProtoCreateFrame 0 0 (some [66, 82]) (some [51]) 1
      = .ok ⟨8, [1, 48, 66, 82, 51, 49, 51, 13]⟩ ∧
    MapsProtoParseFrame (some ([1, 48, 66, 82, 51, 49, 51, 13].set 4 52)) 8 = .error .ERANGE :=
  ⟨by decide,
    CreateFrame_flip_ERANGE 0 0 (some [66, 82]) (some [51]) 1
      ⟨8, [1, 48, 66, 82, 51, 49, 51, 13]⟩ 4 52 (by decide) (by decide) (by decide) (by decide)
      (by decide) (by decide) (by decide) (by decide) (by decide)⟩

/-- C31 fails for the EJ builder: `MapsProtoCreateEJRequest(1, {9, 3, 50})`
returns the enveloped 13-byte frame `01 31 45 4A 30 39 30 33 35 30 33 31 0D`;
replacing its byte 4 (`30`) by `31` leaves a 13-byte buffer ending in CR, which
`MapsProtoParseFrame` accepts as an SC-special frame of mode `D` instead of
failing with ERANGE. -/
theorem EJ_frame_flip_not_ERANGE :
    MapsProtoCreateEJRequest 1 (some ⟨9, 3, 50⟩)
      = .ok ⟨13, [0x01, 0x31, 0x45, 0x4A, 0x30, 0x39, 0x30, 0x33, 0x35, 0x30, 0x33, 0x31,
          0x0D]⟩ ∧
    [0x01, 0x31, 0x45, 0x4A, 0x30, 0x39, 0x30, 0x33, 0x35, 0x30, 0x33, 0x31, 0x0D].set 4 0x31
      = [0x01, 0x31, 0x45, 0x4A, 0x31, 0x39, 0x30, 0x33, 0x35, 0x30, 0x33, 0x31, 0x0D] ∧
    MapsProtoParseFrame (some [0x01, 0x31, 0x45, 0x4A, 0x31, 0x39, 0x30, 0x33, 0x35, 0x30,
        0x33, 0x31, 0x0D]) 13
      = .ok { num := 0, type := 0, cmd := [83, 67, 83, 0], size := 12,
              data := some (Payload.SC_SPECIAL
                ⟨68, [0x01, 0x31, 0x45, 0x4A, 0x31, 0x39, 0x30, 0x33, 0x35, 0x30, 0x33,
                  0x31]⟩) } ∧
    MapsProtoParseFrame (some [0x01, 0x31, 0x45, 0x4A, 0x31, 0x39, 0x30, 0x33, 0x35, 0x30,
        0x33, 0x31, 0x0D]) 13 ≠ .error .ERANGE := by
  decide

/-! ## C32: lengths next to a declared length -/

theorem undeclared_request_ENOEXEC (num c0 c1 : Nat) (rest lens : List Nat) (hn : num ≤ 9)
    (hcmd : (c0, c1, lens) ∈ [(83, 77, [10, 11, 12]), (69, 77, [16, 17]), (65, 80, [9, 17]),
      (82, 72, [10]), (70, 65, [7, 11, 12, 24]), (70, 82, [11, 12, 24]), (83, 67, [11, 15]),
      (73, 65, [7, 9]), (82, 77, [7, 9]), (82, 69, [7, 39])])
    (hnd : rest.length + 7 ∉ lens) (h13 : rest.length + 7 ≠ 13) (h89 : rest.length + 7 ≠ 89) :
    MapsProtoParseFrame (some (envelope num (c0 :: c1 :: rest))) (rest.length + 7)
      = .error .ENOEXEC := by
  have hSM : MapsProtoFindCmd (some [83, 77])
      = some ⟨0b111, 0b101, [83, 77], MapsProtoPrepareSMData, MapsProtoPrepareNoData⟩ := rfl
  have hEM : MapsProtoFindCmd (some [69, 77])
      = some ⟨0b111, 0b001, [69, 77], MapsProtoPrepareEMData, MapsProtoPrepareNoData⟩ := rfl
  have hAP : MapsProtoFindCmd (some [65, 80])
      = some ⟨0b111, 0b001, [65, 80], MapsProtoPrepareAPData, MapsProtoPrepareNoData⟩ := rfl
  have hRH : MapsProtoFindCmd (some [82, 72])
      = some ⟨0b001, 0b100, [82, 72], MapsProtoPrepareRHData, MapsProtoPrepareRHData⟩ := rfl
  have hFAS : MapsProtoFindCmd (some [70, 65, 83])
      = some ⟨0b110, 0b001, [70, 65, 83], MapsProtoPrepareEndVehData, MapsProtoPrepareNoData⟩ :=
    rfl
  have hFR : MapsProtoFindCmd (some [70, 82])
      = some ⟨0b110, 0b001, [70, 82], MapsProtoPrepareEndVehData, MapsProtoPrepareNoData⟩ := rfl
  have hSC : MapsProtoFindCmd (some [83, 67])
      = some ⟨0b101, 0b101, [83, 67], MapsProtoPrepareSCData, MapsProtoPrepareNoData⟩ := rfl
  have hIA : MapsProtoFindCmd (some [73, 65])
      = some ⟨0b110, 0b011, [73, 65], MapsProtoPrepareIARMData, MapsProtoPrepareNoData⟩ := rfl
  have hRM : MapsProtoFindCmd (some [82, 77])
      = some ⟨0b110, 0b011, [82, 77], MapsProtoPrepareIARMData, MapsProtoPrepareNoData⟩ := rfl
  have hRE : MapsProtoFindCmd (some [82, 69])
      = some ⟨0b111, 0b011, [82, 69], MapsProtoPrepareREData, MapsProtoPrepareNoData⟩ := rfl
  rw [parse_envelope num c0 c1 rest (rest.length + 7) hn rfl h89 h13]
  simp only [List.mem_cons, Prod.mk.injEq, List.mem_singleton, List.not_mem_nil, or_false]
    at hcmd
  rcases hcmd with hc | hc | hc | hc | hc | hc | hc | hc | hc | hc
  · obtain ⟨rfl, rfl, rfl⟩ := hc
    have h : ¬ (3 ≤ rest.length ∧ rest.length ≤ 5) := by
      simp only [List.mem_cons, List.mem_singleton, List.not_mem_nil, or_false, not_or] at hnd
      omega
    simp [cstr, hSM, MapsProtoPrepareSMData, errors, h]
  · obtain ⟨rfl, rfl, rfl⟩ := hc
    have h : ¬ (rest.length = 9 ∨ rest.length = 10) := by
      simp only [List.mem_cons, List.mem_singleton, List.not_mem_nil, or_false, not_or] at hnd
      omega
    simp [cstr, hEM, MapsProtoPrepareEMData, errors, h]
  · obtain ⟨rfl, rfl, rfl⟩ := hc
    have h1 : ¬ (rest.length = 2) := by
      simp only [List.mem_cons, List.mem_singleton, List.not_mem_nil, or_false, not_or] at hnd
      omega
    have h2 : ¬ (rest.length = 10) := by
      simp only [List.mem_cons, List.mem_singleton, List.not_mem_nil, or_false, not_or] at hnd
      omega
    simp [cstr, hAP, MapsProtoPrepareAPData, errors, h1, h2]
  · obtain ⟨rfl, rfl, rfl⟩ := hc
    have h : ¬ (rest.length = 3) := by
      simp only [List.mem_cons, List.mem_singleton, List.not_mem_nil, or_false, not_or] at hnd
      omega
    simp [cstr, hRH, MapsProtoPrepareRHData, errors, h]
  · obtain ⟨rfl, rfl, rfl⟩ := hc
    have h0 : 0 < rest.length := by
      simp only [List.mem_cons, List.mem_singleton, List.not_mem_nil, or_false, not_or] at hnd
      omega
    have h1 : ¬ (rest.length = 4) := by
      simp only [List.mem_cons, List.mem_singleton, List.not_mem_nil, or_false, not_or] at hnd
      omega
    have h2 : ¬ (rest.length = 5) := by
      simp only [List.mem_cons, List.mem_singleton, List.not_mem_nil, or_false, not_or] at hnd
      omega
    have h3 : ¬ (rest.length = 17) := by
      simp only [List.mem_cons, List.mem_singleton, List.not_mem_nil, or_false, not_or] at hnd
      omega
    simp [cstr, hFAS, MapsProtoPrepareEndVehData, errors, h0, h1, h2, h3]
  · obtain ⟨rfl, rfl, rfl⟩ := hc
    have h1 : ¬ (rest.length = 4) := by
      simp only [List.mem_cons, List.mem_singleton, List.not_mem_nil, or_false, not_or] at hnd
      omega
    have h2 : ¬ (rest.length = 5) := by
      simp only [List.mem_cons, List.mem_singleton, List.not_mem_nil, or_false, not_or] at hnd
      omega
    have h3 : ¬ (rest.length = 17) := by
      simp only [List.mem_cons, List.mem_singleton, List.not_mem_nil, or_false, not_or] at hnd
      omega
    simp [cstr, hFR, MapsProtoPrepareEndVehData, errors, h1, h2, h3]
  · obtain ⟨rfl, rfl, rfl⟩ := hc
    have h1 : ¬ (rest.length = 4) := by
      simp only [List.mem_cons, List.mem_singleton, List.not_mem_nil, or_false, not_or] at hnd
      omega
    have h2 : ¬ (rest.length = 8) := by
      simp only [List.mem_cons, List.mem_singleton, List.not_mem_nil, or_false, not_or] at hnd
      omega
    simp [cstr, hSC, MapsProtoPrepareSCData, errors, h1, h2]
  · obtain ⟨rfl, rfl, rfl⟩ := hc
    have h1 : ¬ (rest.length = 0) := by
      simp only [List.mem_cons, List.mem_singleton, List.not_mem_nil, or_false, not_or] at hnd
      omega
    have h2 : ¬ (rest.length = 2) := by
      simp only [List.mem_cons, List.mem_singleton, List.not_mem_nil, or_false, not_or] at hnd
      omega
    simp [cstr, hIA, MapsProtoPrepareIARMData, errors, h1, h2]
  · obtain ⟨rfl, rfl, rfl⟩ := hc
    have h1 : ¬ (rest.length = 0) := by
      simp only [List.mem_cons, List.mem_singleton, List.not_mem_nil, or_false, not_or] at hnd
      omega
    have h2 : ¬ (rest.length = 2) := by
      simp only [List.mem_cons, List.mem_singleton, List.not_mem_nil, or_false, not_or] at hnd
      omega
    simp [cstr, hRM, MapsProtoPrepareIARMData, errors, h1, h2]
  · obtain ⟨rfl, rfl, rfl⟩ := hc
    have h1 : ¬ (rest.length = 0) := by
      simp only [List.mem_cons, List.mem_singleton, List.not_mem_nil, or_false, not_or] at hnd
      omega
    have h2 : ¬ (rest.length = 32) := by
      simp only [List.mem_cons, List.mem_singleton, List.not_mem_nil, or_false, not_or] at hnd
      omega
    simp [cstr, hRE, MapsProtoPrepareREData, errors, h1, h2]

theorem undeclared_response_ENOEXEC (num c0 c1 : Nat) (rest lens : List Nat) (hn : num ≤ 9)
    (hcmd : (c0, c1, lens) ∈ [(83, 77, [9]), (69, 77, [9]), (65, 80, [9]), (82, 72, [12]),
      (70, 65, [9]), (70, 82, [9]), (83, 67, [9]), (73, 65, [9]), (82, 77, [9]), (82, 69, [9])])
    (hnd : rest.length + 9 ∉ lens) (h13 : rest.length + 9 ≠ 13) (h89 : rest.length + 9 ≠ 89) :
    MapsProtoParseFrame (some (envelope num (82 :: 83 :: c0 :: c1 :: rest))) (rest.length + 9)
      = .error .ENOEXEC := by
  have hSM : MapsProtoFindCmd (some [83, 77])
      = some ⟨0b111, 0b101, [83, 77], MapsProtoPrepareSMData, MapsProtoPrepareNoData⟩ := rfl
  have hEM : MapsProtoFindCmd (some [69, 77])
      = some ⟨0b111, 0b001, [69, 77], MapsProtoPrepareEMData, MapsProtoPrepareNoData⟩ := rfl
  have hAP : MapsProtoFindCmd (some [65, 80])
      = some ⟨0b111, 0b001, [65, 80], MapsProtoPrepareAPData, MapsProtoPrepareNoData⟩ := rfl
  have hRH : MapsProtoFindCmd (some [82, 72])
      = some ⟨0b001, 0b100, [82, 72], MapsProtoPrepareRHData, MapsProtoPrepareRHData⟩ := rfl
  have hFA : MapsProtoFindCmd (some [70, 65])
      = some ⟨0b111, 0b111, [70, 65], MapsProtoPrepareNoData, MapsProtoPrepareNoData⟩ := rfl
  have hFR : MapsProtoFindCmd (some [70, 82])
      = some ⟨0b110, 0b001, [70, 82], MapsProtoPrepareEndVehData, MapsProtoPrepareNoData⟩ := rfl
  have hSC : MapsProtoFindCmd (some [83, 67])
      = some ⟨0b101, 0b101, [83, 67], MapsProtoPrepareSCData, MapsProtoPrepareNoData⟩ := rfl
  have hIA : MapsProtoFindCmd (some [73, 65])
      = some ⟨0b110, 0b011, [73, 65], MapsProtoPrepareIARMData, MapsProtoPrepareNoData⟩ := rfl
  have hRM : MapsProtoFindCmd (some [82, 77])
      = some ⟨0b110, 0b011, [82, 77], MapsProtoPrepareIARMData, MapsProtoPrepareNoData⟩ := rfl
  have hRE : MapsProtoFindCmd (some [82, 69])
      = some ⟨0b111, 0b011, [82, 69], MapsProtoPrepareREData, MapsProtoPrepareNoData⟩ := rfl
  have hc : rdN (envelope num (82 :: 83 :: c0 :: c1 :: rest)) 4 2 = .ok [c0, c1] :=
    rdN_envelope num 82 83 (c0 :: c1 :: rest) 0 2 (by simp)
  rw [parse_envelope num 82 83 (c0 :: c1 :: rest) (rest.length + 9) hn (by simp) h89 h13, hc]
  simp only [List.mem_cons, Prod.mk.injEq, List.mem_singleton, List.not_mem_nil, or_false]
    at hcmd
  have h9 : ∀ l : List Nat, l = [9] → rest.length + 9 ∉ l → ¬ (rest.length = 0) := by
    intro l hl h
    subst hl
    simp only [List.mem_singleton] at h
    omega
  rcases hcmd with hc | hc | hc | hc | hc | hc | hc | hc | hc | hc
  · obtain ⟨rfl, rfl, hl⟩ := hc
    have h := h9 lens hl hnd
    simp [cstr, hSM, MapsProtoPrepareNoData, errors, h]
  · obtain ⟨rfl, rfl, hl⟩ := hc
    have h := h9 lens hl hnd
    simp [cstr, hEM, MapsProtoPrepareNoData, errors, h]
  · obtain ⟨rfl, rfl, hl⟩ := hc
    have h := h9 lens hl hnd
    simp [cstr, hAP, MapsProtoPrepareNoData, errors, h]
  · obtain ⟨rfl, rfl, rfl⟩ := hc
    have h : ¬ (rest.length = 3) := by
      simp only [List.mem_singleton] at hnd
      omega
    simp [cstr, hRH, MapsProtoPrepareRHData, errors, h]
  · obtain ⟨rfl, rfl, hl⟩ := hc
    have h := h9 lens hl hnd
    simp [cstr, hFA, MapsProtoPrepareNoData, errors, h]
  · obtain ⟨rfl, rfl, hl⟩ := hc
    have h := h9 lens hl hnd
    simp [cstr, hFR, MapsProtoPrepareNoData, errors, h]
  · obtain ⟨rfl, rfl, hl⟩ := hc
    have h := h9 lens hl hnd
    simp [cstr, hSC, MapsProtoPrepareNoData, errors, h]
  · obtain ⟨rfl, rfl, hl⟩ := hc
    have h := h9 lens hl hnd
    simp [cstr, hIA, MapsProtoPrepareNoData, errors, h]
  · obtain ⟨rfl, rfl, hl⟩ := hc
    have h := h9 lens hl hnd
    simp [cstr, hRM, MapsProtoPrepareNoData, errors, h]
  · obtain ⟨rfl, rfl, hl⟩ := hc
    have h := h9 lens hl hnd
    simp [cstr, hRE, MapsProtoPrepareNoData, errors, h]

/-- C32 as stated fails at total length 13: the 13-byte frames
`envelope 0 "SM1110P0"` (one more than the declared SM length 12) and
`envelope 0 "RSRH0200"` (one more than the declared RH response length 12) have
a valid envelope, yet `MapsProtoParseFrame` does not fail with ENOEXEC: a
13-byte buffer ending in CR is taken as the special SC frame before the
envelope is looked at, and the result is cmd `SCS`, mode `D`. -/
theorem off_by_one_length_13_accepted :
    envelope 0 [83, 77, 49, 49, 49, 48, 80, 48]
      = [1, 48, 83, 77, 49, 49, 49, 48, 80, 48, 52, 63, 13] ∧
    MapsProtoParseFrame (some [1, 48, 83, 77, 49, 49, 49, 48, 80, 48, 52, 63, 13]) 13
      = .ok { num := 0, type := 0, cmd := [83, 67, 83, 0], size := 12,
              data := some (Payload.SC_SPECIAL
                ⟨68, [1, 48, 83, 77, 49, 49, 49, 48, 80, 48, 52, 63]⟩) } ∧
    envelope 0 [82, 83, 82, 72, 48, 50, 48, 48]
      = [1, 48, 82, 83, 82, 72, 48, 50, 48, 48, 50, 57, 13] ∧
    MapsProtoParseFrame (some [1, 48, 82, 83, 82, 72, 48, 50, 48, 48, 50, 57, 13]) 13
      = .ok { num := 0, type := 0, cmd := [83, 67, 83, 0], size := 12,
              data := some (Payload.SC_SPECIAL
                ⟨68, [1, 48, 82, 83, 82, 72, 48, 50, 48, 48, 50, 57]⟩) } := by
  decide

/-- C32, amended: a frame with a valid envelope (`envelope num body`,
`num <= 9`) that carries the tag of a length-dispatched command (SM, EM, AP,
RH, FA, FR, SC, IA, RM, RE; in a response after `RS`), whose total length is one
more or one less than a declared length `d` of that command in that direction,
is not itself a declared length and is not 13, makes `MapsProtoParseFrame` fail
with ENOEXEC. The declared lengths are those the decoders test: requests SM
10..12, EM 16/17, AP 9/17, RH 10, FA 7/11/12/24, FR 11/12/24, SC 11/15, IA and
RM 7/9, RE 7/39; responses RH 12 and 9 for the others. -/
theorem off_by_one_length_ENOEXEC (num c0 c1 : Nat) (rest lens : List Nat) (d : Nat)
    (hn : num ≤ 9) :
    ((c0, c1, lens) ∈ [(83, 77, [10, 11, 12]), (69, 77, [16, 17]), (65, 80, [9, 17]),
        (82, 72, [10]), (70, 65, [7, 11, 12, 24]), (70, 82, [11, 12, 24]), (83, 67, [11, 15]),
        (73, 65, [7, 9]), (82, 77, [7, 9]), (82, 69, [7, 39])] →
      d ∈ lens → (rest.length + 7 = d + 1 ∨ rest.length + 7 + 1 = d) →
      rest.length + 7 ∉ lens → rest.length + 7 ≠ 13 →
      MapsProtoParseFrame (some (envelope num (c0 :: c1 :: rest))) (rest.length + 7)
        = .error .ENOEXEC) ∧
    ((c0, c1, lens) ∈ [(83, 77, [9]), (69, 77, [9]), (65, 80, [9]), (82, 72, [12]),
        (70, 65, [9]), (70, 82, [9]), (83, 67, [9]), (73, 65, [9]), (82, 77, [9]),
        (82, 69, [9])] →
      d ∈ lens → (rest.length + 9 = d + 1 ∨ rest.length + 9 + 1 = d) →
      rest.length + 9 ∉ lens → rest.length + 9 ≠ 13 →
      MapsProtoParseFrame (some (envelope num (82 :: 83 :: c0 :: c1 :: rest)))
          (rest.length + 9)
        = .error .ENOEXEC) := by
  constructor
  · intro hcmd hd hoff hnd h13
    have hle : d ≤ 39 := by
      simp only [List.mem_cons, Prod.mk.injEq, List.mem_singleton, List.not_mem_nil, or_false]
        at hcmd
      rcases hcmd with hc | hc | hc | hc | hc | hc | hc | hc | hc | hc
      all_goals
        obtain ⟨-, -, rfl⟩ := hc
        simp only [List.mem_cons, List.mem_singleton, List.not_mem_nil, or_false] at hd
        omega
    exact undeclared_request_ENOEXEC num c0 c1 rest lens hn hcmd hnd h13 (by omega)
  · intro hcmd hd hoff hnd h13
    have hle : d ≤ 12 := by
      simp only [List.mem_cons, Prod.mk.injEq, List.mem_singleton, List.not_mem_nil, or_false]
        at hcmd
      rcases hcmd with hc | hc | hc | hc | hc | hc | hc | hc | hc | hc
      all_goals
        obtain ⟨-, -, rfl⟩ := hc
        simp only [List.mem_cons, List.mem_singleton, List.not_mem_nil, or_false] at hd
        omega
    exact undeclared_response_ENOEXEC num c0 c1 rest lens hn hcmd hnd h13 (by omega)

theorem off_by_one_length_ENOEXEC_witness :
    ((0 : Nat) ≤ 9 ∧
      ((83, 77, [10, 11, 12]) : Nat × Nat × List Nat)
        ∈ [(83, 77, [10, 11, 12]), (69, 77, [16, 17]), (65, 80, [9, 17]),
          (82, 72, [10]), (70, 65, [7, 11, 12, 24]), (70, 82, [11, 12, 24]), (83, 67, [11, 15]),
          (73, 65, [7, 9]), (82, 77, [7, 9]), (82, 69, [7, 39])] ∧
      10 ∈ [10, 11, 12] ∧ ([49, 49].length + 7 = 10 + 1 ∨ [49, 49].length + 7 + 1 = 10) ∧
      [49, 49].length + 7 ∉ [10, 11, 12] ∧ [49, 49].length + 7 ≠ 13 ∧
      MapsProtoParseFrame (some (envelope 0 (83 :: 77 :: [49, 49]))) ([49, 49].length + 7)
        = .error .ENOEXEC) ∧
    ((0 : Nat) ≤ 9 ∧
      ((82, 72, [12]) : Nat × Nat × List Nat)
        ∈ [(83, 77, [9]), (69, 77, [9]), (65, 80, [9]), (82, 72, [12]),
          (70, 65, [9]), (70, 82, [9]), (83, 67, [9]), (73, 65, [9]), (82, 77, [9]),
          (82, 69, [9])] ∧
      12 ∈ [12] ∧ ([48, 50].length + 9 = 12 + 1 ∨ [48, 50].length + 9 + 1 = 12) ∧
      [48, 50].length + 9 ∉ [12] ∧ [48, 50].length + 9 ≠ 13 ∧
      MapsProtoParseFrame (some (envelope 0 (82 :: 83 :: 82 :: 72 :: [48, 50])))
          ([48, 50].length + 9)
        = .error .ENOEXEC) :=
  ⟨⟨by decide, by decide, by decide, by decide, by decide, by decide,
      (off_by_one_length_ENOEXEC 0 83 77 [49, 49] [10, 11, 12] 10 (by decide)).1 (by decide)
        (by decide) (by decide) (by decide) (by decide)⟩,
    ⟨by decide, by decide, by decide, by decide, by decide, by decide,
      (off_by_one_length_ENOEXEC 0 82 72 [48, 50] [12] 12 (by decide)).2 (by decide)
        (by decide) (by decide) (by decide) (by decide)⟩⟩

/-! ## C33: alphabet of the SC-special builder -/

/-- C33 as stated fails for lowercase hexadecimal digits: the builder tests the
map bytes with `isxdigit`, which accepts `a`..`f`. With mode `D` and the map
`aaaaaaaaaaaa` it returns the 13-byte special frame, and with mode `A`,
presence 0, sensors `aaaaaa` and sweeps 0 it returns a 15-byte SC frame; the
byte `a` (97) is outside `0`..`9`, `A`..`F`. -/
theorem SCSpecial_request_lowercase_accepted :
    ¬ ((48 ≤ 97 ∧ 97 ≤ 57) ∨ (65 ≤ 97 ∧ 97 ≤ 70)) ∧
    MapsProtoCreateSCSpecialRequest 0 (some ⟨68, List.replicate 12 97⟩)
      = .ok ⟨13, [97, 97, 97, 97, 97, 97, 97, 97, 97, 97, 97, 97, 13]⟩ ∧
    MapsProtoCreateSCSpecialRequest 0
        (some ⟨65, [0, 97, 97, 97, 97, 97, 97, 0, 0, 0, 0, 0]⟩)
      = .ok ⟨15, [1, 48, 83, 67, 48, 97, 97, 97, 97, 97, 97, 48, 50, 48, 13]⟩ := by
  decide

/-- C33, amended: with the alphabet of `isxdigit` (`0`..`9`, `A`..`F` and
`a`..`f`), `MapsProtoCreateSCSpecialRequest` fails with EINVAL for a mode in
D, E, H, I whenever some byte of the 12-byte map is outside that alphabet, for
a mode in A, B, C whenever some byte of the 6-byte sensor map is outside it or
`sweeps_num > 9`, and for every mode outside A, B, C, D, E, H, I. -/
theorem SCSpecial_request_EINVAL (num : Nat) (d : tMAPS_PROTO_SC_SPECIAL)
    (hlen : d.MODES.length = 12) :
    (d.mode = 68 ∨ d.mode = 69 ∨ d.mode = 72 ∨ d.mode = 73 →
      (∃ b ∈ d.MODES, isxdigit b = false) →
      MapsProtoCreateSCSpecialRequest num (some d) = .error .EINVAL) ∧
    (d.mode = 65 ∨ d.mode = 66 ∨ d.mode = 67 →
      (∃ b ∈ d.sensors, isxdigit b = false) ∨ d.sweeps_num > 9 →
      MapsProtoCreateSCSpecialRequest num (some d) = .error .EINVAL) ∧
    (d.mode ∉ [65, 66, 67, 68, 69, 72, 73] →
      MapsProtoCreateSCSpecialRequest num (some d) = .error .EINVAL) := by
  refine ⟨?_, ?_, ?_⟩
  · rintro hm ⟨b, hb, hx⟩
    have h1 : ¬ (d.mode = 65 ∨ d.mode = 66 ∨ d.mode = 67) := by omega
    have hany := any_not_isxdigit_of_mem d.MODES K_MAPS_PROTO_DEHI_BUFFER
      (by rw [hlen]) b hb hx
    simp only [MapsProtoCreateSCSpecialRequest, if_neg h1, if_pos hm, hany, if_true]
  · rintro hm hbad
    simp only [MapsProtoCreateSCSpecialRequest, if_pos hm]
    rcases hbad with ⟨b, hb, hx⟩ | hs
    · have hany := any_not_isxdigit_of_mem d.sensors K_MAPS_PROTO_SENSORS_MAP
        (by simp [tMAPS_PROTO_SC_SPECIAL.sensors, K_MAPS_PROTO_SENSORS_MAP]) b hb hx
      simp only [hany, if_true]
    · split_ifs <;> rfl
  · intro hm
    have h1 : ¬ (d.mode = 65 ∨ d.mode = 66 ∨ d.mode = 67) := by
      intro h; apply hm; simp; omega
    have h2 : ¬ (d.mode = 68 ∨ d.mode = 69 ∨ d.mode = 72 ∨ d.mode = 73) := by
      intro h; apply hm; simp; omega
    simp only [MapsProtoCreateSCSpecialRequest, if_neg h1, if_neg h2]

theorem SCSpecial_request_EINVAL_witness :
    ((List.replicate 12 71).length = 12 ∧
      ((68 : Nat) = 68 ∨ (68 : Nat) = 69 ∨ (68 : Nat) = 72 ∨ (68 : Nat) = 73) ∧
      (∃ b ∈ List.replicate 12 71, isxdigit b = false) ∧
      MapsProtoCreateSCSpecialRequest 0 (some ⟨68, List.replicate 12 71⟩) = .error .EINVAL) ∧
    ([1, 70, 70, 70, 70, 70, 70, 10, 0, 0, 0, 0].length = 12 ∧
      ((66 : Nat) = 65 ∨ (66 : Nat) = 66 ∨ (66 : Nat) = 67) ∧
      ((∃ b ∈ tMAPS_PROTO_SC_SPECIAL.sensors ⟨66, [1, 70, 70, 70, 70, 70, 70, 10, 0, 0, 0, 0]⟩,
          isxdigit b = false) ∨
        tMAPS_PROTO_SC_SPECIAL.sweeps_num ⟨66, [1, 70, 70, 70, 70, 70, 70, 10, 0, 0, 0, 0]⟩
          > 9) ∧
      MapsProtoCreateSCSpecialRequest 0
        (some ⟨66, [1, 70, 70, 70, 70, 70, 70, 10, 0, 0, 0, 0]⟩) = .error .EINVAL) ∧
    ((List.replicate 12 70).length = 12 ∧ (70 : Nat) ∉ [65, 66, 67, 68, 69, 72, 73] ∧
      MapsProtoCreateSCSpecialRequest 0 (some ⟨70, List.replicate 12 70⟩) = .error .EINVAL) :=
  ⟨⟨by decide, by decide, ⟨71, by decide, by decide⟩,
      (SCSpecial_request_EINVAL 0 ⟨68, List.replicate 12 71⟩ (by decide)).1 (by decide)
        ⟨71, by decide, by decide⟩⟩,
    ⟨by decide, by decide, Or.inr (by decide),
      (SCSpecial_request_EINVAL 0 ⟨66, [1, 70, 70, 70, 70, 70, 70, 10, 0, 0, 0, 0]⟩
        (by decide)).2.1 (by decide) (Or.inr (by decide))⟩,
    ⟨by decide, by decide,
      (SCSpecial_request_EINVAL 0 ⟨70, List.replicate 12 70⟩ (by decide)).2.2 (by decide)⟩⟩

/-! ## C34: axis height of the long AP request -/

/-- C34 fails: the 17-byte AP request `envelope 0 "AP0099000000"` has a valid
envelope and the axis-height digits `99` at bytes 6..7, and
`MapsProtoParseFrame` accepts it with `axis_height = 99`: the decoder tests
`data->axis_height > 15` on the zeroed record, before the field is assigned. -/
theorem AP_long_axis_height_99_accepted :
    envelope 0 [65, 80, 48, 48, 57, 57, 48, 48, 48, 48, 48, 48]
      = [1, 48, 65, 80, 48, 48, 57, 57, 48, 48, 48, 48, 48, 48, 50, 49, 13] ∧
    MapsProtoParseFrame
        (some [1, 48, 65, 80, 48, 48, 57, 57, 48, 48, 48, 48, 48, 48, 50, 49, 13]) 17
      = .ok { num := 0, type := 0, cmd := [65, 80, 0, 0], size := 8,
              data := some (Payload.AP ⟨2, 0, 48, 0, 99, 0, 0, 0⟩) } := by
  decide

/-! ## C35: ranges of a decoded DE response -/

/-- C35 fails: the DE response `envelope 2 "RSDE00209911P3"` has the bytes `9`
and `9` in the hw_failure and se_cleaning positions (bytes 10 and 11), and
`MapsProtoParseFrame` accepts it with `hw_failure = 9` and `se_cleaning = 9`:
the tests `!isdigit(c) && c != '1' && ...` let every digit through. -/
theorem DE_response_hw_failure_9_accepted :
    envelope 2 [82, 83, 68, 69, 48, 48, 50, 48, 57, 57, 49, 49, 80, 51]
      = [1, 50, 82, 83, 68, 69, 48, 48, 50, 48, 57, 57, 49, 49, 80, 51, 53, 51, 13] ∧
    MapsProtoParseFrame
        (some [1, 50, 82, 83, 68, 69, 48, 48, 50, 48, 57, 57, 49, 49, 80, 51, 53, 51, 13]) 19
      = .ok { num := 2, type := 1, cmd := [68, 69, 0, 0], size := 9,
              data := some (Payload.DE ⟨0, 0, 2, 48, 9, 9, 11, 80, 51⟩) } := by
  decide

/-! ## C36: the axis_ispeed byte -/

/-- C36 fails: the SM request `envelope 2 "SM2a2"` carries the lowercase byte
`a` (97) in the axis_ispeed position, and `MapsProtoParseFrame` accepts it with
`axis_ispeed = 42`: `isxdigit` lets `a`..`f` through and the conversion
subtracts 55 from every byte above `9`. The same happens in the EM request
`envelope 2 "EM2a2121100"` and, with `f`, in the DE response
`envelope 2 "RSDE0f201211P3"` (`axis_ispeed = 47`). -/
theorem axis_ispeed_lowercase_accepted :
    envelope 2 [83, 77, 50, 97, 50] = [1, 50, 83, 77, 50, 97, 50, 52, 61, 13] ∧
    MapsProtoParseFrame (some [1, 50, 83, 77, 50, 97, 50, 52, 61, 13]) 10
      = .ok { num := 2, type := 0, cmd := [83, 77, 0, 0], size := 5,
              data := some (Payload.SM ⟨2, 42, 2, 48, 48⟩) } ∧
    envelope 2 [69, 77, 50, 97, 50, 49, 50, 49, 49, 48, 48]
      = [1, 50, 69, 77, 50, 97, 50, 49, 50, 49, 49, 48, 48, 53, 56, 13] ∧
    MapsProtoParseFrame
        (some [1, 50, 69, 77, 50, 97, 50, 49, 50, 49, 49, 48, 48, 53, 56, 13]) 16
      = .ok { num := 2, type := 0, cmd := [69, 77, 0, 0], size := 9,
              data := some (Payload.EM ⟨2, 42, 2, 0, 1, 2, 11, 0, 0⟩) } ∧
    envelope 2 [82, 83, 68, 69, 48, 102, 50, 48, 49, 50, 49, 49, 80, 51]
      = [1, 50, 82, 83, 68, 69, 48, 102, 50, 48, 49, 50, 49, 49, 80, 51, 48, 54, 13] ∧
    MapsProtoParseFrame
        (some [1, 50, 82, 83, 68, 69, 48, 102, 50, 48, 49, 50, 49, 49, 80, 51, 48, 54, 13]) 19
      = .ok { num := 2, type := 1, cmd := [68, 69, 0, 0], size := 9,
              data := some (Payload.DE ⟨0, 47, 2, 48, 1, 2, 11, 80, 51⟩) } := by
  decide

/-! ## C37: the presence byte of the 15-byte SC request -/

/-- C37 fails: the 15-byte SC request `envelope 9 "SC/FFFFFF7"` has the presence
byte `/` (47), and `MapsProtoParseFrame` accepts it with presence 255: the test
`(frame[4] - 48) > 1` is a signed comparison, which every byte below `0`
passes. -/
theorem SC_request_presence_slash_accepted :
    envelope 9 [83, 67, 47, 70, 70, 70, 70, 70, 70, 55]
      = [1, 57, 83, 67, 47, 70, 70, 70, 70, 70, 70, 55, 51, 49, 13] ∧
    MapsProtoParseFrame
        (some [1, 57, 83, 67, 47, 70, 70, 70, 70, 70, 70, 55, 51, 49, 13]) 15
      = .ok { num := 9, type := 0, cmd := [83, 67, 83, 0], size := 13,
              data := some (Payload.SC_SPECIAL
                ⟨65, [255, 70, 70, 70, 70, 70, 70, 7, 0, 0, 0, 0]⟩) } ∧
    tMAPS_PROTO_SC_SPECIAL.presence ⟨65, [255, 70, 70, 70, 70, 70, 70, 7, 0, 0, 0, 0]⟩
      = 255 := by
  decide

/-! ## C38: digits of the IA, RM and RH payloads -/

/-- C38 fails: the 9-byte IA request `envelope 8 "IA1A"` and RM request
`envelope 8 "RMA1"` each have a payload byte that is not a digit, and
`MapsProtoParseFrame` accepts them with the values 27 and 171 (the test is
`!isdigit(a) && !isdigit(b)`); the RH request `envelope 5 "RH10:"` has the
receiver bytes `0` and `:` and is accepted with receiver number 10 (the RH
decoder has no digit test). -/
theorem IA_RM_RH_non_digit_accepted :
    envelope 8 [73, 65, 49, 65] = [1, 56, 73, 65, 49, 65, 52, 48, 13] ∧
    isdigit 65 = false ∧
    MapsProtoParseFrame (some [1, 56, 73, 65, 49, 65, 52, 48, 13]) 9
      = .ok { num := 8, type := 0, cmd := [73, 65, 0, 0], size := 1,
              data := some (Payload.byte 27) } ∧
    envelope 8 [82, 77, 65, 49] = [1, 56, 82, 77, 65, 49, 53, 55, 13] ∧
    MapsProtoParseFrame (some [1, 56, 82, 77, 65, 49, 53, 55, 13]) 9
      = .ok { num := 8, type := 0, cmd := [82, 77, 0, 0], size := 1,
              data := some (Payload.byte 171) } ∧
    envelope 5 [82, 72, 49, 48, 58] = [1, 53, 82, 72, 49, 48, 58, 49, 52, 13] ∧
    isdigit 58 = false ∧
    MapsProtoParseFrame (some [1, 53, 82, 72, 49, 48, 58, 49, 52, 13]) 10
      = .ok { num := 5, type := 0, cmd := [82, 72, 0, 0], size := 2,
              data := some (Payload.RH ⟨1, 10⟩) } := by
  decide

/-! ## C39: no read outside the buffer -/

theorem nob_bind {α β : Type} (x : Except Errno α) (f : α → Except Errno β)
    (hx : x ≠ .error .OUT_OF_BOUNDS) (hf : ∀ a, f a ≠ .error .OUT_OF_BOUNDS) :
    (x >>= f) ≠ .error .OUT_OF_BOUNDS := by
  cases x with
  | error e =>
    intro h
    apply hx
    simpa using h
  | ok a => exact hf a

theorem nob_ite {α : Type} (c : Prop) [Decidable c] (x y : Except Errno α)
    (hx : c → x ≠ .error .OUT_OF_BOUNDS) (hy : ¬ c → y ≠ .error .OUT_OF_BOUNDS) :
    (if c then x else y) ≠ .error .OUT_OF_BOUNDS := by
  split_ifs with h
  · exact hx h
  · exact hy h

theorem nob_pure {α : Type} (a : α) : (pure a : Except Errno α) ≠ .error .OUT_OF_BOUNDS := by
  intro h
  cases h

theorem nob_rd (frame : List Nat) (i : Nat) (h : i < frame.length) :
    rd frame i ≠ .error .OUT_OF_BOUNDS := by
  rw [rd_of_lt frame i h]
  intro h
  cases h

theorem nob_rdN (frame : List Nat) (i n : Nat) (h : i + n ≤ frame.length) :
    rdN frame i n ≠ .error .OUT_OF_BOUNDS := by
  unfold rdN
  rw [if_pos h]
  intro h
  cases h

theorem nob_scan (frame : List Nat) (bad : Nat → Nat → Bool) (n i : Nat)
    (h : i + n ≤ frame.length) : scan frame bad n i ≠ .error .OUT_OF_BOUNDS := by
  induction n generalizing i with
  | zero => exact nob_pure _
  | succ n ih =>
    unfold scan
    refine nob_bind _ _ (nob_rd _ _ (by omega)) (fun b => ?_)
    refine nob_ite _ _ _ (fun _ => nob_pure _) (fun _ => ih (i + 1) (by omega))

theorem MapsProtoPrepareNoData_nob (frame : List Nat) (size : Nat)
    (parsed : tMAPS_PROTO_PARSED_FRAME) (_hlen : size ≤ frame.length) :
    MapsProtoPrepareNoData frame size parsed ≠ .error .OUT_OF_BOUNDS := by
  unfold MapsProtoPrepareNoData
  dsimp only
  repeat' first
    | exact nob_pure _
    | refine nob_ite _ _ _ (fun _ => ?_) (fun _ => ?_)

theorem MapsProtoPrepareEMData_nob (frame : List Nat) (size : Nat)
    (parsed : tMAPS_PROTO_PARSED_FRAME) (hlen : size ≤ frame.length) :
    MapsProtoPrepareEMData frame size parsed ≠ .error .OUT_OF_BOUNDS := by
  unfold MapsProtoPrepareEMData
  dsimp only
  repeat' first
    | exact nob_pure _
    | exact nob_rd _ _ (by omega)
    | refine nob_ite _ _ _ (fun _ => ?_) (fun _ => ?_)
    | refine nob_bind _ _ ?_ (fun _ => ?_)

theorem MapsProtoPrepareEJData_nob (frame : List Nat) (size : Nat)
    (parsed : tMAPS_PROTO_PARSED_FRAME) (hlen : size ≤ frame.length) :
    MapsProtoPrepareEJData frame size parsed ≠ .error .OUT_OF_BOUNDS := by
  unfold MapsProtoPrepareEJData
  dsimp only
  repeat' first
    | exact nob_pure _
    | exact nob_rd _ _ (by omega)
    | exact nob_scan _ _ _ _ (by omega)
    | refine nob_ite _ _ _ (fun _ => ?_) (fun _ => ?_)
    | refine nob_bind _ _ ?_ (fun _ => ?_)

theorem MapsProtoPrepareAPData_nob (frame : List Nat) (size : Nat)
    (parsed : tMAPS_PROTO_PARSED_FRAME) (hlen : size ≤ frame.length) :
    MapsProtoPrepareAPData frame size parsed ≠ .error .OUT_OF_BOUNDS := by
  unfold MapsProtoPrepareAPData
  dsimp only
  repeat' first
    | exact nob_pure _
    | exact nob_rd _ _ (by omega)
    | exact nob_scan _ _ _ _ (by omega)
    | refine nob_ite _ _ _ (fun _ => ?_) (fun _ => ?_)
    | refine nob_bind _ _ ?_ (fun _ => ?_)

theorem MapsProtoPrepareAJData_nob (frame : List Nat) (size : Nat)
    (parsed : tMAPS_PROTO_PARSED_FRAME) (hlen : size ≤ frame.length) :
    MapsProtoPrepareAJData frame size parsed ≠ .error .OUT_OF_BOUNDS := by
  unfold MapsProtoPrepareAJData
  simp only [K_MAPS_PROTO_RECEIVE_GROUP8, K_MAPS_PROTO_RECEIVE_GROUP3]
  repeat' first
    | exact nob_pure _
    | exact nob_rdN _ _ _ (by omega)
    | refine nob_ite _ _ _ (fun _ => ?_) (fun _ => ?_)
    | refine nob_bind _ _ ?_ (fun _ => ?_)

theorem MapsProtoPrepareTTData_nob (frame : List Nat) (size : Nat)
    (parsed : tMAPS_PROTO_PARSED_FRAME) (hlen : size ≤ frame.length) :
    MapsProtoPrepareTTData frame size parsed ≠ .error .OUT_OF_BOUNDS := by
  unfold MapsProtoPrepareTTData
  simp only [K_MAPS_PROTO_EMITTERS_MAP_SIZE, K_MAPS_PROTO_RECEIVERS_MAP_SIZE]
  repeat' first
    | exact nob_pure _
    | exact nob_rd _ _ (by omega)
    | exact nob_rdN _ _ _ (by omega)
    | exact nob_scan _ _ _ _ (by omega)
    | refine nob_ite _ _ _ (fun _ => ?_) (fun _ => ?_)
    | refine nob_bind _ _ ?_ (fun _ => ?_)

theorem MapsProtoPrepareEAData_nob (frame : List Nat) (size : Nat)
    (parsed : tMAPS_PROTO_PARSED_FRAME) (hlen : size ≤ frame.length) :
    MapsProtoPrepareEAData frame size parsed ≠ .error .OUT_OF_BOUNDS := by
  unfold MapsProtoPrepareEAData
  dsimp only
  repeat' first
    | exact nob_pure _
    | exact nob_rd _ _ (by omega)
    | exact nob_scan _ _ _ _ (by omega)
    | refine nob_ite _ _ _ (fun _ => ?_) (fun _ => ?_)
    | refine nob_bind _ _ ?_ (fun _ => ?_)

theorem MapsProtoPrepareDEData_nob (frame : List Nat) (size : Nat)
    (parsed : tMAPS_PROTO_PARSED_FRAME) (hlen : size ≤ frame.length) :
    MapsProtoPrepareDEData frame size parsed ≠ .error .OUT_OF_BOUNDS := by
  unfold MapsProtoPrepareDEData
  dsimp only
  repeat' first
    | exact nob_pure _
    | exact nob_rd _ _ (by omega)
    | refine nob_ite _ _ _ (fun _ => ?_) (fun _ => ?_)
    | refine nob_bind _ _ ?_ (fun _ => ?_)

theorem MapsProtoPrepareRHData_nob (frame : List Nat) (size : Nat)
    (parsed : tMAPS_PROTO_PARSED_FRAME) (hlen : size ≤ frame.length) :
    MapsProtoPrepareRHData frame size parsed ≠ .error .OUT_OF_BOUNDS := by
  unfold MapsProtoPrepareRHData
  by_cases ht : parsed.type = 0 <;>
    simp only [ht, ne_eq, not_true_eq_false, not_false_eq_true, if_true, if_false]
  all_goals
  repeat' first
    | exact nob_pure _
    | exact nob_rd _ _ (by omega)
    | refine nob_ite _ _ _ (fun _ => ?_) (fun _ => ?_)
    | refine nob_bind _ _ ?_ (fun _ => ?_)

theorem MapsProtoPrepareSMData_nob (frame : List Nat) (size : Nat)
    (parsed : tMAPS_PROTO_PARSED_FRAME) (hlen : size ≤ frame.length) :
    MapsProtoPrepareSMData frame size parsed ≠ .error .OUT_OF_BOUNDS := by
  unfold MapsProtoPrepareSMData
  dsimp only
  repeat' first
    | exact nob_pure _
    | exact nob_rd _ _ (by omega)
    | refine nob_ite _ _ _ (fun _ => ?_) (fun _ => ?_)
    | refine nob_bind _ _ ?_ (fun _ => ?_)

theorem MapsProtoPrepareSCData_nob (frame : List Nat) (size : Nat)
    (parsed : tMAPS_PROTO_PARSED_FRAME) (hlen : size ≤ frame.length) :
    MapsProtoPrepareSCData frame size parsed ≠ .error .OUT_OF_BOUNDS := by
  unfold MapsProtoPrepareSCData
  dsimp only
  repeat' first
    | exact nob_pure _
    | exact nob_rd _ _ (by omega)
    | exact nob_rdN _ _ _ (by omega)
    | exact nob_scan _ _ _ _ (by omega)
    | refine nob_ite _ _ _ (fun _ => ?_) (fun _ => ?_)
    | refine nob_bind _ _ ?_ (fun _ => ?_)

theorem MapsProtoPrepareCAData_nob (frame : List Nat) (size : Nat)
    (parsed : tMAPS_PROTO_PARSED_FRAME) (hlen : size ≤ frame.length) :
    MapsProtoPrepareCAData frame size parsed ≠ .error .OUT_OF_BOUNDS := by
  unfold MapsProtoPrepareCAData
  dsimp only
  repeat' first
    | exact nob_pure _
    | exact nob_rd _ _ (by omega)
    | refine nob_ite _ _ _ (fun _ => ?_) (fun _ => ?_)
    | refine nob_bind _ _ ?_ (fun _ => ?_)

theorem MapsProtoPrepareREData_nob (frame : List Nat) (size : Nat)
    (parsed : tMAPS_PROTO_PARSED_FRAME) (hlen : size ≤ frame.length) :
    MapsProtoPrepareREData frame size parsed ≠ .error .OUT_OF_BOUNDS := by
  unfold MapsProtoPrepareREData
  simp only [K_MAPS_PROTO_BMODEL_LENGTH, K_MAPS_PROTO_FVERSION_LENGTH,
    K_MAPS_PROTO_FNUM_REV_LENGTH, K_MAPS_PROTO_VER_DATE_LENGTH]
  repeat' first
    | exact nob_pure _
    | exact nob_rdN _ _ _ (by omega)
    | refine nob_ite _ _ _ (fun _ => ?_) (fun _ => ?_)
    | refine nob_bind _ _ ?_ (fun _ => ?_)

theorem MapsProtoPrepareIARMData_nob (frame : List Nat) (size : Nat)
    (parsed : tMAPS_PROTO_PARSED_FRAME) (hlen : size ≤ frame.length) :
    MapsProtoPrepareIARMData frame size parsed ≠ .error .OUT_OF_BOUNDS := by
  unfold MapsProtoPrepareIARMData
  repeat' first
    | exact nob_pure _
    | exact nob_rd _ _ (by omega)
    | refine nob_ite _ _ _ (fun _ => ?_) (fun _ => ?_)
    | refine nob_bind _ _ ?_ (fun _ => ?_)

theorem MapsProtoPrepareFailData_nob (frame : List Nat) (size : Nat)
    (parsed : tMAPS_PROTO_PARSED_FRAME) (hlen : size ≤ frame.length) :
    MapsProtoPrepareFailData frame size parsed ≠ .error .OUT_OF_BOUNDS := by
  unfold MapsProtoPrepareFailData
  dsimp only
  repeat' first
    | exact nob_pure _
    | exact nob_rd _ _ (by omega)
    | refine nob_ite _ _ _ (fun _ => ?_) (fun _ => ?_)
    | refine nob_bind _ _ ?_ (fun _ => ?_)

theorem MapsProtoPrepareDualData_nob (frame : List Nat) (size : Nat)
    (parsed : tMAPS_PROTO_PARSED_FRAME) (hlen : size ≤ frame.length) :
    MapsProtoPrepareDualData frame size parsed ≠ .error .OUT_OF_BOUNDS := by
  unfold MapsProtoPrepareDualData
  by_cases ht : parsed.type = 0 <;>
    simp only [ht, ne_eq, not_true_eq_false, not_false_eq_true, if_true, if_false]
  all_goals
  repeat' first
    | exact nob_pure _
    | exact nob_rd _ _ (by omega)
    | refine nob_ite _ _ _ (fun _ => ?_) (fun _ => ?_)
    | refine nob_bind _ _ ?_ (fun _ => ?_)

theorem MapsProtoPrepareSingelData_nob (frame : List Nat) (size : Nat)
    (parsed : tMAPS_PROTO_PARSED_FRAME) (hlen : size ≤ frame.length) :
    MapsProtoPrepareSingelData frame size parsed ≠ .error .OUT_OF_BOUNDS := by
  unfold MapsProtoPrepareSingelData
  by_cases ht : parsed.type = 0 <;>
    simp only [ht, ne_eq, not_true_eq_false, not_false_eq_true, if_true, if_false]
  all_goals
  repeat' first
    | exact nob_pure _
    | exact nob_rd _ _ (by omega)
    | refine nob_ite _ _ _ (fun _ => ?_) (fun _ => ?_)
    | refine nob_bind _ _ ?_ (fun _ => ?_)

theorem MapsProtoPrepareEndVehData_nob (frame : List Nat) (size : Nat)
    (parsed : tMAPS_PROTO_PARSED_FRAME) (hlen : size ≤ frame.length) :
    MapsProtoPrepareEndVehData frame size parsed ≠ .error .OUT_OF_BOUNDS := by
  unfold MapsProtoPrepareEndVehData
  dsimp only
  repeat' first
    | exact nob_pure _
    | exact nob_rd _ _ (by omega)
    | exact nob_scan _ _ _ _ (by omega)
    | refine nob_ite _ _ _ (fun _ => ?_) (fun _ => ?_)
    | refine nob_bind _ _ ?_ (fun _ => ?_)

theorem nob_error {α : Type} (e : Errno) (h : e ≠ .OUT_OF_BOUNDS) :
    (Except.error e : Except Errno α) ≠ .error .OUT_OF_BOUNDS := by
  intro h2
  exact h (Except.error.inj h2)

theorem MapsProtoPreparePASpecial_nob (frame : List Nat) (size : Nat)
    (parsed : tMAPS_PROTO_PARSED_FRAME) (hlen : 89 ≤ frame.length) :
    MapsProtoPreparePASpecial frame size parsed ≠ .error .OUT_OF_BOUNDS := by
  unfold MapsProtoPreparePASpecial
  simp only [K_MAPS_PROTO_RECEIVE_GROUP8, K_MAPS_PROTO_RECEIVE_GROUP3]
  repeat' first
    | exact nob_pure _
    | exact nob_rdN _ _ _ (by omega)
    | refine nob_bind _ _ ?_ (fun _ => ?_)

theorem MapsProtoPrepareSCSpecial_nob (frame : List Nat) (size : Nat)
    (parsed : tMAPS_PROTO_PARSED_FRAME) (hlen : 13 ≤ frame.length) :
    MapsProtoPrepareSCSpecial frame size parsed ≠ .error .OUT_OF_BOUNDS := by
  unfold MapsProtoPrepareSCSpecial
  simp only [K_MAPS_PROTO_DEHI_BUFFER]
  repeat' first
    | exact nob_pure _
    | exact nob_rdN _ _ _ (by omega)
    | refine nob_bind _ _ ?_ (fun _ => ?_)

theorem cstr_two_ne (a b : Nat) (k : List Nat) (hk : k.length = 3) : cstr [a, b, 0, 0] ≠ k := by
  intro h
  have hl : (cstr [a, b, 0, 0]).length ≤ 2 := by
    simp only [cstr, List.takeWhile_cons]
    split_ifs <;> simp_all
  rw [h] at hl
  omega

theorem table_nob (ci : tMAPS_PROTO_CMD_INFO) (key : List Nat)
    (h : MapsProtoFindCmd (some key) = some ci) (hk1 : key ≠ [80, 65, 83])
    (hk2 : key ≠ [83, 67, 83]) (frame : List Nat) (size : Nat)
    (parsed : tMAPS_PROTO_PARSED_FRAME) (hlen : size ≤ frame.length) :
    ci.RequestParseFunc frame size parsed ≠ .error .OUT_OF_BOUNDS ∧
    ci.ResponseParseFunc frame size parsed ≠ .error .OUT_OF_BOUNDS := by
  obtain ⟨hmem, hcmd⟩ := FindCmd_some _ _ h
  have hcmd := Option.some.inj hcmd
  simp only [cmd_data, List.mem_cons, List.mem_singleton, List.not_mem_nil, or_false] at hmem
  rcases hmem with rfl | rfl | rfl | rfl | rfl | rfl | rfl | rfl | rfl | rfl | rfl | rfl | rfl |
    rfl | rfl | rfl | rfl | rfl | rfl | rfl | rfl | rfl | rfl | rfl | rfl | rfl | rfl | rfl | rfl |
    rfl | rfl | rfl | rfl
  all_goals first
    | exact absurd hcmd.symm hk1
    | exact absurd hcmd.symm hk2
    | refine ⟨?_, ?_⟩ <;> first
      | exact MapsProtoPrepareNoData_nob _ _ _ hlen
      | exact MapsProtoPrepareSingelData_nob _ _ _ hlen
      | exact MapsProtoPrepareDualData_nob _ _ _ hlen
      | exact MapsProtoPrepareCAData_nob _ _ _ hlen
      | exact MapsProtoPrepareDEData_nob _ _ _ hlen
      | exact MapsProtoPrepareEAData_nob _ _ _ hlen
      | exact MapsProtoPrepareSCData_nob _ _ _ hlen
      | exact MapsProtoPrepareSMData_nob _ _ _ hlen
      | exact MapsProtoPrepareTTData_nob _ _ _ hlen
      | exact MapsProtoPrepareRHData_nob _ _ _ hlen
      | exact MapsProtoPrepareEndVehData_nob _ _ _ hlen
      | exact MapsProtoPrepareAJData_nob _ _ _ hlen
      | exact MapsProtoPrepareAPData_nob _ _ _ hlen
      | exact MapsProtoPrepareEJData_nob _ _ _ hlen
      | exact MapsProtoPrepareEMData_nob _ _ _ hlen
      | exact MapsProtoPrepareFailData_nob _ _ _ hlen
      | exact MapsProtoPrepareIARMData_nob _ _ _ hlen
      | exact MapsProtoPrepareREData_nob _ _ _ hlen

theorem errors_ne (code : Nat) : errors code ≠ .OUT_OF_BOUNDS := by
  unfold errors
  split_ifs <;> decide

theorem nob_jp {α β : Type} (jp : α → Except Errno β) (c : Prop) [Decidable c]
    (x y : Except Errno α) (hx : c → x ≠ .error .OUT_OF_BOUNDS)
    (hy : ¬ c → y ≠ .error .OUT_OF_BOUNDS) (hjp : ∀ a, jp a ≠ .error .OUT_OF_BOUNDS) :
    (if c then x >>= jp else y >>= jp) ≠ .error .OUT_OF_BOUNDS :=
  nob_ite _ _ _ (fun h => nob_bind _ _ (hx h) hjp) (fun h => nob_bind _ _ (hy h) hjp)

theorem ParseFrame_nob (frame : List Nat) (size : Nat) (hlen : size ≤ frame.length) :
    MapsProtoParseFrame (some frame) size ≠ .error .OUT_OF_BOUNDS := by
  have hP : K_MAPS_PROTO_PASF_SIZE = 88 := rfl
  have hS : K_MAPS_PROTO_SCSF_SIZE = 12 := rfl
  unfold MapsProtoParseFrame
  refine nob_ite _ _ _ (fun _ => nob_error _ (by decide)) (fun h7 => ?_)
  refine nob_jp _ _ _ _ (fun _ => nob_rd _ _ (by omega)) (fun _ => nob_pure _) (fun c88 => ?_)
  refine nob_ite _ _ _ (fun h => ?_) (fun _ => ?_)
  · refine nob_bind _ _ (MapsProtoPreparePASpecial_nob _ _ _ (by omega)) (fun r => ?_)
    exact nob_ite _ _ _ (fun _ => nob_error _ (by decide)) (fun _ => nob_pure _)
  refine nob_jp _ _ _ _ (fun _ => nob_rd _ _ (by omega)) (fun _ => nob_pure _) (fun c12 => ?_)
  refine nob_jp _ _ _ _ (fun _ => nob_rd _ _ (by omega)) (fun _ => nob_pure _) (fun c13 => ?_)
  refine nob_ite _ _ _ (fun h => ?_) (fun _ => ?_)
  · refine nob_bind _ _ (MapsProtoPrepareSCSpecial_nob _ _ _ (by omega)) (fun r => ?_)
    exact nob_ite _ _ _ (fun _ => nob_error _ (by decide)) (fun _ => nob_pure _)
  refine nob_bind _ _ (nob_rd _ _ (by omega)) (fun f1 => ?_)
  refine nob_bind _ _ (nob_rdN _ _ _ (by omega)) (fun lrc => ?_)
  refine nob_bind _ _ (nob_rdN _ _ _ (by omega)) (fun range => ?_)
  refine nob_ite _ _ _ (fun _ => nob_error _ (by decide)) (fun _ => ?_)
  refine nob_bind _ _ (nob_rd _ _ (by omega)) (fun f0 => ?_)
  refine nob_bind _ _ (nob_rd _ _ (by omega)) (fun fl => ?_)
  refine nob_ite _ _ _ (fun _ => nob_error _ (by decide)) (fun _ => ?_)
  refine nob_ite _ _ _ (fun _ => nob_error _ (by decide)) (fun _ => ?_)
  refine nob_bind _ _ (nob_rd _ _ (by omega)) (fun f2 => ?_)
  refine nob_bind _ _ (nob_rd _ _ (by omega)) (fun f3 => ?_)
  refine nob_ite _ _ _ (fun _ => ?_) (fun _ => ?_)
  · refine nob_bind _ _ (nob_rdN _ _ _ (by omega)) (fun c => ?_)
    exact nob_ite _ _ _ (fun _ => nob_error _ (by decide)) (fun _ => nob_pure _)
  refine nob_ite _ _ _ (fun _ => ?_) (fun _ => ?_)
  · refine nob_bind _ _ (nob_rdN _ _ _ (by omega)) (fun c => ?_)
    have hm : memcpy parsed_calloc.cmd 0 c 2 = [c.getD 0 0, c.getD 1 0, 0, 0] := rfl
    dsimp only
    rw [hm]
    split
    · exact nob_error _ (by decide)
    · rename_i ci hfind
      refine nob_bind _ _ (table_nob ci _ hfind (cstr_two_ne _ _ _ rfl) (cstr_two_ne _ _ _ rfl)
        _ _ _ hlen).2 (fun r => ?_)
      exact nob_ite _ _ _ (fun _ => nob_error _ (errors_ne _)) (fun _ => nob_pure _)
  · refine nob_bind _ _ (nob_rdN _ _ _ (by omega)) (fun c => ?_)
    have hm : memcpy parsed_calloc.cmd 0 c 2 = [c.getD 0 0, c.getD 1 0, 0, 0] := rfl
    have hm3 : memcpy parsed_calloc.cmd 0 [70, 65, 83] 3 = [70, 65, 83, 0] := rfl
    by_cases hfa : (f2 = 70 ∧ f3 = 65) ∧ size > 7
    · rw [if_pos hfa]
      dsimp only
      rw [hm3]
      split
      · exact nob_error _ (by decide)
      · rename_i ci hfind
        refine nob_bind _ _ (table_nob ci _ hfind (by decide) (by decide) _ _ _ hlen).1
          (fun r => ?_)
        exact nob_ite _ _ _ (fun _ => nob_error _ (errors_ne _)) (fun _ => nob_pure _)
    · rw [if_neg hfa]
      dsimp only
      rw [hm]
      split
      · exact nob_error _ (by decide)
      · rename_i ci hfind
        refine nob_bind _ _ (table_nob ci _ hfind (cstr_two_ne _ _ _ rfl)
          (cstr_two_ne _ _ _ rfl) _ _ _ hlen).1 (fun r => ?_)
        exact nob_ite _ _ _ (fun _ => nob_error _ (errors_ne _)) (fun _ => nob_pure _)

/-- C39: with the input modelled as a byte list whose length is exactly the
stated size, and every read of `frame[i]` failing with `OUT_OF_BOUNDS` when
`i` is not below that length, `MapsProtoParseFrame` never fails with
`OUT_OF_BOUNDS`: every byte the envelope checks and the selected payload
decoder read lies inside the buffer (the function is total, so it returns a
frame or one of the C error codes). -/
theorem MapsProtoParseFrame_reads_in_bounds (frame : List Nat) :
    MapsProtoParseFrame (some frame) frame.length ≠ .error .OUT_OF_BOUNDS :=
  ParseFrame_nob frame frame.length (Nat.le_refl _)

/-! ## C40: precedence of the special-frame test -/

theorem okq_bind {α β : Type} (x : Except Errno α) (f : α → Except Errno β) (Q : β → Prop)
    (h : ∀ a, ∀ b, f a = .ok b → Q b) : ∀ b, (x >>= f) = .ok b → Q b := by
  intro b hb
  cases x with
  | error e => simp at hb
  | ok a => exact h a b hb

theorem okq_ite {β : Type} (c : Prop) [Decidable c] (x y : Except Errno β) (Q : β → Prop)
    (hx : c → ∀ b, x = .ok b → Q b) (hy : ¬ c → ∀ b, y = .ok b → Q b) :
    ∀ b, (if c then x else y) = .ok b → Q b := by
  split_ifs with h
  · exact hx h
  · exact hy h

theorem okq_pure {β : Type} (a : β) (Q : β → Prop) (h : Q a) :
    ∀ b, (pure a : Except Errno β) = .ok b → Q b := by
  intro b hb
  cases hb
  exact h

theorem MapsProtoPrepareNoData_keeps (frame : List Nat) (size : Nat)
    (parsed : tMAPS_PROTO_PARSED_FRAME) :
    ∀ r, MapsProtoPrepareNoData frame size parsed = .ok r →
      r.2.type = parsed.type ∧
        (r.2.cmd = parsed.cmd ∨ r.2.cmd = [83, 67, 83, 0] ∨ r.2.cmd = [80, 65, 83, 0]) := by
  unfold MapsProtoPrepareNoData
  dsimp only
  repeat' first
    | exact okq_pure _ _ ⟨rfl, Or.inl rfl⟩
    | refine okq_ite _ _ _ _ (fun _ => ?_) (fun _ => ?_)

theorem MapsProtoPrepareEMData_keeps (frame : List Nat) (size : Nat)
    (parsed : tMAPS_PROTO_PARSED_FRAME) :
    ∀ r, MapsProtoPrepareEMData frame size parsed = .ok r →
      r.2.type = parsed.type ∧
        (r.2.cmd = parsed.cmd ∨ r.2.cmd = [83, 67, 83, 0] ∨ r.2.cmd = [80, 65, 83, 0]) := by
  unfold MapsProtoPrepareEMData
  dsimp only
  repeat' first
    | exact okq_pure _ _ ⟨rfl, Or.inl rfl⟩
    | refine okq_ite _ _ _ _ (fun _ => ?_) (fun _ => ?_)
    | refine okq_bind _ _ _ (fun _ => ?_)

theorem MapsProtoPrepareEJData_keeps (frame : List Nat) (size : Nat)
    (parsed : tMAPS_PROTO_PARSED_FRAME) :
    ∀ r, MapsProtoPrepareEJData frame size parsed = .ok r →
      r.2.type = parsed.type ∧
        (r.2.cmd = parsed.cmd ∨ r.2.cmd = [83, 67, 83, 0] ∨ r.2.cmd = [80, 65, 83, 0]) := by
  unfold MapsProtoPrepareEJData
  dsimp only
  repeat' first
    | exact okq_pure _ _ ⟨rfl, Or.inl rfl⟩
    | refine okq_ite _ _ _ _ (fun _ => ?_) (fun _ => ?_)
    | refine okq_bind _ _ _ (fun _ => ?_)

theorem MapsProtoPrepareAPData_keeps (frame : List Nat) (size : Nat)
    (parsed : tMAPS_PROTO_PARSED_FRAME) :
    ∀ r, MapsProtoPrepareAPData frame size parsed = .ok r →
      r.2.type = parsed.type ∧
        (r.2.cmd = parsed.cmd ∨ r.2.cmd = [83, 67, 83, 0] ∨ r.2.cmd = [80, 65, 83, 0]) := by
  unfold MapsProtoPrepareAPData
  dsimp only
  repeat' first
    | exact okq_pure _ _ ⟨rfl, Or.inl rfl⟩
    | refine okq_ite _ _ _ _ (fun _ => ?_) (fun _ => ?_)
    | refine okq_bind _ _ _ (fun _ => ?_)

theorem MapsProtoPrepareAJData_keeps (frame : List Nat) (size : Nat)
    (parsed : tMAPS_PROTO_PARSED_FRAME) :
    ∀ r, MapsProtoPrepareAJData frame size parsed = .ok r →
      r.2.type = parsed.type ∧
        (r.2.cmd = parsed.cmd ∨ r.2.cmd = [83, 67, 83, 0] ∨ r.2.cmd = [80, 65, 83, 0]) := by
  unfold MapsProtoPrepareAJData
  dsimp only
  repeat' first
    | exact okq_pure _ _ ⟨rfl, Or.inl rfl⟩
    | refine okq_ite _ _ _ _ (fun _ => ?_) (fun _ => ?_)
    | refine okq_bind _ _ _ (fun _ => ?_)

theorem MapsProtoPrepareTTData_keeps (frame : List Nat) (size : Nat)
    (parsed : tMAPS_PROTO_PARSED_FRAME) :
    ∀ r, MapsProtoPrepareTTData frame size parsed = .ok r →
      r.2.type = parsed.type ∧
        (r.2.cmd = parsed.cmd ∨ r.2.cmd = [83, 67, 83, 0] ∨ r.2.cmd = [80, 65, 83, 0]) := by
  unfold MapsProtoPrepareTTData
  dsimp only
  repeat' first
    | exact okq_pure _ _ ⟨rfl, Or.inl rfl⟩
    | refine okq_ite _ _ _ _ (fun _ => ?_) (fun _ => ?_)
    | refine okq_bind _ _ _ (fun _ => ?_)

theorem MapsProtoPrepareEAData_keeps (frame : List Nat) (size : Nat)
    (parsed : tMAPS_PROTO_PARSED_FRAME) :
    ∀ r, MapsProtoPrepareEAData frame size parsed = .ok r →
      r.2.type = parsed.type ∧
        (r.2.cmd = parsed.cmd ∨ r.2.cmd = [83, 67, 83, 0] ∨ r.2.cmd = [80, 65, 83, 0]) := by
  unfold MapsProtoPrepareEAData
  dsimp only
  repeat' first
    | exact okq_pure _ _ ⟨rfl, Or.inl rfl⟩
    | refine okq_ite _ _ _ _ (fun _ => ?_) (fun _ => ?_)
    | refine okq_bind _ _ _ (fun _ => ?_)

theorem MapsProtoPrepareDEData_keeps (frame : List Nat) (size : Nat)
    (parsed : tMAPS_PROTO_PARSED_FRAME) :
    ∀ r, MapsProtoPrepareDEData frame size parsed = .ok r →
      r.2.type = parsed.type ∧
        (r.2.cmd = parsed.cmd ∨ r.2.cmd = [83, 67, 83, 0] ∨ r.2.cmd = [80, 65, 83, 0]) := by
  unfold MapsProtoPrepareDEData
  dsimp only
  repeat' first
    | exact okq_pure _ _ ⟨rfl, Or.inl rfl⟩
    | refine okq_ite _ _ _ _ (fun _ => ?_) (fun _ => ?_)
    | refine okq_bind _ _ _ (fun _ => ?_)

theorem MapsProtoPrepareRHData_keeps (frame : List Nat) (size : Nat)
    (parsed : tMAPS_PROTO_PARSED_FRAME) :
    ∀ r, MapsProtoPrepareRHData frame size parsed = .ok r →
      r.2.type = parsed.type ∧
        (r.2.cmd = parsed.cmd ∨ r.2.cmd = [83, 67, 83, 0] ∨ r.2.cmd = [80, 65, 83, 0]) := by
  unfold MapsProtoPrepareRHData
  dsimp only
  repeat' first
    | exact okq_pure _ _ ⟨rfl, Or.inl rfl⟩
    | refine okq_ite _ _ _ _ (fun _ => ?_) (fun _ => ?_)
    | refine okq_bind _ _ _ (fun _ => ?_)

theorem MapsProtoPrepareSMData_keeps (frame : List Nat) (size : Nat)
    (parsed : tMAPS_PROTO_PARSED_FRAME) :
    ∀ r, MapsProtoPrepareSMData frame size parsed = .ok r →
      r.2.type = parsed.type ∧
        (r.2.cmd = parsed.cmd ∨ r.2.cmd = [83, 67, 83, 0] ∨ r.2.cmd = [80, 65, 83, 0]) := by
  unfold MapsProtoPrepareSMData
  dsimp only
  repeat' first
    | exact okq_pure _ _ ⟨rfl, Or.inl rfl⟩
    | refine okq_ite _ _ _ _ (fun _ => ?_) (fun _ => ?_)
    | refine okq_bind _ _ _ (fun _ => ?_)

theorem MapsProtoPrepareCAData_keeps (frame : List Nat) (size : Nat)
    (parsed : tMAPS_PROTO_PARSED_FRAME) :
    ∀ r, MapsProtoPrepareCAData frame size parsed = .ok r →
      r.2.type = parsed.type ∧
        (r.2.cmd = parsed.cmd ∨ r.2.cmd = [83, 67, 83, 0] ∨ r.2.cmd = [80, 65, 83, 0]) := by
  unfold MapsProtoPrepareCAData
  dsimp only
  repeat' first
    | exact okq_pure _ _ ⟨rfl, Or.inl rfl⟩
    | refine okq_ite _ _ _ _ (fun _ => ?_) (fun _ => ?_)
    | refine okq_bind _ _ _ (fun _ => ?_)

theorem MapsProtoPrepareREData_keeps (frame : List Nat) (size : Nat)
    (parsed : tMAPS_PROTO_PARSED_FRAME) :
    ∀ r, MapsProtoPrepareREData frame size parsed = .ok r →
      r.2.type = parsed.type ∧
        (r.2.cmd = parsed.cmd ∨ r.2.cmd = [83, 67, 83, 0] ∨ r.2.cmd = [80, 65, 83, 0]) := by
  unfold MapsProtoPrepareREData
  dsimp only
  repeat' first
    | exact okq_pure _ _ ⟨rfl, Or.inl rfl⟩
    | refine okq_ite _ _ _ _ (fun _ => ?_) (fun _ => ?_)
    | refine okq_bind _ _ _ (fun _ => ?_)

theorem MapsProtoPrepareFailData_keeps (frame : List Nat) (size : Nat)
    (parsed : tMAPS_PROTO_PARSED_FRAME) :
    ∀ r, MapsProtoPrepareFailData frame size parsed = .ok r →
      r.2.type = parsed.type ∧
        (r.2.cmd = parsed.cmd ∨ r.2.cmd = [83, 67, 83, 0] ∨ r.2.cmd = [80, 65, 83, 0]) := by
  unfold MapsProtoPrepareFailData
  dsimp only
  repeat' first
    | exact okq_pure _ _ ⟨rfl, Or.inl rfl⟩
    | refine okq_ite _ _ _ _ (fun _ => ?_) (fun _ => ?_)
    | refine okq_bind _ _ _ (fun _ => ?_)

theorem MapsProtoPrepareDualData_keeps (frame : List Nat) (size : Nat)
    (parsed : tMAPS_PROTO_PARSED_FRAME) :
    ∀ r, MapsProtoPrepareDualData frame size parsed = .ok r →
      r.2.type = parsed.type ∧
        (r.2.cmd = parsed.cmd ∨ r.2.cmd = [83, 67, 83, 0] ∨ r.2.cmd = [80, 65, 83, 0]) := by
  unfold MapsProtoPrepareDualData
  dsimp only
  repeat' first
    | exact okq_pure _ _ ⟨rfl, Or.inl rfl⟩
    | refine okq_ite _ _ _ _ (fun _ => ?_) (fun _ => ?_)
    | refine okq_bind _ _ _ (fun _ => ?_)

theorem MapsProtoPrepareSingelData_keeps (frame : List Nat) (size : Nat)
    (parsed : tMAPS_PROTO_PARSED_FRAME) :
    ∀ r, MapsProtoPrepareSingelData frame size parsed = .ok r →
      r.2.type = parsed.type ∧
        (r.2.cmd = parsed.cmd ∨ r.2.cmd = [83, 67, 83, 0] ∨ r.2.cmd = [80, 65, 83, 0]) := by
  unfold MapsProtoPrepareSingelData
  dsimp only
  repeat' first
    | exact okq_pure _ _ ⟨rfl, Or.inl rfl⟩
    | refine okq_ite _ _ _ _ (fun _ => ?_) (fun _ => ?_)
    | refine okq_bind _ _ _ (fun _ => ?_)

theorem MapsProtoPrepareEndVehData_keeps (frame : List Nat) (size : Nat)
    (parsed : tMAPS_PROTO_PARSED_FRAME) :
    ∀ r, MapsProtoPrepareEndVehData frame size parsed = .ok r →
      r.2.type = parsed.type ∧
        (r.2.cmd = parsed.cmd ∨ r.2.cmd = [83, 67, 83, 0] ∨ r.2.cmd = [80, 65, 83, 0]) := by
  unfold MapsProtoPrepareEndVehData
  dsimp only
  repeat' first
    | exact okq_pure _ _ ⟨rfl, Or.inl rfl⟩
    | refine okq_ite _ _ _ _ (fun _ => ?_) (fun _ => ?_)
    | refine okq_bind _ _ _ (fun _ => ?_)

theorem MapsProtoPrepareIARMData_keeps (frame : List Nat) (size : Nat)
    (parsed : tMAPS_PROTO_PARSED_FRAME) :
    ∀ r, MapsProtoPrepareIARMData frame size parsed = .ok r →
      r.2.type = parsed.type ∧
        (r.2.cmd = parsed.cmd ∨ r.2.cmd = [83, 67, 83, 0] ∨ r.2.cmd = [80, 65, 83, 0]) := by
  unfold MapsProtoPrepareIARMData
  repeat' first
    | exact okq_pure _ _ ⟨rfl, Or.inl rfl⟩
    | refine okq_ite _ _ _ _ (fun _ => ?_) (fun _ => ?_)
    | refine okq_bind _ _ _ (fun _ => ?_)

theorem MapsProtoPrepareSCData_keeps (frame : List Nat) (size : Nat)
    (parsed : tMAPS_PROTO_PARSED_FRAME) :
    ∀ r, MapsProtoPrepareSCData frame size parsed = .ok r →
      r.2.type = parsed.type ∧
        (r.2.cmd = parsed.cmd ∨ r.2.cmd = [83, 67, 83, 0] ∨ r.2.cmd = [80, 65, 83, 0]) := by
  unfold MapsProtoPrepareSCData
  dsimp only
  repeat' first
    | exact okq_pure _ _ ⟨rfl, Or.inl rfl⟩
    | exact okq_pure _ _ ⟨rfl, Or.inr (Or.inl rfl)⟩
    | refine okq_ite _ _ _ _ (fun _ => ?_) (fun _ => ?_)
    | refine okq_bind _ _ _ (fun _ => ?_)

theorem MapsProtoPreparePASpecial_keeps (frame : List Nat) (size : Nat)
    (parsed : tMAPS_PROTO_PARSED_FRAME) :
    ∀ r, MapsProtoPreparePASpecial frame size parsed = .ok r →
      r.2.type = parsed.type ∧
        (r.2.cmd = parsed.cmd ∨ r.2.cmd = [83, 67, 83, 0] ∨ r.2.cmd = [80, 65, 83, 0]) := by
  unfold MapsProtoPreparePASpecial
  dsimp only
  repeat' first
    | exact okq_pure _ _ ⟨rfl, Or.inr (Or.inr rfl)⟩
    | refine okq_bind _ _ _ (fun _ => ?_)

theorem MapsProtoPrepareSCSpecial_keeps (frame : List Nat) (size : Nat)
    (parsed : tMAPS_PROTO_PARSED_FRAME) :
    ∀ r, MapsProtoPrepareSCSpecial frame size parsed = .ok r →
      r.2.type = parsed.type ∧
        (r.2.cmd = parsed.cmd ∨ r.2.cmd = [83, 67, 83, 0] ∨ r.2.cmd = [80, 65, 83, 0]) := by
  unfold MapsProtoPrepareSCSpecial
  dsimp only
  repeat' first
    | exact okq_pure _ _ ⟨rfl, Or.inr (Or.inl rfl)⟩
    | refine okq_bind _ _ _ (fun _ => ?_)

theorem okq_error {β : Type} (e : Errno) (Q : β → Prop) :
    ∀ b, (Except.error e : Except Errno β) = .ok b → Q b := by
  intro b hb
  cases hb

theorem okp_bind {α β : Type} (x : Except Errno α) (f : α → Except Errno β) (Q : β → Prop)
    (h : ∀ a, x = .ok a → ∀ b, f a = .ok b → Q b) : ∀ b, (x >>= f) = .ok b → Q b := by
  intro b hb
  cases x with
  | error e => simp at hb
  | ok a => exact h a rfl b hb

theorem okp_jp {α β : Type} (jp : α → Except Errno β) (c : Prop) [Decidable c]
    (x y : Except Errno α) (Q : β → Prop)
    (h : ∀ a, (if c then x else y) = .ok a → ∀ b, jp a = .ok b → Q b) :
    ∀ b, (if c then x >>= jp else y >>= jp) = .ok b → Q b := by
  split_ifs at h ⊢ with hc
  · exact okp_bind _ _ _ h
  · exact okp_bind _ _ _ h

theorem table_keeps (ci : tMAPS_PROTO_CMD_INFO) (hmem : ci ∈ cmd_data) (frame : List Nat)
    (size : Nat) (parsed : tMAPS_PROTO_PARSED_FRAME) :
    (∀ r, ci.RequestParseFunc frame size parsed = .ok r →
      r.2.type = parsed.type ∧
        (r.2.cmd = parsed.cmd ∨ r.2.cmd = [83, 67, 83, 0] ∨ r.2.cmd = [80, 65, 83, 0])) ∧
    (∀ r, ci.ResponseParseFunc frame size parsed = .ok r →
      r.2.type = parsed.type ∧
        (r.2.cmd = parsed.cmd ∨ r.2.cmd = [83, 67, 83, 0] ∨ r.2.cmd = [80, 65, 83, 0])) := by
  simp only [cmd_data, List.mem_cons, List.mem_singleton, List.not_mem_nil, or_false] at hmem
  rcases hmem with rfl | rfl | rfl | rfl | rfl | rfl | rfl | rfl | rfl | rfl | rfl | rfl | rfl |
    rfl | rfl | rfl | rfl | rfl | rfl | rfl | rfl | rfl | rfl | rfl | rfl | rfl | rfl | rfl | rfl |
    rfl | rfl | rfl | rfl
  all_goals
    refine ⟨?_, ?_⟩ <;> first
      | exact MapsProtoPrepareNoData_keeps frame size parsed
      | exact MapsProtoPrepareSingelData_keeps frame size parsed
      | exact MapsProtoPrepareDualData_keeps frame size parsed
      | exact MapsProtoPrepareCAData_keeps frame size parsed
      | exact MapsProtoPrepareDEData_keeps frame size parsed
      | exact MapsProtoPrepareEAData_keeps frame size parsed
      | exact MapsProtoPrepareSCData_keeps frame size parsed
      | exact MapsProtoPrepareSMData_keeps frame size parsed
      | exact MapsProtoPrepareTTData_keeps frame size parsed
      | exact MapsProtoPrepareRHData_keeps frame size parsed
      | exact MapsProtoPreparePASpecial_keeps frame size parsed
      | exact MapsProtoPrepareSCSpecial_keeps frame size parsed
      | exact MapsProtoPrepareEndVehData_keeps frame size parsed
      | exact MapsProtoPrepareAJData_keeps frame size parsed
      | exact MapsProtoPrepareAPData_keeps frame size parsed
      | exact MapsProtoPrepareEJData_keeps frame size parsed
      | exact MapsProtoPrepareEMData_keeps frame size parsed
      | exact MapsProtoPrepareFailData_keeps frame size parsed
      | exact MapsProtoPrepareIARMData_keeps frame size parsed
      | exact MapsProtoPrepareREData_keeps frame size parsed

theorem EJData_ok_size (frame : List Nat) (size : Nat) (parsed : tMAPS_PROTO_PARSED_FRAME)
    (r : Nat × tMAPS_PROTO_PARSED_FRAME) (h : MapsProtoPrepareEJData frame size parsed = .ok r)
    (h0 : r.1 = 0) : size = 13 := by
  by_contra hs
  unfold MapsProtoPrepareEJData at h
  rw [if_neg hs] at h
  cases h
  simp at h0

theorem ParseFrame_EJ_not_request (frame : List Nat) (size : Nat) :
    ∀ p, MapsProtoParseFrame (some frame) size = .ok p → cstr p.cmd = [69, 74] → p.type ≠ 0 := by
  have hS : K_MAPS_PROTO_SCSF_SIZE = 12 := rfl
  unfold MapsProtoParseFrame
  refine okq_ite _ _ _ _ (fun _ => okq_error _ _) (fun h7 => ?_)
  refine okp_jp _ _ _ _ _ (fun c88 _ => ?_)
  refine okq_ite _ _ _ _ (fun _ => ?_) (fun _ => ?_)
  · refine okp_bind _ _ _ (fun r hr => ?_)
    refine okq_ite _ _ _ _ (fun _ => okq_error _ _) (fun _ => okq_pure _ _ ?_)
    intro hc
    obtain ⟨-, h | h | h⟩ := MapsProtoPreparePASpecial_keeps _ _ _ r hr <;> rw [h] at hc <;>
      exact absurd hc (by decide)
  refine okp_jp _ _ _ _ _ (fun c12 h12 => ?_)
  refine okp_jp _ _ _ _ _ (fun c13 _ => ?_)
  refine okq_ite _ _ _ _ (fun _ => ?_) (fun hns => ?_)
  · refine okp_bind _ _ _ (fun r hr => ?_)
    refine okq_ite _ _ _ _ (fun _ => okq_error _ _) (fun _ => okq_pure _ _ ?_)
    intro hc
    obtain ⟨-, h | h | h⟩ := MapsProtoPrepareSCSpecial_keeps _ _ _ r hr <;> rw [h] at hc <;>
      exact absurd hc (by decide)
  refine okq_bind _ _ _ (fun f1 => ?_)
  refine okq_bind _ _ _ (fun lrc => ?_)
  refine okq_bind _ _ _ (fun range => ?_)
  refine okq_ite _ _ _ _ (fun _ => okq_error _ _) (fun _ => ?_)
  refine okq_bind _ _ _ (fun f0 => ?_)
  refine okp_bind _ _ _ (fun fl hfl => ?_)
  refine okq_ite _ _ _ _ (fun _ => okq_error _ _) (fun hsc => ?_)
  refine okq_ite _ _ _ _ (fun _ => okq_error _ _) (fun _ => ?_)
  refine okq_bind _ _ _ (fun f2 => ?_)
  refine okq_bind _ _ _ (fun f3 => ?_)
  refine okq_ite _ _ _ _ (fun _ => ?_) (fun _ => ?_)
  · refine okq_bind _ _ _ (fun c => ?_)
    refine okq_ite _ _ _ _ (fun _ => okq_error _ _) (fun _ => okq_pure _ _ ?_)
    intro _
    show (2 : Nat) ≠ 0
    decide
  refine okq_ite _ _ _ _ (fun _ => ?_) (fun _ => ?_)
  · refine okq_bind _ _ _ (fun c => ?_)
    dsimp only
    split
    · exact okq_error _ _
    · rename_i ci hfind
      refine okp_bind _ _ _ (fun r hr => ?_)
      refine okq_ite _ _ _ _ (fun _ => okq_error _ _) (fun _ => okq_pure _ _ ?_)
      intro _
      rw [((table_keeps ci (FindCmd_some _ _ hfind).1 _ _ _).2 r hr).1]
      show (1 : Nat) ≠ 0
      decide
  · refine okq_bind _ _ _ (fun c => ?_)
    have hm : memcpy parsed_calloc.cmd 0 c 2 = [c.getD 0 0, c.getD 1 0, 0, 0] := rfl
    have hm3 : memcpy parsed_calloc.cmd 0 [70, 65, 83] 3 = [70, 65, 83, 0] := rfl
    by_cases hfa : (f2 = 70 ∧ f3 = 65) ∧ size > 7
    · rw [if_pos hfa]
      dsimp only
      rw [hm3]
      split
      · exact okq_error _ _
      · rename_i ci hfind
        refine okp_bind _ _ _ (fun r hr => ?_)
        refine okq_ite _ _ _ _ (fun _ => okq_error _ _) (fun _ => okq_pure _ _ ?_)
        intro hc
        obtain ⟨-, h | h | h⟩ := (table_keeps ci (FindCmd_some _ _ hfind).1 _ _ _).1 r hr
        · rw [h] at hc
          have hc' : cstr [70, 65, 83, 0] = [69, 74] := hc
          exact absurd hc' (by decide)
        · rw [h] at hc
          exact absurd hc (by decide)
        · rw [h] at hc
          exact absurd hc (by decide)
    · rw [if_neg hfa]
      dsimp only
      rw [hm]
      split
      · exact okq_error _ _
      · rename_i ci hfind
        refine okp_bind _ _ _ (fun r hr => ?_)
        refine okq_ite _ _ _ _ (fun _ => okq_error _ _) (fun hr0 => okq_pure _ _ ?_)
        intro hc
        obtain ⟨-, h | h | h⟩ := (table_keeps ci (FindCmd_some _ _ hfind).1 _ _ _).1 r hr
        · rw [h] at hc
          have hc' : cstr [c.getD 0 0, c.getD 1 0, 0, 0] = [69, 74] := hc
          have hEJ : MapsProtoFindCmd (some [69, 74])
              = some ⟨0b100, 0b001, [69, 74], MapsProtoPrepareEJData, MapsProtoPrepareNoData⟩ :=
            rfl
          rw [hc', hEJ] at hfind
          cases hfind
          have h13 := EJData_ok_size _ _ _ r hr (not_not.1 hr0)
          subst h13
          have hfl' : rd frame 12 = .ok fl := hfl
          have h12' : rd frame 12 = .ok c12 := by simpa [hS] using h12
          have e : c12 = fl := by
            rw [h12'] at hfl'
            exact Except.ok.inj hfl'
          have hcr : fl = K_MAPS_PROTO_CR := by
            by_contra hx
            exact hsc (Or.inr hx)
          exact absurd (Or.inl ⟨by rw [hS], by rw [e, hcr]⟩) hns
        · rw [h] at hc
          exact absurd hc (by decide)
        · rw [h] at hc
          exact absurd hc (by decide)

theorem special_13_parse (frame : List Nat) (hlen : 13 ≤ frame.length)
    (hcr : frame.getD 12 0 = K_MAPS_PROTO_CR) :
    MapsProtoParseFrame (some frame) 13
      = .ok { num := 0, type := 0, cmd := [83, 67, 83, 0], size := 12,
              data := some (Payload.SC_SPECIAL ⟨68, frame.take 12⟩) } := by
  have r12 : rd frame 12 = .ok 13 := by
    rw [rd_of_lt frame 12 (by omega), hcr]
  have m : rdN frame 0 12 = .ok (frame.take 12) := by
    unfold rdN
    rw [if_pos (by omega)]
    simp
  have hsb : src_bytes (frame.take 12) 12 = frame.take 12 := by
    rw [src_bytes_take _ _ (by simp; omega)]
    simp
  have hback : memcpy (List.replicate 12 0) 0 (frame.take 12) 12 = frame.take 12 := by
    rw [memcpy_eq _ _ _ _ (by simp), hsb]
    simp
  simp [MapsProtoParseFrame, MapsProtoPrepareSCSpecial, parsed_calloc, r12, m,
    K_MAPS_PROTO_DEHI_BUFFER, K_MAPS_PROTO_CR, K_MAPS_PROTO_SCSF_SIZE, K_MAPS_PROTO_PASF_SIZE]
  exact hback

/-- C40 as stated fails in its last part: the parser does return frames whose
command tag is EJ. `MapsProtoCreateUnknownResponse(0, "EJ")` builds
`01 30 4E 45 45 4A 33 34 0D`, which parses as an unknown-command frame (type 2)
with cmd `EJ`, and `MapsProtoCreateEmptyResponse(0, "EJ")` builds
`01 30 52 53 45 4A 33 3E 0D`, which parses as a response (type 1) with cmd
`EJ`. -/
theorem parser_returns_EJ_tag :
    MapsProtoCreateUnknownResponse 0 (some [69, 74])
      = .ok ⟨9, [1, 48, 78, 69, 69, 74, 51, 52, 13]⟩ ∧
    MapsProtoParseFrame (some [1, 48, 78, 69, 69, 74, 51, 52, 13]) 9
      = .ok { num := 0, type := 2, cmd := [69, 74, 0, 0], size := 0, data := none } ∧
    MapsProtoCreateEmptyResponse 0 (some [69, 74])
      = .ok ⟨9, [1, 48, 82, 83, 69, 74, 51, 62, 13]⟩ ∧
    MapsProtoParseFrame (some [1, 48, 82, 83, 69, 74, 51, 62, 13]) 9
      = .ok { num := 0, type := 1, cmd := [69, 74, 0, 0], size := 0, data := none } := by
  decide

/-- C40, amended: the special-frame test comes before the envelope checks. A
buffer of at least 13 bytes parsed with size 13 whose byte 12 is CR is accepted
as cmd `SCS`, mode `D`, num 0, type request, with its first 12 bytes as the
map, whatever those bytes are (no SOH, LRC, command or hexadecimal check).
Consequently no input makes the parser return a request (type 0) whose command
tag is EJ: a returned frame with the tag EJ is an unknown-command or response
frame. -/
theorem special_frame_precedence (frame : List Nat) (size : Nat)
    (p : tMAPS_PROTO_PARSED_FRAME) :
    (13 ≤ frame.length → frame.getD 12 0 = K_MAPS_PROTO_CR →
      MapsProtoParseFrame (some frame) 13
        = .ok { num := 0, type := 0, cmd := [83, 67, 83, 0], size := 12,
                data := some (Payload.SC_SPECIAL ⟨68, frame.take 12⟩) }) ∧
    (MapsProtoParseFrame (some frame) size = .ok p → cstr p.cmd = [69, 74] → p.type ≠ 0) :=
  ⟨special_13_parse frame, ParseFrame_EJ_not_request frame size p⟩

theorem special_frame_precedence_witness :
    (13 ≤ [0, 0, 0, 0, 0, 0, 0, 0, 0, 0, 0, 0, 13].length ∧
      [0, 0, 0, 0, 0, 0, 0, 0, 0, 0, 0, 0, 13].getD 12 0 = K_MAPS_PROTO_CR ∧
      MapsProtoParseFrame (some [0, 0, 0, 0, 0, 0, 0, 0, 0, 0, 0, 0, 13]) 13
        = .ok { num := 0, type := 0, cmd := [83, 67, 83, 0], size := 12,
                data := some (Payload.SC_SPECIAL
                  ⟨68, [0, 0, 0, 0, 0, 0, 0, 0, 0, 0, 0, 0, 13].take 12⟩) }) ∧
    (MapsProtoParseFrame (some [1, 48, 78, 69, 69, 74, 51, 52, 13]) 9
        = .ok { num := 0, type := 2, cmd := [69, 74, 0, 0], size := 0, data := none } ∧
      cstr (tMAPS_PROTO_PARSED_FRAME.cmd
        { num := 0, type := 2, cmd := [69, 74, 0, 0], size := 0, data := none }) = [69, 74] ∧
      tMAPS_PROTO_PARSED_FRAME.type
        { num := 0, type := 2, cmd := [69, 74, 0, 0], size := 0, data := none } ≠ 0) :=
  ⟨⟨by decide, by decide,
      (special_frame_precedence [0, 0, 0, 0, 0, 0, 0, 0, 0, 0, 0, 0, 13] 13
        { num := 0, type := 0, cmd := [0, 0, 0, 0], size := 0, data := none }).1
        (by decide) (by decide)⟩,
    ⟨by decide, by decide,
      (special_frame_precedence [1, 48, 78, 69, 69, 74, 51, 52, 13] 9
        { num := 0, type := 2, cmd := [69, 74, 0, 0], size := 0, data := none }).2
        (by decide) (by decide)⟩⟩

end MapsProto
